import Mathlib

/-!
# microservice-users: session and token lifecycle

A shallow embedding of the Go packages under `internal/app`,
`internal/adapters` and `internal/ports`, followed by theorems about sign-in,
sign-up, federated sign-in, token issuance, refresh rotation, the session cap,
the settings update, the token codec and the sign-in handler.

Modelling conventions

* A Go function returning `(T, error)` returns a record holding the value, the
  error (`none` is `nil`) and, for code that talks to the database, the
  database afterwards.
* The PostgreSQL database is a record of two tables (lists of rows) plus a
  ghost `trace` of the statements issued so far.  A statement can fail for
  reasons outside the program (connection loss, constraint violation); the
  `Faults` argument says which statements fail.  A failed statement changes no
  table.
* `uuid.UUID` is a natural number, `uuid.Nil` is `0`; `time.Time` is a number of
  nanoseconds since the Unix epoch.  Values drawn from the environment
  (`uuid.New()`, `time.Now()`) are arguments.
* The third-party libraries (`golang-jwt`, `bcrypt`, `idtoken`) are arguments:
  functions with the library's signature.
* `createTokens` starts two goroutines and never waits for them.  The order in
  which their steps fall among the steps of `createTokens` is an argument (a
  `Schedule`), and a run can panic: the functions of the auth service that end
  in `createTokens` return an `Outcome`, a result with a field that tells
  whether the run panicked.
-/

set_option autoImplicit false

namespace Users

/-! ## Basic types -/

/-- Go type `uuid.UUID`. -/
abbrev UUID := Nat

/-- Go value `uuid.Nil`, the zero value of `uuid.UUID`. -/
def uuidNil : UUID := 0

/-! ## package errors (`internal/app/errors/errors.go`) -/

namespace apperrors

/-- Go type `ErrorType`: a struct with one string field. -/
structure ErrorType where
  t : String
  deriving DecidableEq, Repr

def ErrorTypeUnknown : ErrorType := ⟨"unknown"⟩
def ErrorTypeAuthorization : ErrorType := ⟨"authorization"⟩
def ErrorTypeIncorrectInput : ErrorType := ⟨"incorrect-input"⟩
def ErrorNotFound : ErrorType := ⟨"not-found"⟩

/-- Go type `AppError`. -/
structure AppError where
  error : String
  slug : String
  errorType : ErrorType
  deriving DecidableEq, Repr

def AppError.Error (s : AppError) : String := s.error

def AppError.Slug (s : AppError) : String := s.slug

def AppError.ErrorType (s : AppError) : ErrorType := s.errorType

def NewAppError (error slug : String) : AppError :=
  { error := error, slug := slug, errorType := ErrorTypeUnknown }

def NewAuthorizationError (error slug : String) : AppError :=
  { error := error, slug := slug, errorType := ErrorTypeAuthorization }

def NewIncorrectInputError (error slug : String) : AppError :=
  { error := error, slug := slug, errorType := ErrorTypeIncorrectInput }

def NewNotFoundError (error slug : String) : AppError :=
  { error := error, slug := slug, errorType := ErrorNotFound }

end apperrors

open apperrors in
/-- A non-nil value of the Go interface `error`: an `AppError`, the driver's
sentinel `pgx.ErrNoRows`, or any other error, of which only the message is
kept. -/
inductive GoError where
  | app (e : AppError)
  | noRows
  | plain (msg : String)
  deriving DecidableEq, Repr

/-- Method `Error()` of the interface. -/
def GoError.Error : GoError → String
  | .app e => e.Error
  | .noRows => "no rows in result set"
  | .plain msg => msg

namespace apperrors

/-- `IsApp`: the type assertion `err.(AppError)` succeeds. -/
def IsApp : GoError → Bool
  | .app _ => true
  | _ => false

/-- `IsNotFound`: an `AppError` whose type is `ErrorNotFound`. -/
def IsNotFound : GoError → Bool
  | .app a => decide (a.ErrorType = ErrorNotFound)
  | _ => false

end apperrors

/-! ## package currency, package day -/

namespace currency

/-- Go type `Currency`. -/
structure Currency where
  v : String
  deriving DecidableEq, Repr

def UNKNOWN : Currency := ⟨"UNKNOWN"⟩
def RUB : Currency := ⟨"RUB"⟩
def GEL : Currency := ⟨"GEL"⟩
def AMD : Currency := ⟨"AMD"⟩
def USD : Currency := ⟨"USD"⟩
def EUR : Currency := ⟨"EUR"⟩
def RSD : Currency := ⟨"RSD"⟩

def Currency.String (c : Currency) : String := c.v

/-- The six codes of the closed set, in the order of the `switch`. -/
def codes : List String := ["RUB", "GEL", "AMD", "USD", "EUR", "RSD"]

/-- `currency.FromString`: the `switch` over the six codes. -/
def FromString (value : String) : Currency × Option GoError :=
  if value = RUB.String then (RUB, none)
  else if value = GEL.String then (GEL, none)
  else if value = AMD.String then (AMD, none)
  else if value = USD.String then (USD, none)
  else if value = EUR.String then (EUR, none)
  else if value = RSD.String then (RSD, none)
  else (UNKNOWN, some (.plain "Invalid currency value"))

end currency

namespace day

/-- Go type `Day`. -/
structure Day where
  v : String
  deriving DecidableEq, Repr

def UNKNOWN : Day := ⟨"UNKNOWN"⟩
def MON : Day := ⟨"MON"⟩
def TUE : Day := ⟨"TUE"⟩
def WED : Day := ⟨"WED"⟩
def THU : Day := ⟨"THU"⟩
def FRI : Day := ⟨"FRI"⟩
def SAT : Day := ⟨"SAT"⟩
def SUN : Day := ⟨"SUN"⟩

def Day.String (c : Day) : String := c.v

/-- The seven codes of the closed set, in the order of the `switch`. -/
def codes : List String := ["MON", "TUE", "WED", "THU", "FRI", "SAT", "SUN"]

/-- `day.FromString`: the `switch` over the seven codes. -/
def FromString (value : String) : Day × Option GoError :=
  if value = MON.String then (MON, none)
  else if value = TUE.String then (TUE, none)
  else if value = WED.String then (WED, none)
  else if value = THU.String then (THU, none)
  else if value = FRI.String then (FRI, none)
  else if value = SAT.String then (SAT, none)
  else if value = SUN.String then (SUN, none)
  else (UNKNOWN, some (.plain ("Invalid day value " ++ value)))

end day

/-! ## package jwt (`internal/app/jwt/jwt.go`) -/

namespace jwt

/-- Wrap-around of a 64-bit signed integer (Go `int64` arithmetic). -/
def wrapInt64 (x : Int) : Int :=
  (x + 2 ^ 63) % 2 ^ 64 - 2 ^ 63

/-- Go expression `jwt.NewNumericDate(now.Add(time.Duration(ttl) * time.Second))`
as Unix seconds: the duration is an `int64` number of nanoseconds and the date is
truncated to the second. -/
def expiresAt (now : Int) (ttl : Int) : Int :=
  Int.fdiv (now + wrapInt64 (wrapInt64 ttl * 1000000000)) 1000000000

/-- Go type `AccessClaims`; of the embedded `RegisteredClaims` only `ExpiresAt`
is ever set. -/
structure AccessClaims where
  UserId : UUID
  ExpiresAt : Option Int
  deriving DecidableEq, Repr

/-- Go type `RefreshClaims`. -/
structure RefreshClaims where
  UUID : Users.UUID
  UserId : Users.UUID
  ExpiresAt : Option Int
  deriving DecidableEq, Repr

/-- Go type `AccessJWT`. -/
structure AccessJWT where
  Claims : AccessClaims
  Token : String
  deriving DecidableEq, Repr

/-- Go type `RefreshJWT`. -/
structure RefreshJWT where
  Claims : RefreshClaims
  Token : String
  deriving DecidableEq, Repr

/-- Zero value `AccessJWT{}`. -/
def AccessJWT.zero : AccessJWT :=
  { Claims := { UserId := uuidNil, ExpiresAt := none }, Token := "" }

/-- Zero value `RefreshJWT{}`. -/
def RefreshJWT.zero : RefreshJWT :=
  { Claims := { UUID := uuidNil, UserId := uuidNil, ExpiresAt := none }, Token := "" }

/-- Go type `JWTService`. -/
structure JWTService where
  secret : String
  accessTTL : Int
  refreshTTL : Int
  deriving DecidableEq, Repr

/-- Families of signing methods a parsed token header can name. -/
inductive SigningMethod where
  | HMAC
  | RSA
  | RSAPSS
  | ECDSA
  | Ed25519
  | None
  deriving DecidableEq, Repr

/-- Library type `jwt.Token`, as far as the program reads it. -/
structure Token (C : Type) where
  Method : SigningMethod
  Alg : String
  Claims : C
  Valid : Bool

/-- The functions of `github.com/golang-jwt/jwt/v4` the program calls.
`SignedString*` is `jwt.NewWithClaims(jwt.SigningMethodHS256, c).SignedString(key)`;
`Parse*` is `jwt.ParseWithClaims(token, &C{}, keyFunc)`. -/
structure Lib where
  SignedStringAccess : AccessClaims → String → Except String String
  SignedStringRefresh : RefreshClaims → String → Except String String
  ParseAccess : String → (Token AccessClaims → Except String String) →
    Except String (Token AccessClaims)
  ParseRefresh : String → (Token RefreshClaims → Except String String) →
    Except String (Token RefreshClaims)

def NewAccessClaims (UserId : UUID) (_Email _Name : String) : AccessClaims :=
  { UserId := UserId, ExpiresAt := none }

def NewRefreshClaims (UserId : UUID) : RefreshClaims :=
  { UUID := uuidNil, UserId := UserId, ExpiresAt := none }

/-- `JWTService.CreateAccess`; `now` is the value of `time.Now()`. -/
def CreateAccess (L : Lib) (h : JWTService) (now : Int) (c : AccessClaims) :
    AccessJWT × Option GoError :=
  let c1 := { c with ExpiresAt := some (expiresAt now h.accessTTL) }
  match L.SignedStringAccess c1 h.secret with
  | .error e => (AccessJWT.zero, some (.plain e))
  | .ok sign => ({ Claims := c1, Token := sign }, none)

/-- `JWTService.CreateRefresh`; `now` is the value of `time.Now()` and `fresh`
the value of `uuid.New()`. -/
def CreateRefresh (L : Lib) (h : JWTService) (now : Int) (fresh : UUID) (c : RefreshClaims) :
    RefreshJWT × Option GoError :=
  let c1 := { c with ExpiresAt := some (expiresAt now h.refreshTTL) }
  let c2 := { c1 with UUID := fresh }
  match L.SignedStringRefresh c2 h.secret with
  | .error e => (RefreshJWT.zero, some (.plain e))
  | .ok sign => ({ Claims := c2, Token := sign }, none)

/-- `JWTService.validateParsed`, the key function handed to the parser. -/
def validateParsed {C : Type} (h : JWTService) (parsed : Token C) : Except String String :=
  if parsed.Method ≠ SigningMethod.HMAC then
    .error ("unexpected signing method: " ++ parsed.Alg)
  else
    .ok h.secret

/-- `JWTService.ValidateAccess`. -/
def ValidateAccess (L : Lib) (h : JWTService) (token : String) : AccessJWT × Option GoError :=
  match L.ParseAccess token (validateParsed h) with
  | .error e => (AccessJWT.zero, some (.plain e))
  | .ok t =>
    if !t.Valid then (AccessJWT.zero, some (.plain "invalid token"))
    else ({ Claims := t.Claims, Token := token }, none)

/-- `JWTService.ValidateRefresh`. -/
def ValidateRefresh (L : Lib) (h : JWTService) (token : String) : RefreshJWT × Option GoError :=
  match L.ParseRefresh token (validateParsed h) with
  | .error _ => (RefreshJWT.zero, none)
  | .ok t =>
    let claims := t.Claims
    if !t.Valid then (RefreshJWT.zero, some (.plain "invalid token"))
    else ({ Claims := claims, Token := token }, none)

/-- What the program relies on from `golang-jwt` when the wall clock reads `now`
(nanoseconds): `mac key s` says that the string `s` carries a valid MAC under
`key`.  A string signed under a key carries a valid MAC under it; a signed
string whose claims have not expired parses back to those claims once the key
function returns the signing key; a signed string whose claims have expired is
refused; and a string is accepted only if the key function returned a key
under which it carries a valid MAC.  An expiry `e` (seconds) has passed when
`e * 10^9 ≤ now`. -/
structure Contract (L : Lib) (mac : String → String → Prop) (now : Int) : Prop where
  signAccess_mac : ∀ c key s, L.SignedStringAccess c key = .ok s → mac key s
  signRefresh_mac : ∀ c key s, L.SignedStringRefresh c key = .ok s → mac key s
  parseAccess_accept : ∀ c key s keyFunc, L.SignedStringAccess c key = .ok s →
    keyFunc { Method := .HMAC, Alg := "HS256", Claims := c, Valid := false } = .ok key →
    (∀ e, c.ExpiresAt = some e → now < e * 1000000000) →
    L.ParseAccess s keyFunc = .ok { Method := .HMAC, Alg := "HS256", Claims := c, Valid := true }
  parseRefresh_accept : ∀ c key s keyFunc, L.SignedStringRefresh c key = .ok s →
    keyFunc { Method := .HMAC, Alg := "HS256", Claims := c, Valid := false } = .ok key →
    (∀ e, c.ExpiresAt = some e → now < e * 1000000000) →
    L.ParseRefresh s keyFunc = .ok { Method := .HMAC, Alg := "HS256", Claims := c, Valid := true }
  parseAccess_expired : ∀ c key s keyFunc e, L.SignedStringAccess c key = .ok s →
    c.ExpiresAt = some e → e * 1000000000 ≤ now → ∃ msg, L.ParseAccess s keyFunc = .error msg
  parseRefresh_expired : ∀ c key s keyFunc e, L.SignedStringRefresh c key = .ok s →
    c.ExpiresAt = some e → e * 1000000000 ≤ now → ∃ msg, L.ParseRefresh s keyFunc = .error msg
  parseAccess_sound : ∀ s keyFunc t, L.ParseAccess s keyFunc = .ok t →
    ∃ key, keyFunc { t with Valid := false } = .ok key ∧ mac key s
  parseRefresh_sound : ∀ s keyFunc t, L.ParseRefresh s keyFunc = .ok t →
    ∃ key, keyFunc { t with Valid := false } = .ok key ∧ mac key s

end jwt

/-! ## The database -/

/-- Go type `RefreshModel`: a row of table `refresh_tokens`. -/
structure RefreshModel where
  UUID : Users.UUID
  UserUUID : Users.UUID
  Token : String
  CreatedAt : Int
  UpdatedAt : Int
  deriving DecidableEq, Repr

/-- Go type `UserModel`: a row of table `users`.  The `settings` column is a
`map[string]string`, kept as an association list. -/
structure UserModel where
  UUID : Users.UUID
  Email : String
  Name : String
  Hash : String
  Settings : List (String × String)
  CreatedAt : Int
  UpdatedAt : Int
  deriving DecidableEq, Repr

/-- The SQL statements the two repositories issue. -/
inductive Query where
  | insertRefreshToken
  | selectRefreshToken
  | deleteRefreshToken
  | deleteRefreshTokensForUser
  | countRefreshTokens
  | selectUserById
  | selectUserByEmail
  | insertUser
  | updateUserSettings
  | txBegin
  | txCommit
  | txRollback
  deriving DecidableEq, Repr

/-- Whether a statement reads or writes table `refresh_tokens`. -/
def Query.onLedger : Query → Bool
  | .insertRefreshToken => true
  | .selectRefreshToken => true
  | .deleteRefreshToken => true
  | .deleteRefreshTokensForUser => true
  | .countRefreshTokens => true
  | _ => false

/-- The database: both tables and the ghost trace of statements issued, oldest
first. -/
structure DB where
  users : List UserModel
  refresh_tokens : List RefreshModel
  trace : List Query
  deriving DecidableEq, Repr

/-- Which statements fail, and with what driver message. -/
abbrev Faults := Query → Option String

/-- No statement fails. -/
def noFaults : Faults := fun _ => none

/-- Outcome of a Go function `(T, error)` that talks to the database. -/
structure Result (α : Type) where
  val : α
  err : Option GoError
  db : DB

/-- Outcome of a Go function `(T, error)` that talks to the database and may
panic instead of returning.  With `panicked = none` the call returns `val` and
`err`.  With `panicked = some msg` a goroutine panics with `msg` and the call
returns nothing: `val` and `err` then hold the zero values and say nothing
about a returned value.  `db` is the database at that moment. -/
structure Outcome (α : Type) where
  val : α
  err : Option GoError
  db : DB
  panicked : Option String

/-- Record that statement `q` was sent. -/
def DB.log (db : DB) (q : Query) : DB :=
  { db with trace := db.trace ++ [q] }

/-- Go map lookup `m[key]`: the zero value when the key is absent. -/
def mapGet (m : List (String × String)) (key : String) : String :=
  match m.find? (fun kv => kv.1 == key) with
  | some kv => kv.2
  | none => ""

namespace pgxscan

/-- Library function `pgxscan.Get` applied to the rows the query selects: it
wants exactly one row.  `dst` is the destination before the call. -/
def Get {α : Type} (fault : Option String) (rows : List α) (dst : α) : α × Option GoError :=
  match fault with
  | some e => (dst, some (.plain e))
  | none =>
    match rows with
    | [] => (dst, some .noRows)
    | [r] => (r, none)
    | r :: _ :: _ => (r, some (.plain "scany: expected 1 row, got more than 1"))

/-- Library function `pgxscan.NotFound`. -/
def NotFound : GoError → Bool
  | .noRows => true
  | _ => false

end pgxscan

/-! ## package user: data (`internal/app/user/user.go`) -/

namespace user

/-- Go type `UserSettings`. -/
structure UserSettings where
  Currency : currency.Currency
  ProfilePictureUrl : String
  FirstDayOfWeek : day.Day
  deriving DecidableEq, Repr

/-- Go type `User`. -/
structure User where
  UUID : Users.UUID
  Email : String
  Name : String
  Hash : String
  Settings : UserSettings
  CreatedAt : Int
  UpdatedAt : Int
  deriving DecidableEq, Repr

/-- Zero value `User{}`. -/
def User.zero : User :=
  { UUID := uuidNil, Email := "", Name := "", Hash := "",
    Settings := { Currency := ⟨""⟩, ProfilePictureUrl := "", FirstDayOfWeek := ⟨""⟩ },
    CreatedAt := 0, UpdatedAt := 0 }

def DefaultUserSettings : UserSettings :=
  { Currency := currency.RUB, ProfilePictureUrl := "", FirstDayOfWeek := day.MON }

def NewUserSettings (cur : currency.Currency) (firstDayOfWeek : day.Day)
    (profilePictureUrl : String) : UserSettings :=
  { Currency := cur, FirstDayOfWeek := firstDayOfWeek, ProfilePictureUrl := profilePictureUrl }

def NewUser (UUID : Users.UUID) (Email Name Hash : String) (Settings : UserSettings)
    (CreatedAt UpdatedAt : Int) : User :=
  { UUID := UUID, Email := Email, Name := Name, Hash := Hash, Settings := Settings,
    CreatedAt := CreatedAt, UpdatedAt := UpdatedAt }

/-- The functions of `golang.org/x/crypto/bcrypt` the program calls; a returned
`some` is a non-nil error. -/
structure Bcrypt where
  GenerateFromPassword : String → Nat → Except String String
  CompareHashAndPassword : String → String → Option String

def HashPassword (B : Bcrypt) (password : String) : String × Option GoError :=
  match B.GenerateFromPassword password 12 with
  | .error e => ("", some (.plain e))
  | .ok bytes => (bytes, none)

def CheckPasswordHash (B : Bcrypt) (password hash : String) : Bool :=
  (B.CompareHashAndPassword hash password).isNone

end user

/-! ## package adapters -/

namespace adapters

open apperrors

/-! ### `refresh_pgsql_repository.go` -/

/-- The values of the `insert into refresh_tokens` statement of `Add`. -/
def newRow (createdAt updatedAt : Int) (refresh : jwt.RefreshJWT) : RefreshModel :=
  { UUID := refresh.Claims.UUID, UserUUID := refresh.Claims.UserId,
    Token := refresh.Token, CreatedAt := createdAt, UpdatedAt := updatedAt }

/-- `RefreshPgsqlRepository.Add`; the two times are the two `time.Now()`. -/
def RefreshAdd (f : Faults) (createdAt updatedAt : Int) (refresh : jwt.RefreshJWT) (db : DB) :
    Result Unit :=
  let db1 := db.log .insertRefreshToken
  match f .insertRefreshToken with
  | some e => ⟨(), some (.plain e), db1⟩
  | none =>
    ⟨(), none,
      { db1 with refresh_tokens := db1.refresh_tokens ++ [newRow createdAt updatedAt refresh] }⟩

/-- The rows selected by
`where uuid = $1 and user_uuid = $2 and token = $3`. -/
def matching (uuid userUUID : UUID) (token : String) (rows : List RefreshModel) :
    List RefreshModel :=
  rows.filter (fun r => decide (r.UUID = uuid ∧ r.UserUUID = userUUID ∧ r.Token = token))

/-- `RefreshPgsqlRepository.Exists`. -/
def Exists (f : Faults) (uuid userUUID : UUID) (token : String) (db : DB) : Result Bool :=
  let db1 := db.log .selectRefreshToken
  let model : RefreshModel :=
    { UUID := uuidNil, UserUUID := uuidNil, Token := "", CreatedAt := 0, UpdatedAt := 0 }
  match (pgxscan.Get (f .selectRefreshToken)
      (matching uuid userUUID token db.refresh_tokens) model).2 with
  | some err =>
    if pgxscan.NotFound err then ⟨false, none, db1⟩
    else ⟨false, some err, db1⟩
  | none => ⟨true, none, db1⟩

/-- `RefreshPgsqlRepository.Delete`. -/
def Delete (f : Faults) (uuid : UUID) (db : DB) : Result Unit :=
  let db1 := db.log .deleteRefreshToken
  match f .deleteRefreshToken with
  | some e => ⟨(), some (.plain e), db1⟩
  | none =>
    ⟨(), none,
      { db1 with refresh_tokens := db1.refresh_tokens.filter (fun r => decide (r.UUID ≠ uuid)) }⟩

/-- `RefreshPgsqlRepository.DeleteForUserUUID`. -/
def DeleteForUserUUID (f : Faults) (userUUID : UUID) (db : DB) : Result Unit :=
  let db1 := db.log .deleteRefreshTokensForUser
  match f .deleteRefreshTokensForUser with
  | some e => ⟨(), some (.plain e), db1⟩
  | none =>
    ⟨(), none,
      { db1 with
        refresh_tokens := db1.refresh_tokens.filter (fun r => decide (r.UserUUID ≠ userUUID)) }⟩

/-- The value of `count(*) ... where user_uuid = $1`. -/
def countRows (userUUID : UUID) (rows : List RefreshModel) : Nat :=
  (rows.filter (fun r => decide (r.UserUUID = userUUID))).length

/-- `RefreshPgsqlRepository.CountForUser`. -/
def CountForUser (f : Faults) (userUUID : UUID) (db : DB) : Result Int :=
  let db1 := db.log .countRefreshTokens
  match f .countRefreshTokens with
  | some e => ⟨0, some (.plain e), db1⟩
  | none => ⟨(countRows userUUID db.refresh_tokens : Nat), none, db1⟩

/-! ### `users_pgsql_repository.go` -/

def UserSettingsToMap (s : user.UserSettings) : List (String × String) :=
  [("currency", s.Currency.String),
   ("first_day_of_week", s.FirstDayOfWeek.String),
   ("profile_picture_url", s.ProfilePictureUrl)]

/-- Zero value `UserModel{}`. -/
def UserModel.zero : UserModel :=
  { UUID := uuidNil, Email := "", Name := "", Hash := "", Settings := [],
    CreatedAt := 0, UpdatedAt := 0 }

/-- `UserPgsqlRepository.get` on the rows the query selects. -/
def get (fault : Option String) (rows : List UserModel) (dst : UserModel) :
    UserModel × Option GoError :=
  let r := pgxscan.Get fault rows dst
  match r.2 with
  | some err =>
    if pgxscan.NotFound err then (r.1, some (.app (NewNotFoundError "Not found" "not-found")))
    else (r.1, some err)
  | none => (r.1, none)

def serviceUserFromModel (model : UserModel) : user.User × Option GoError :=
  let cur := currency.FromString (mapGet model.Settings "currency")
  match cur.2 with
  | some err => (user.User.zero, some err)
  | none =>
    let d := day.FromString (mapGet model.Settings "first_day_of_week")
    let FirstDayOfWeek := match d.2 with
      | some _ => day.MON
      | none => d.1
    (user.NewUser model.UUID model.Email model.Name model.Hash
      (user.NewUserSettings cur.1 FirstDayOfWeek (mapGet model.Settings "profile_picture_url"))
      model.CreatedAt model.UpdatedAt, none)

/-- `UserPgsqlRepository.FindById`. -/
def FindById (f : Faults) (uuid : UUID) (db : DB) : Result user.User :=
  let db1 := db.log .selectUserById
  let r := get (f .selectUserById) (db.users.filter (fun m => decide (m.UUID = uuid)))
    UserModel.zero
  match r.2 with
  | some err =>
    if err.Error = "not-found" then
      ⟨user.User.zero, some (.app (NewNotFoundError "User not found" "user-not-found")), db1⟩
    else ⟨user.User.zero, some err, db1⟩
  | none =>
    let u := serviceUserFromModel r.1
    ⟨u.1, u.2, db1⟩

/-- `UserPgsqlRepository.FindByEmail`. -/
def FindByEmail (f : Faults) (email : String) (db : DB) : Result user.User :=
  let db1 := db.log .selectUserByEmail
  let r := get (f .selectUserByEmail) (db.users.filter (fun m => decide (m.Email = email)))
    UserModel.zero
  match r.2 with
  | some err =>
    if err.Error = "not-found" then
      ⟨user.User.zero, some (.app (NewNotFoundError "User not found" "user-not-found")), db1⟩
    else ⟨user.User.zero, some err, db1⟩
  | none =>
    let u := serviceUserFromModel r.1
    ⟨u.1, u.2, db1⟩

/-- `UserPgsqlRepository.Add`. -/
def UserAdd (f : Faults) (u : user.User) (db : DB) : Result Unit :=
  let db1 := db.log .insertUser
  match f .insertUser with
  | some e => ⟨(), some (.plain e), db1⟩
  | none =>
    ⟨(), none,
      { db1 with users := db1.users ++
          [{ UUID := u.UUID, Email := u.Email, Name := u.Name, Hash := u.Hash,
             Settings := UserSettingsToMap u.Settings,
             CreatedAt := u.CreatedAt, UpdatedAt := u.UpdatedAt }] }⟩

/-- `UserPgsqlRepository.UpdateSettings`: the `update` statement, then
`FindById`. -/
def UpdateSettings (f : Faults) (user_uuid : UUID) (settings : user.UserSettings) (db : DB) :
    Result user.User :=
  let db1 := db.log .updateUserSettings
  match f .updateUserSettings with
  | some e => ⟨user.User.zero, some (.plain e), db1⟩
  | none =>
    FindById f user_uuid
      { db1 with users := db1.users.map (fun m =>
          if m.UUID = user_uuid then { m with Settings := UserSettingsToMap settings } else m) }

/-- `UserPgsqlRepository.Transactional`, entered with no transaction open
(every exit path of the function closes the one it opened).  The callback works
on the user table; a rollback, and a commit that fails, leave the user table as
it was when the transaction began.  The error of `Rollback` is dropped, as in
the source. -/
def Transactional (f : Faults) (cb : DB → Result Unit) (db : DB) : Result Unit :=
  let db1 := db.log .txBegin
  match f .txBegin with
  | some e => ⟨(), some (.plain e), db1⟩
  | none =>
    let r := cb db1
    match r.err with
    | some err => ⟨(), some err, { r.db.log .txRollback with users := db.users }⟩
    | none =>
      let db2 := r.db.log .txCommit
      match f .txCommit with
      | some e => ⟨(), some (.plain e), { db2 with users := db.users }⟩
      | none => ⟨(), none, db2⟩

end adapters

/-! ## package idtoken (`google.golang.org/api/idtoken`) -/

namespace idtoken

/-- A value of a claim map `map[string]interface{}`: a string, nil (also the
result of looking up an absent key), or a value of another type, of which the
text `fmt.Sprintf("%s", v)` prints is kept. -/
inductive Claim where
  | str (s : String)
  | nil
  | other (printed : String)
  deriving DecidableEq, Repr

/-- Go expression `fmt.Sprintf("%s", v)` on a claim. -/
def sprintfS : Claim → String
  | .str s => s
  | .nil => "%!s(<nil>)"
  | .other printed => printed

/-- Library type `idtoken.Payload`, as far as the program reads it. -/
structure Payload where
  Claims : String → Claim

/-- Library function `idtoken.Validate(ctx, token, audience)`. -/
abbrev Validator := String → String → Except String Payload

end idtoken

/-! ## package user: the auth service (`internal/app/user/auth.go`) -/

namespace user

open apperrors

/-- Go type `Token`. -/
structure Token where
  Value : String
  UserId : UUID
  deriving DecidableEq, Repr

/-- Go type `LoginResponse`. -/
structure LoginResponse where
  Access : Token
  Refresh : Token
  deriving DecidableEq, Repr

/-- Zero value `LoginResponse{}`. -/
def LoginResponse.zero : LoginResponse :=
  { Access := { Value := "", UserId := uuidNil }, Refresh := { Value := "", UserId := uuidNil } }

/-- Go type `SignInRequest`. -/
structure SignInRequest where
  Email : String
  Password : String
  deriving DecidableEq, Repr

/-- Go type `AuthService`; its two repositories are the tables of the
database. -/
structure AuthService where
  jwtService : jwt.JWTService
  maxUserSessions : Int
  googleKey : String
  deriving DecidableEq, Repr

/-- Where the steps of the two goroutines `createTokens` starts fall among the
steps of the goroutine that started them.  Nothing in the source orders them:
`wg.Add(2)` comes after the two `go` statements and `wg.Wait()` is never
called.  The starting goroutine takes, in this order, the steps

1. `wg.Add(2)`;
2. the read of `err` in the first check;
3. the assignment of `err` from `CountForUser`, and 4. its check;
5. the assignment of `err` from `DeleteForUserUUID`, and 6. its check (both
   only when the count exceeds the cap);
7. the read of `refresh` for the call of `Add`;
8. the assignment of `err` from `Add`, and 9. its check;
10. the reads of `access` and `refresh` for the response.

A step of a started goroutine placed at `t` runs after step `t` and before step
`t + 1` of the starting goroutine (`0`: before `wg.Add(2)`; `10` and more: after
the last read).  Each started goroutine assigns its token variable, then `err`
(the two assignments of `access, err = ...` are carried out left to right), then
calls `wg.Done()`; the later steps are placed by their distance from the
earlier ones, so every value of this type is an order the program can run in. -/
structure Schedule where
  accessAt : Nat
  accessErrLag : Nat
  accessDoneLag : Nat
  refreshAt : Nat
  refreshErrLag : Nat
  refreshDoneLag : Nat
  deriving DecidableEq, Repr

/-- Place of the assignment of `err` by the goroutine that creates the access
token. -/
def Schedule.accessErrAt (s : Schedule) : Nat := s.accessAt + s.accessErrLag

/-- Place of the `wg.Done()` of the goroutine that creates the access token. -/
def Schedule.accessDoneAt (s : Schedule) : Nat := s.accessErrAt + s.accessDoneLag

/-- Place of the assignment of `err` by the goroutine that creates the refresh
token. -/
def Schedule.refreshErrAt (s : Schedule) : Nat := s.refreshAt + s.refreshErrLag

/-- Place of the `wg.Done()` of the goroutine that creates the refresh token. -/
def Schedule.refreshDoneAt (s : Schedule) : Nat := s.refreshErrAt + s.refreshDoneLag

/-- No `wg.Done()` runs before `wg.Add(2)`, `refresh` is assigned before `Add`
reads it and `access` before the response reads it: the run meets no negative
counter and no nil pointer. -/
def Schedule.completes (s : Schedule) : Prop :=
  0 < s.accessDoneAt ∧ 0 < s.refreshDoneAt ∧ s.refreshAt < 7 ∧ s.accessAt < 10

instance (s : Schedule) : Decidable s.completes := by
  unfold Schedule.completes
  exact inferInstance

/-- No started goroutine assigns `err` between an assignment of `err` from a
repository call and the check of that assignment. -/
def Schedule.quiet (s : Schedule) : Prop :=
  s.accessErrAt ≠ 3 ∧ s.accessErrAt ≠ 5 ∧ s.accessErrAt ≠ 8 ∧
    s.refreshErrAt ≠ 3 ∧ s.refreshErrAt ≠ 5 ∧ s.refreshErrAt ≠ 8

instance (s : Schedule) : Decidable s.quiet := by
  unfold Schedule.quiet
  exact inferInstance

/-- What one run of `createTokens` draws from its environment: the two
`time.Now()` of the token codec, the `uuid.New()` of `CreateRefresh`, the two
`time.Now()` of the ledger insert, and the order in which the three goroutines
run (`sched`; `accessLast` says which started goroutine assigns `err` last when
both assignments fall into the same place). -/
structure Env where
  accessNow : Int
  refreshNow : Int
  newUUID : UUID
  accessLast : Bool
  addCreatedAt : Int
  addUpdatedAt : Int
  sched : Schedule
  deriving DecidableEq, Repr

/-- The value a check of the shared variable `err` reads.  `own` is what the
starting goroutine assigned last, at its step `lo` (`lo = 0` and the zero value
for the first check), the check is its step `hi`, and `a`, `r` are what the two
started goroutines assign.  An assignment by a started goroutine placed in
`[lo, hi)` comes after `own`; of two such the later one is read. -/
def Env.errRead (env : Env) (lo hi : Nat) (own a r : Option GoError) : Option GoError :=
  if lo ≤ env.sched.accessErrAt ∧ env.sched.accessErrAt < hi then
    if lo ≤ env.sched.refreshErrAt ∧ env.sched.refreshErrAt < hi then
      if env.sched.accessErrAt < env.sched.refreshErrAt then r
      else if env.sched.refreshErrAt < env.sched.accessErrAt then a
      else if env.accessLast then a else r
    else a
  else if lo ≤ env.sched.refreshErrAt ∧ env.sched.refreshErrAt < hi then r
  else own

/-- `AuthService.createTokens`.  A `wg.Done()` that runs before `wg.Add(2)`
panics with a negative counter in its goroutine, which ends the process; the
model stops the run there.  `Add` evaluates `refresh.Claims.UUID` before it
sends its statement, and the response evaluates `access.Token`: either panics
on a pointer that is still nil. -/
def createTokens (L : jwt.Lib) (h : AuthService) (env : Env) (f : Faults) (user : User) (db : DB) :
    Outcome LoginResponse :=
  let accessClaims := jwt.NewAccessClaims user.UUID user.Email user.Name
  let refreshClaims := jwt.NewRefreshClaims user.UUID
  let a := jwt.CreateAccess L h.jwtService env.accessNow accessClaims
  let r := jwt.CreateRefresh L h.jwtService env.refreshNow env.newUUID refreshClaims
  if env.sched.accessDoneAt = 0 ∨ env.sched.refreshDoneAt = 0 then
    ⟨LoginResponse.zero, none, db, some "sync: negative WaitGroup counter"⟩
  else
    match env.errRead 0 2 none a.2 r.2 with
    | some e =>
      ⟨LoginResponse.zero,
        some (.app (NewAuthorizationError e.Error "could-not-authorize-user")), db, none⟩
    | none =>
      let c := adapters.CountForUser f refreshClaims.UserId db
      match env.errRead 3 4 c.err a.2 r.2 with
      | some e =>
        ⟨LoginResponse.zero,
          some (.app (NewAuthorizationError e.Error "could-not-authorize-user")), c.db, none⟩
      | none =>
        let w : Result Unit :=
          if c.val > h.maxUserSessions then
            adapters.DeleteForUserUUID f refreshClaims.UserId c.db
          else ⟨(), none, c.db⟩
        let werr : Option GoError :=
          if c.val > h.maxUserSessions then env.errRead 5 6 w.err a.2 r.2 else none
        match werr with
        | some e =>
          ⟨LoginResponse.zero,
            some (.app (NewAuthorizationError e.Error "could-not-authorize-user")), w.db, none⟩
        | none =>
          if env.sched.refreshAt < 7 then
            let refresh := r.1
            let ad := adapters.RefreshAdd f env.addCreatedAt env.addUpdatedAt refresh w.db
            match env.errRead 8 9 ad.err a.2 r.2 with
            | some e =>
              ⟨LoginResponse.zero,
                some (.app (NewAuthorizationError e.Error "could-not-authorize-user")),
                ad.db, none⟩
            | none =>
              if env.sched.accessAt < 10 then
                let access := a.1
                ⟨{ Access := { Value := access.Token, UserId := access.Claims.UserId },
                   Refresh := { Value := refresh.Token, UserId := refresh.Claims.UserId } },
                  none, ad.db, none⟩
              else
                ⟨LoginResponse.zero, none, ad.db,
                  some "runtime error: invalid memory address or nil pointer dereference"⟩
          else
            ⟨LoginResponse.zero, none, w.db,
              some "runtime error: invalid memory address or nil pointer dereference"⟩

/-- `AuthService.SignIn`. -/
def SignIn (L : jwt.Lib) (B : Bcrypt) (h : AuthService) (env : Env) (f : Faults)
    (r : SignInRequest) (db : DB) : Outcome LoginResponse :=
  let userFound := adapters.FindByEmail f r.Email db
  match userFound.err with
  | some _ =>
    ⟨LoginResponse.zero,
      some (.app (NewIncorrectInputError "User not found" "invalid-credentials")),
      userFound.db, none⟩
  | none =>
    if !CheckPasswordHash B r.Password userFound.val.Hash then
      ⟨LoginResponse.zero,
        some (.app (NewIncorrectInputError "User not found" "invalid-credentials")),
        userFound.db, none⟩
    else
      createTokens L h env f userFound.val userFound.db

/-- `AuthService.Refresh`. -/
def Refresh (L : jwt.Lib) (h : AuthService) (env : Env) (f : Faults) (tokenString : String)
    (db : DB) : Outcome LoginResponse :=
  let v := jwt.ValidateRefresh L h.jwtService tokenString
  match v.2 with
  | some e =>
    ⟨LoginResponse.zero, some (.app (NewAuthorizationError e.Error "invalid-token")), db, none⟩
  | none =>
    let refresh := v.1
    let ex := adapters.Exists f refresh.Claims.UUID refresh.Claims.UserId tokenString db
    match ex.err with
    | some e =>
      ⟨LoginResponse.zero, some (.app (NewAuthorizationError e.Error "invalid-token")), ex.db,
        none⟩
    | none =>
      if !ex.val then
        ⟨LoginResponse.zero,
          some (.app (NewAuthorizationError "Refresh not found" "invalid-token")), ex.db, none⟩
      else
        let d := adapters.Delete f refresh.Claims.UUID ex.db
        match d.err with
        | some e =>
          ⟨LoginResponse.zero,
            some (.app (NewAuthorizationError e.Error "invalid-token")), d.db, none⟩
        | none =>
          let u := adapters.FindById f refresh.Claims.UserId d.db
          match u.err with
          | some e =>
            ⟨LoginResponse.zero,
              some (.app (NewAuthorizationError e.Error "invalid-token")), u.db, none⟩
          | none => createTokens L h env f u.val u.db

/-- Go type `SignUpRequest`. -/
structure SignUpRequest where
  Email : String
  Password : String
  Name : String
  deriving DecidableEq, Repr

/-- Go type `UpdateSettingsRequest`. -/
structure UpdateSettingsRequest where
  UserUUID : UUID
  Currency : String
  FirstDayOfWeek : String
  ProfilePictureUrl : String
  deriving DecidableEq, Repr

/-- What a run that creates a user draws from its environment: the
`uuid.New()` and the two `time.Now()` of `NewUser`, the string
`GeneratePassword()` returns (federated sign-in only), and the draws of
`createTokens`. -/
structure NewUserEnv where
  userUUID : UUID
  createdAt : Int
  updatedAt : Int
  password : String
  issue : Env
  deriving DecidableEq, Repr

/-- `AuthService.ValidateToken`. -/
def ValidateToken (L : jwt.Lib) (h : AuthService) (token : String) : Token × Option GoError :=
  let access := jwt.ValidateAccess L h.jwtService token
  match access.2 with
  | some err => ({ Value := "", UserId := uuidNil }, some err)
  | none => ({ Value := access.1.Token, UserId := access.1.Claims.UserId }, none)

/-- `AuthService.SignUp`. -/
def SignUp (L : jwt.Lib) (B : Bcrypt) (h : AuthService) (env : NewUserEnv) (f : Faults)
    (r : SignUpRequest) (db : DB) : Outcome LoginResponse :=
  let probe := adapters.FindByEmail f r.Email db
  let proceed : Outcome LoginResponse :=
    let hash := HashPassword B r.Password
    match hash.2 with
    | some err =>
      ⟨LoginResponse.zero, some (.app (NewAppError err.Error "create-user-error")), probe.db,
        none⟩
    | none =>
      let user := NewUser env.userUUID r.Email r.Name hash.1 DefaultUserSettings
        env.createdAt env.updatedAt
      let t := adapters.Transactional f (fun d => adapters.UserAdd f user d) probe.db
      match t.err with
      | some err =>
        ⟨LoginResponse.zero, some (.app (NewAppError err.Error "user-saving-error")), t.db,
          none⟩
      | none => createTokens L h env.issue f user t.db
  match probe.err with
  | some err =>
    if !IsNotFound err then ⟨LoginResponse.zero, some err, probe.db, none⟩
    else proceed
  | none =>
    ⟨LoginResponse.zero,
      some (.app (NewIncorrectInputError "Email already in use" "field-email-invalid")),
      probe.db, none⟩

/-- `AuthService.UpdateSettings`. -/
def UpdateSettings (f : Faults) (request : UpdateSettingsRequest) (db : DB) : Result User :=
  let cur := currency.FromString request.Currency
  match cur.2 with
  | some _ =>
    ⟨User.zero,
      some (.app (NewIncorrectInputError "Invalid currency" "field-currency-invalid")), db⟩
  | none =>
    let d := day.FromString request.FirstDayOfWeek
    match d.2 with
    | some _ =>
      ⟨User.zero,
        some (.app (NewIncorrectInputError "Invalid first day of week"
          "field-first-day-of-week-invalid")), db⟩
    | none =>
      let settings := NewUserSettings cur.1 d.1 request.ProfilePictureUrl
      let found := adapters.FindById f request.UserUUID db
      match found.err with
      | some err => ⟨User.zero, some err, found.db⟩
      | none => adapters.UpdateSettings f request.UserUUID settings found.db

/-- `AuthService.GoogleSignIn`; `V` is `idtoken.Validate`.  The result of the
settings update for a known user is dropped, as in the source, and the new
user is built from `DefaultUserSettings()`, as in the source. -/
def GoogleSignIn (V : idtoken.Validator) (L : jwt.Lib) (B : Bcrypt) (h : AuthService)
    (env : NewUserEnv) (f : Faults) (tokenString : String) (db : DB) : Outcome LoginResponse :=
  match V tokenString h.googleKey with
  | .error e =>
    ⟨LoginResponse.zero, some (.app (NewIncorrectInputError e "invalid-credentials")), db, none⟩
  | .ok validTok =>
    let authUser := adapters.FindByEmail f (idtoken.sprintfS (validTok.Claims "email")) db
    match authUser.err with
    | none =>
      let settings :=
        { authUser.val.Settings with
          ProfilePictureUrl := idtoken.sprintfS (validTok.Claims "picture") }
      let updated := adapters.UpdateSettings f authUser.val.UUID settings authUser.db
      createTokens L h env.issue f authUser.val updated.db
    | some err =>
      if !IsNotFound err then ⟨LoginResponse.zero, some err, authUser.db, none⟩
      else
        let hash := HashPassword B env.password
        match hash.2 with
        | some e =>
          ⟨LoginResponse.zero, some (.app (NewAppError e.Error "create-user-error")),
            authUser.db, none⟩
        | none =>
          let _settings :=
            { DefaultUserSettings with
              ProfilePictureUrl := idtoken.sprintfS (validTok.Claims "picture") }
          let created := NewUser env.userUUID
            (idtoken.sprintfS (validTok.Claims "email"))
            (idtoken.sprintfS (validTok.Claims "name"))
            hash.1 DefaultUserSettings env.createdAt env.updatedAt
          let added := adapters.UserAdd f created authUser.db
          match added.err with
          | some e =>
            ⟨LoginResponse.zero, some (.app (NewAppError e.Error "user-saving-error")),
              added.db, none⟩
          | none => createTokens L h env.issue f created added.db

/-- The run loses no failure of the session count or of the wipe: either no
started goroutine assigns `err` between such a call and its check, or neither
statement fails. -/
def Env.countChecked (env : Env) (f : Faults) : Prop :=
  env.sched.quiet ∨ (f .countRefreshTokens = none ∧ f .deleteRefreshTokensForUser = none)

/-- The databases reached from an empty ledger by successful issuance events:
sign-up, sign-in, refresh rotation and federated sign-in, each returning no
error (and so not panicking) and losing no failure of the count or the wipe,
in any environment and with any faults. -/
inductive Issued (V : idtoken.Validator) (L : jwt.Lib) (B : Bcrypt) (h : AuthService) :
    DB → Prop where
  | start (users : List UserModel) (trace : List Query) :
    Issued V L B h { users := users, refresh_tokens := [], trace := trace }
  | signUp (db : DB) (env : NewUserEnv) (f : Faults) (r : SignUpRequest) :
    Issued V L B h db → (SignUp L B h env f r db).err = none →
    (SignUp L B h env f r db).panicked = none → env.issue.countChecked f →
    Issued V L B h (SignUp L B h env f r db).db
  | signIn (db : DB) (env : Env) (f : Faults) (r : SignInRequest) :
    Issued V L B h db → (SignIn L B h env f r db).err = none →
    (SignIn L B h env f r db).panicked = none → env.countChecked f →
    Issued V L B h (SignIn L B h env f r db).db
  | refresh (db : DB) (env : Env) (f : Faults) (tokenString : String) :
    Issued V L B h db → (Refresh L h env f tokenString db).err = none →
    (Refresh L h env f tokenString db).panicked = none → env.countChecked f →
    Issued V L B h (Refresh L h env f tokenString db).db
  | google (db : DB) (env : NewUserEnv) (f : Faults) (tokenString : String) :
    Issued V L B h db → (GoogleSignIn V L B h env f tokenString db).err = none →
    (GoogleSignIn V L B h env f tokenString db).panicked = none → env.issue.countChecked f →
    Issued V L B h (GoogleSignIn V L B h env f tokenString db).db

/-- Consecutive sign-ins with the same request, one per environment of the
list, every statement succeeding: the database after the last one. -/
def signInTimes (L : jwt.Lib) (B : Bcrypt) (h : AuthService) (r : SignInRequest) :
    List Env → DB → DB
  | [], db => db
  | env :: rest, db => signInTimes L B h r rest (SignIn L B h env noFaults r db).db

end user

/-! ## package ports (`internal/ports/http.go`) -/

namespace ports

/-- Go type `LoginRequest`. -/
structure LoginRequest where
  Email : String
  Password : String
  deriving DecidableEq, Repr

/-- Go type `TokenPairResponse`. -/
structure TokenPairResponse where
  Access : String
  Refresh : String
  deriving DecidableEq, Repr

/-- Go type `ErrorResponse`. -/
structure ErrorResponse where
  Slug : String
  httpStatus : Nat
  deriving DecidableEq, Repr

/-- A value handed to `render.Render`. -/
inductive Payload where
  | tokenPair (v : TokenPairResponse)
  | error (v : ErrorResponse)
  deriving DecidableEq, Repr

/-- The JSON object `render.Render` writes for a payload: the exported fields
under their `json` tags, in order. -/
def Payload.json : Payload → List (String × String)
  | .tokenPair v => [("access", v.Access), ("refresh", v.Refresh)]
  | .error v => [("slug", v.Slug)]

/-- What a handler wrote to the `http.ResponseWriter`. -/
structure HttpResponse where
  status : Nat
  payload : Payload
  deriving DecidableEq, Repr

/-- Method `Render` of a payload: the status it sets. -/
def Payload.Render : Payload → Nat
  | .tokenPair _ => 200
  | .error v => v.httpStatus

/-- Library function `render.Render`: the payload sets the status, then the
payload is written as JSON. -/
def render (v : Payload) : HttpResponse :=
  { status := v.Render, payload := v }

/-- `HttpServer.httpRespondWithError`. -/
def httpRespondWithError (slug : String) (status : Nat) : HttpResponse :=
  render (.error { Slug := slug, httpStatus := status })

def InternalError (slug : String) : HttpResponse := httpRespondWithError slug 500

def Unauthorised (slug : String) : HttpResponse := httpRespondWithError slug 401

def BadRequest (slug : String) : HttpResponse := httpRespondWithError slug 400

def NotFound (slug : String) : HttpResponse := httpRespondWithError slug 404

/-- `HttpServer.RespondWithAppError`. -/
def RespondWithAppError : GoError → HttpResponse
  | .app appError =>
    if appError.ErrorType = apperrors.ErrorTypeAuthorization then Unauthorised appError.Slug
    else if appError.ErrorType = apperrors.ErrorTypeIncorrectInput then BadRequest appError.Slug
    else if appError.ErrorType = apperrors.ErrorNotFound then NotFound appError.Slug
    else InternalError appError.Slug
  | _ => InternalError "internal-server-error"

/-- What a run of the sign-in handler did: the response it wrote and, in
order, the requests it passed to the auth service. -/
structure Handled where
  response : HttpResponse
  forwarded : List user.SignInRequest
  deriving DecidableEq, Repr

/-- `HttpServer.signIn`.  `body` is the result of `ioutil.ReadAll(r.Body)`,
`Unmarshal` is `json.Unmarshal` into a `LoginRequest`, and `SignIn` is the
method of the auth service the application holds (an interface value). -/
def signIn (Unmarshal : String → Except String LoginRequest)
    (SignIn : user.SignInRequest → user.LoginResponse × Option GoError)
    (body : Except String String) : Handled :=
  match body with
  | .error _ => { response := BadRequest "invalid-input", forwarded := [] }
  | .ok bytes =>
    match Unmarshal bytes with
    | .error _ => { response := BadRequest "invalid-input", forwarded := [] }
    | .ok request =>
      let serviceRequest : user.SignInRequest :=
        { Email := request.Email, Password := request.Password }
      let r := SignIn serviceRequest
      match r.2 with
      | some err => { response := RespondWithAppError err, forwarded := [serviceRequest] }
      | none =>
        { response := render (.tokenPair { Access := r.1.Access.Value,
                                            Refresh := r.1.Refresh.Value }),
          forwarded := [serviceRequest] }

end ports

/-! ## Sample collaborators, used to run the model on concrete inputs -/

namespace sample

/-- The only refresh token the sample library knows: identity 7, user 1. -/
def oldToken (m : jwt.SigningMethod) (alg : String) : jwt.Token jwt.RefreshClaims :=
  { Method := m, Alg := alg,
    Claims := { UUID := 7, UserId := 1, ExpiresAt := some 100 }, Valid := true }

/-- A token library that signs every claim set as one fixed string.  It parses
the string `"old"` as an HS256 refresh token and the string `"rsa"` as the same
token under an RS256 header, asks the key function for the key, and accepts the
token when the key is `"k"`; every other string is malformed. -/
def lib : jwt.Lib :=
  { SignedStringAccess := fun _ _ => .ok "acc"
    SignedStringRefresh := fun _ _ => .ok "new"
    ParseAccess := fun _ _ => .error "token is malformed"
    ParseRefresh := fun s keyFunc =>
      if s = "old" then
        match keyFunc (oldToken .HMAC "HS256") with
        | .error e => .error e
        | .ok key =>
          if key = "k" then .ok (oldToken .HMAC "HS256") else .error "signature is invalid"
      else if s = "rsa" then
        match keyFunc (oldToken .RSA "RS256") with
        | .error e => .error e
        | .ok key =>
          if key = "k" then .ok (oldToken .RSA "RS256") else .error "signature is invalid"
      else .error "token is malformed" }

/-- A password check that accepts exactly the pair hash `"h"`, password `"pw"`. -/
def bcrypt : user.Bcrypt :=
  { GenerateFromPassword := fun _ _ => .ok "h"
    CompareHashAndPassword := fun hash password =>
      if hash = "h" ∧ password = "pw" then none else some "mismatch" }

def svc : user.AuthService :=
  { jwtService := { secret := "k", accessTTL := 60, refreshTTL := 600 },
    maxUserSessions := 2, googleKey := "" }

/-- Both started goroutines run between `wg.Add(2)` and the first check. -/
def joinedSchedule : user.Schedule :=
  { accessAt := 1, accessErrLag := 0, accessDoneLag := 0,
    refreshAt := 1, refreshErrLag := 0, refreshDoneLag := 0 }

def env : user.Env :=
  { accessNow := 0, refreshNow := 0, newUUID := 8, accessLast := false,
    addCreatedAt := 0, addUpdatedAt := 0, sched := joinedSchedule }

def settings : List (String × String) :=
  [("currency", "USD"), ("first_day_of_week", "SUN"), ("profile_picture_url", "p")]

def userRow (id : UUID) (email : String) : UserModel :=
  { UUID := id, Email := email, Name := "n", Hash := "h", Settings := settings,
    CreatedAt := 0, UpdatedAt := 0 }

def row (id owner : UUID) (token : String) : RefreshModel :=
  { UUID := id, UserUUID := owner, Token := token, CreatedAt := 0, UpdatedAt := 0 }

/-- One user (identity 1) holding the session of the token `"old"`. -/
def db : DB :=
  { users := [userRow 1 "a@b.com"], refresh_tokens := [row 7 1 "old"], trace := [] }

/-- The insert into the ledger fails, every other statement succeeds. -/
def addDown : Faults :=
  fun q => if q = Query.insertRefreshToken then some "down" else none

/-- The sample user as the repository returns it. -/
def user1 : user.User :=
  (adapters.serviceUserFromModel (userRow 1 "a@b.com")).1

/-- The sample service with a cap of one session. -/
def svc1 : user.AuthService :=
  { svc with maxUserSessions := 1 }

/-- A second environment, drawing the fresh identity 9. -/
def env2 : user.Env :=
  { accessNow := 5, refreshNow := 5, newUUID := 9, accessLast := true,
    addCreatedAt := 5, addUpdatedAt := 5, sched := joinedSchedule }

/-- The goroutine that creates the access token assigns `access` in place 1 and
`err` in place `t` (for `t` from 1 on); the other goroutine runs in place 1. -/
def lateErr (t : Nat) : user.Schedule :=
  { accessAt := 1, accessErrLag := t - 1, accessDoneLag := 0,
    refreshAt := 1, refreshErrLag := 0, refreshDoneLag := 0 }

/-- The goroutine that creates the access token runs to its `wg.Done()` before
`wg.Add(2)`; the other goroutine runs in place 1. -/
def earlyDone : user.Schedule :=
  { accessAt := 0, accessErrLag := 0, accessDoneLag := 0,
    refreshAt := 1, refreshErrLag := 0, refreshDoneLag := 0 }

/-- Neither started goroutine has run when `createTokens` reaches the call of
`Add`. -/
def notStarted : user.Schedule :=
  { accessAt := 10, accessErrLag := 0, accessDoneLag := 0,
    refreshAt := 10, refreshErrLag := 0, refreshDoneLag := 0 }

/-- The count of the user's sessions fails, every other statement succeeds. -/
def countDown : Faults :=
  fun q => if q = Query.countRefreshTokens then some "down" else none

/-- The update of the settings fails, every other statement succeeds. -/
def updateDown : Faults :=
  fun q => if q = Query.updateUserSettings then some "down" else none

/-- One user (identity 1) and an empty ledger. -/
def emptyLedger : DB :=
  { users := [userRow 1 "a@b.com"], refresh_tokens := [], trace := [] }

/-- A database whose ledger holds a row with nil token identity and nil owner
for the string `"zzz"`, and whose user table holds a user with the nil
identity. -/
def nilDb : DB :=
  { users := [userRow 0 "nil@b.com"], refresh_tokens := [row 0 0 "zzz"], trace := [] }

/-- An assertion verifier that knows two assertions: `"g-old"` for the stored
email `a@b.com` and `"g-new"` for the email `new@b.com`, each with a picture. -/
def validate : idtoken.Validator :=
  fun token _ =>
    if token = "g-old" then
      .ok { Claims := fun k =>
              if k = "email" then .str "a@b.com"
              else if k = "picture" then .str "pic-old"
              else if k = "name" then .str "A" else .nil }
    else if token = "g-new" then
      .ok { Claims := fun k =>
              if k = "email" then .str "new@b.com"
              else if k = "picture" then .str "pic-new"
              else if k = "name" then .str "N" else .nil }
    else .error "idtoken: invalid token"

/-- The draws of a run that creates the user with identity 2. -/
def newUserEnv : user.NewUserEnv :=
  { userUUID := 2, createdAt := 3, updatedAt := 4, password := "Zx$1", issue := env }

/-- The access claims of user 1 expiring at second 60. -/
def accessClaims60 : jwt.AccessClaims :=
  { UserId := 1, ExpiresAt := some 60 }

/-- The refresh claims with identity 8 of user 1 expiring at second 600. -/
def refreshClaims600 : jwt.RefreshClaims :=
  { UUID := 8, UserId := 1, ExpiresAt := some 600 }

/-- A small token library with a clock: under the key `"k"` it signs
`accessClaims60` as `"A"` and `refreshClaims600` as `"R"` and nothing else;
it parses `"A"` and `"R"` back, asks the key function for the key, checks that
it is `"k"`, and checks the expiry against `now`. -/
def codec (now : Int) : jwt.Lib :=
  { SignedStringAccess := fun c key =>
      if c = accessClaims60 ∧ key = "k" then .ok "A" else .error "key is invalid"
    SignedStringRefresh := fun c key =>
      if c = refreshClaims600 ∧ key = "k" then .ok "R" else .error "key is invalid"
    ParseAccess := fun s keyFunc =>
      if s = "A" then
        match keyFunc { Method := .HMAC, Alg := "HS256", Claims := accessClaims60,
                        Valid := false } with
        | .error e => .error e
        | .ok key =>
          if key = "k" then
            if now < 60 * 1000000000 then
              .ok { Method := .HMAC, Alg := "HS256", Claims := accessClaims60, Valid := true }
            else .error "token is expired"
          else .error "signature is invalid"
      else .error "token is malformed"
    ParseRefresh := fun s keyFunc =>
      if s = "R" then
        match keyFunc { Method := .HMAC, Alg := "HS256", Claims := refreshClaims600,
                        Valid := false } with
        | .error e => .error e
        | .ok key =>
          if key = "k" then
            if now < 600 * 1000000000 then
              .ok { Method := .HMAC, Alg := "HS256", Claims := refreshClaims600, Valid := true }
            else .error "token is expired"
          else .error "signature is invalid"
      else .error "token is malformed" }

/-- The strings that carry a valid MAC in `codec`: `"A"` and `"R"` under `"k"`. -/
def codecMac (key s : String) : Prop :=
  key = "k" ∧ (s = "A" ∨ s = "R")

/-- A token library whose access signer fails and whose refresh signer
succeeds. -/
def accessFailLib : jwt.Lib :=
  { lib with SignedStringAccess := fun _ _ => .error "signing failed" }

/-- A token library whose refresh signer fails and whose access signer
succeeds. -/
def refreshFailLib : jwt.Lib :=
  { lib with SignedStringRefresh := fun _ _ => .error "signing failed" }

/-- A JSON decoder that knows the body of the handler test and a body with an
empty password. -/
def unmarshal (bytes : String) : Except String ports.LoginRequest :=
  if bytes = "\x7b\"email\":\"email\",\"password\":\"password\"\x7d" then
    .ok { Email := "email", Password := "password" }
  else if bytes = "\x7b\"email\":\"email\",\"password\":\"\"\x7d" then
    .ok { Email := "email", Password := "" }
  else .error "unexpected end of JSON input"

/-- The auth service of the handler test: it answers every request with the
tokens `"access"` and `"refresh"` of user 1. -/
def mockSignIn (_r : user.SignInRequest) : user.LoginResponse × Option GoError :=
  ({ Access := { Value := "access", UserId := 1 },
     Refresh := { Value := "refresh", UserId := 1 } }, none)

end sample

end Users

/-! ## Lemmas about the repositories -/

namespace Users

open apperrors jwt adapters user

theorem log_refresh_tokens (db : DB) (q : Query) : (db.log q).refresh_tokens = db.refresh_tokens :=
  rfl

theorem log_users (db : DB) (q : Query) : (db.log q).users = db.users :=
  rfl

theorem log_trace (db : DB) (q : Query) : (db.log q).trace = db.trace ++ [q] :=
  rfl

/-- `Exists` never changes a table and sends exactly one statement. -/
theorem Exists_db (f : Faults) (a b : UUID) (t : String) (db : DB) :
    (Exists f a b t db).db = db.log .selectRefreshToken := by
  unfold adapters.Exists
  simp only
  split
  · split <;> rfl
  · rfl

/-- `Exists` answers `true` without error only when a row matches. -/
theorem Exists_true (f : Faults) (a b : UUID) (t : String) (db : DB)
    (h : (Exists f a b t db).val = true) :
    ∃ r, matching a b t db.refresh_tokens = [r] := by
  unfold adapters.Exists at h
  unfold pgxscan.Get at h
  cases hf : f .selectRefreshToken with
  | some e => simp [hf, pgxscan.NotFound] at h
  | none =>
    cases hm : matching a b t db.refresh_tokens with
    | nil => simp [hf, hm, pgxscan.NotFound] at h
    | cons r rest =>
      cases rest with
      | nil => exact ⟨r, rfl⟩
      | cons r2 rest2 => simp [hf, hm, pgxscan.NotFound] at h

/-- With no matching row, `Exists` answers `false` or fails. -/
theorem Exists_no_match (f : Faults) (a b : UUID) (t : String) (db : DB)
    (h : matching a b t db.refresh_tokens = []) :
    (Exists f a b t db).val = false := by
  cases hv : (Exists f a b t db).val with
  | false => rfl
  | true =>
    obtain ⟨r, hr⟩ := Exists_true f a b t db hv
    rw [h] at hr
    cases hr

/-- A row that `get` returns without error is one of the selected rows. -/
theorem get_ok_mem (fault : Option String) (rows : List UserModel) (dst : UserModel)
    (h : (get fault rows dst).2 = none) : (get fault rows dst).1 ∈ rows := by
  unfold adapters.get pgxscan.Get at *
  cases fault with
  | some e => simp [pgxscan.NotFound] at h
  | none =>
    match rows with
    | [] => simp [pgxscan.NotFound] at h
    | [r] => simp
    | r :: r2 :: rest => simp [pgxscan.NotFound] at h

/-- A converted row keeps its identity. -/
theorem serviceUserFromModel_UUID (m : UserModel) (h : (serviceUserFromModel m).2 = none) :
    (serviceUserFromModel m).1.UUID = m.UUID := by
  unfold serviceUserFromModel at *
  simp only at h ⊢
  split
  · rename_i e he
    rw [he] at h
    simp at h
  · rfl

/-- A found user carries the identity that was asked for. -/
theorem FindById_UUID (f : Faults) (id : UUID) (db : DB)
    (h : (FindById f id db).err = none) : (FindById f id db).val.UUID = id := by
  have hget := get_ok_mem (f .selectUserById)
    (db.users.filter (fun m => decide (m.UUID = id))) UserModel.zero
  unfold FindById at h ⊢
  simp only at h ⊢
  split at h
  · split at h <;> simp at h
  · rename_i hnone
    have hmem := hget hnone
    have hid : (get (f .selectUserById)
        (db.users.filter (fun m => decide (m.UUID = id))) UserModel.zero).1.UUID = id := by
      simpa using (List.mem_filter.mp hmem).2
    simp only [hnone]
    simp only [hnone] at h
    rw [serviceUserFromModel_UUID _ h, hid]

theorem FindById_db (f : Faults) (id : UUID) (db : DB) :
    (FindById f id db).db = db.log .selectUserById := by
  unfold FindById
  simp only
  split
  · split <;> rfl
  · rfl

theorem FindByEmail_db (f : Faults) (email : String) (db : DB) :
    (FindByEmail f email db).db = db.log .selectUserByEmail := by
  unfold FindByEmail
  simp only
  split
  · split <;> rfl
  · rfl

/-! ## Lemmas about issuance -/

/-- A refresh token created without error carries the fresh identity and the
user of the claims. -/
theorem CreateRefresh_ok (L : Lib) (h : JWTService) (now : Int) (fresh : UUID)
    (c : RefreshClaims) (hok : (CreateRefresh L h now fresh c).2 = none) :
    (CreateRefresh L h now fresh c).1.Claims.UUID = fresh ∧
      (CreateRefresh L h now fresh c).1.Claims.UserId = c.UserId := by
  unfold CreateRefresh at *
  simp only at hok ⊢
  split
  · rename_i e he
    rw [he] at hok
    simp at hok
  · exact ⟨rfl, rfl⟩

/-- A check of `err` reads nil when nothing but nil was assigned. -/
theorem errRead_none (env : Env) (lo hi : Nat) : env.errRead lo hi none none none = none := by
  unfold Env.errRead
  split_ifs <;> rfl

/-- With both tokens created, a run that meets no negative counter and no nil
pointer, and whose count, wipe (when attempted) and insert succeed, returns the
token pair; the ledger is wiped of the user's rows when the count exceeded the
cap, and gains the new row. -/
theorem createTokens_eq (L : Lib) (h : AuthService) (env : Env) (f : Faults) (u : User)
    (db : DB) (hs : env.sched.completes)
    (hacc : (CreateAccess L h.jwtService env.accessNow
      (NewAccessClaims u.UUID u.Email u.Name)).2 = none)
    (href : (CreateRefresh L h.jwtService env.refreshNow env.newUUID
      (NewRefreshClaims u.UUID)).2 = none)
    (hcnt : f .countRefreshTokens = none)
    (hdel : (countRows u.UUID db.refresh_tokens : Int) > h.maxUserSessions →
      f .deleteRefreshTokensForUser = none)
    (hadd : f .insertRefreshToken = none) :
    createTokens L h env f u db =
      ⟨{ Access :=
          { Value := (CreateAccess L h.jwtService env.accessNow
              (NewAccessClaims u.UUID u.Email u.Name)).1.Token,
            UserId := (CreateAccess L h.jwtService env.accessNow
              (NewAccessClaims u.UUID u.Email u.Name)).1.Claims.UserId },
         Refresh :=
          { Value := (CreateRefresh L h.jwtService env.refreshNow env.newUUID
              (NewRefreshClaims u.UUID)).1.Token,
            UserId := (CreateRefresh L h.jwtService env.refreshNow env.newUUID
              (NewRefreshClaims u.UUID)).1.Claims.UserId } },
        none,
        { users := db.users,
          refresh_tokens :=
            (if (countRows u.UUID db.refresh_tokens : Int) > h.maxUserSessions then
              db.refresh_tokens.filter (fun r => decide (r.UserUUID ≠ u.UUID))
            else db.refresh_tokens) ++
            [newRow env.addCreatedAt env.addUpdatedAt
              (CreateRefresh L h.jwtService env.refreshNow env.newUUID
                (NewRefreshClaims u.UUID)).1],
          trace := db.trace ++ [Query.countRefreshTokens] ++
            (if (countRows u.UUID db.refresh_tokens : Int) > h.maxUserSessions then
              [Query.deleteRefreshTokensForUser] else []) ++ [Query.insertRefreshToken] },
        none⟩ := by
  obtain ⟨h1, h2, h3, h4⟩ := hs
  have hU : (NewRefreshClaims u.UUID).UserId = u.UUID := rfl
  have hwg : ¬(env.sched.accessDoneAt = 0 ∨ env.sched.refreshDoneAt = 0) := by omega
  by_cases hover : (countRows u.UUID db.refresh_tokens : Int) > h.maxUserSessions
  · have hd := hdel hover
    simp [createTokens, hacc, href, errRead_none, hwg, h3, h4, CountForUser, hcnt, hU, hover,
      DeleteForUserUUID, hd, RefreshAdd, hadd, DB.log]
  · simp [createTokens, hacc, href, errRead_none, hwg, h3, h4, CountForUser, hcnt, hU, hover,
      RefreshAdd, hadd, DB.log]

/-- The same run, read off field by field: no error, no panic, the refresh
string of the codec, and the statements sent. -/
theorem createTokens_succeeds (L : Lib) (h : AuthService) (env : Env) (f : Faults) (u : User)
    (db : DB) (hs : env.sched.completes)
    (hacc : (CreateAccess L h.jwtService env.accessNow
      (NewAccessClaims u.UUID u.Email u.Name)).2 = none)
    (href : (CreateRefresh L h.jwtService env.refreshNow env.newUUID
      (NewRefreshClaims u.UUID)).2 = none)
    (hcnt : f .countRefreshTokens = none)
    (hdel : (countRows u.UUID db.refresh_tokens : Int) > h.maxUserSessions →
      f .deleteRefreshTokensForUser = none)
    (hadd : f .insertRefreshToken = none) :
    (createTokens L h env f u db).err = none ∧
      (createTokens L h env f u db).val.Refresh.Value =
        (CreateRefresh L h.jwtService env.refreshNow env.newUUID
          (NewRefreshClaims u.UUID)).1.Token ∧
      (createTokens L h env f u db).db.trace =
        db.trace ++ [Query.countRefreshTokens] ++
          (if (countRows u.UUID db.refresh_tokens : Int) > h.maxUserSessions then
            [Query.deleteRefreshTokensForUser] else []) ++ [Query.insertRefreshToken] := by
  rw [createTokens_eq L h env f u db hs hacc href hcnt hdel hadd]
  exact ⟨rfl, rfl, rfl⟩

/-- The same run does not panic. -/
theorem createTokens_returns (L : Lib) (h : AuthService) (env : Env) (f : Faults) (u : User)
    (db : DB) (hs : env.sched.completes)
    (hacc : (CreateAccess L h.jwtService env.accessNow
      (NewAccessClaims u.UUID u.Email u.Name)).2 = none)
    (href : (CreateRefresh L h.jwtService env.refreshNow env.newUUID
      (NewRefreshClaims u.UUID)).2 = none)
    (hcnt : f .countRefreshTokens = none)
    (hdel : (countRows u.UUID db.refresh_tokens : Int) > h.maxUserSessions →
      f .deleteRefreshTokensForUser = none)
    (hadd : f .insertRefreshToken = none) :
    (createTokens L h env f u db).panicked = none := by
  rw [createTokens_eq L h env f u db hs hacc href hcnt hdel hadd]

/-- In a quiet order each later check reads what the repository call assigned. -/
theorem errRead_quiet (env : Env) (hq : env.sched.quiet) (own a r : Option GoError) :
    env.errRead 3 4 own a r = own ∧ env.errRead 5 6 own a r = own ∧
      env.errRead 8 9 own a r = own := by
  obtain ⟨h1, h2, h3, h4, h5, h6⟩ := hq
  unfold Env.errRead
  refine ⟨?_, ?_, ?_⟩
  · rw [if_neg (by omega), if_neg (by omega)]
  · rw [if_neg (by omega), if_neg (by omega)]
  · rw [if_neg (by omega), if_neg (by omega)]

theorem CountForUser_eq (f : Faults) (v : UUID) (db : DB) (hc : f .countRefreshTokens = none) :
    CountForUser f v db = ⟨(countRows v db.refresh_tokens : Nat), none, db.log .countRefreshTokens⟩ := by
  simp [CountForUser, hc]

theorem CountForUser_err (f : Faults) (v : UUID) (db : DB)
    (hc : (CountForUser f v db).err = none) : f .countRefreshTokens = none := by
  unfold CountForUser at hc
  cases hf : f .countRefreshTokens with
  | none => rfl
  | some e => simp [hf] at hc

theorem DeleteForUserUUID_err (f : Faults) (v : UUID) (db : DB)
    (hc : (DeleteForUserUUID f v db).err = none) : f .deleteRefreshTokensForUser = none := by
  unfold DeleteForUserUUID at hc
  cases hf : f .deleteRefreshTokensForUser with
  | none => rfl
  | some e => simp [hf] at hc

/-- A run of `createTokens` that returns a token pair and lost no failure of
the count or of the wipe has wiped the user's rows when they exceeded the cap,
and has added at most the new row. -/
theorem createTokens_checked (L : Lib) (h : AuthService) (env : Env) (f : Faults) (u : User)
    (db : DB) (hq : env.countChecked f)
    (hok : (createTokens L h env f u db).err = none)
    (hp : (createTokens L h env f u db).panicked = none) :
    (createTokens L h env f u db).db.refresh_tokens =
        (if (countRows u.UUID db.refresh_tokens : Int) > h.maxUserSessions then
          db.refresh_tokens.filter (fun r => decide (r.UserUUID ≠ u.UUID))
        else db.refresh_tokens) ++
        [newRow env.addCreatedAt env.addUpdatedAt
          (CreateRefresh L h.jwtService env.refreshNow env.newUUID
            (NewRefreshClaims u.UUID)).1] ∨
      (createTokens L h env f u db).db.refresh_tokens =
        (if (countRows u.UUID db.refresh_tokens : Int) > h.maxUserSessions then
          db.refresh_tokens.filter (fun r => decide (r.UserUUID ≠ u.UUID))
        else db.refresh_tokens) := by
  have hU : (NewRefreshClaims u.UUID).UserId = u.UUID := rfl
  revert hok hp
  unfold createTokens
  simp only [hU]
  split
  · intro _ hp
    simp at hp
  split
  · intro hok
    simp at hok
  split
  · intro hok
    simp at hok
  rename_i hcount
  have hc : f .countRefreshTokens = none := by
    rcases hq with hq | hq
    · rw [(errRead_quiet env hq _ _ _).1] at hcount
      exact CountForUser_err f _ _ hcount
    · exact hq.1
  rw [CountForUser_eq f u.UUID db hc] at *
  simp only []
  by_cases hover : (countRows u.UUID db.refresh_tokens : Int) > h.maxUserSessions
  · simp only [hover, if_true]
    split
    · intro hok
      simp at hok
    rename_i hwipe
    have hd : f .deleteRefreshTokensForUser = none := by
      rcases hq with hq | hq
      · rw [(errRead_quiet env hq _ _ _).2.1] at hwipe
        exact DeleteForUserUUID_err f _ _ hwipe
      · exact hq.2
    intro _ _
    repeat' split
    all_goals
      simp only [DeleteForUserUUID, hd, RefreshAdd, DB.log]
      repeat' split
      all_goals simp
  · simp only [hover, if_false]
    intro _ _
    repeat' split
    all_goals
      simp only [RefreshAdd, DB.log]
      repeat' split
      all_goals simp

/-- `createTokens` never touches the user table. -/
theorem createTokens_users (L : Lib) (h : AuthService) (env : Env) (f : Faults) (u : User)
    (db : DB) : (createTokens L h env f u db).db.users = db.users := by
  unfold createTokens
  simp only []
  repeat' split
  all_goals
    simp only [CountForUser, DeleteForUserUUID, RefreshAdd, DB.log]
    repeat' split
    all_goals rfl

/-- Whatever the order of the goroutines, every row of the ledger after
`createTokens` was there before or is the row of the refresh token
`CreateRefresh` returned. -/
theorem createTokens_rows (L : Lib) (h : AuthService) (env : Env) (f : Faults) (u : User)
    (db : DB) :
    ∀ row ∈ (createTokens L h env f u db).db.refresh_tokens,
      row ∈ db.refresh_tokens ∨
      row = newRow env.addCreatedAt env.addUpdatedAt
        (CreateRefresh L h.jwtService env.refreshNow env.newUUID (NewRefreshClaims u.UUID)).1 := by
  intro row
  unfold createTokens
  simp only []
  repeat' split
  all_goals
    simp only [CountForUser, DeleteForUserUUID, RefreshAdd, DB.log]
    repeat' split
    all_goals
      intro hr
      first
        | exact Or.inl hr
        | (simp only [List.mem_append, List.mem_filter, List.mem_singleton] at hr
           tauto)

/-- A run of `createTokens` that returns an error or panics hands back no
token; every error it returns is `NewAuthorizationError(_,
"could-not-authorize-user")`. -/
theorem createTokens_refused (L : Lib) (h : AuthService) (env : Env) (f : Faults) (u : User)
    (db : DB) :
    ((createTokens L h env f u db).panicked ≠ none →
        (createTokens L h env f u db).val = LoginResponse.zero ∧
        (createTokens L h env f u db).err = none) ∧
      ((createTokens L h env f u db).err ≠ none →
        (createTokens L h env f u db).val = LoginResponse.zero ∧
        (createTokens L h env f u db).panicked = none ∧
        ∃ a, (createTokens L h env f u db).err = some (.app a) ∧
          a.ErrorType = ErrorTypeAuthorization ∧ a.Slug = "could-not-authorize-user") := by
  unfold createTokens
  simp only []
  repeat' split
  all_goals
    first
      | (simp [NewAuthorizationError]
         done)
      | (simp [NewAuthorizationError]
         exact ⟨rfl, rfl⟩)

/-! ## Token codec -/

/-- C8: for every string on which the parser reports an error (whatever the
reason: malformed, bad signature, algorithm refused by the key function,
expired), `ValidateRefresh` returns the zero-value `RefreshJWT` (nil token
identity, nil user identity, empty token string) and a nil error. -/
theorem ValidateRefresh_parse_error (L : Lib) (h : JWTService) (token e : String)
    (hparse : L.ParseRefresh token (validateParsed h) = .error e) :
    ValidateRefresh L h token = (RefreshJWT.zero, none) ∧
      RefreshJWT.zero.Claims.UUID = uuidNil ∧
      RefreshJWT.zero.Claims.UserId = uuidNil ∧
      RefreshJWT.zero.Token = "" := by
  refine ⟨?_, rfl, rfl, rfl⟩
  unfold ValidateRefresh
  rw [hparse]

/-- The RS256 token of the sample library is refused by the key function, and
`ValidateRefresh` answers with zero claims and no error. -/
theorem ValidateRefresh_parse_error_witness :
    sample.lib.ParseRefresh "rsa" (validateParsed sample.svc.jwtService) =
        .error "unexpected signing method: RS256" ∧
      (ValidateRefresh sample.lib sample.svc.jwtService "rsa" = (RefreshJWT.zero, none) ∧
        RefreshJWT.zero.Claims.UUID = uuidNil ∧
        RefreshJWT.zero.Claims.UserId = uuidNil ∧
        RefreshJWT.zero.Token = "") :=
  ⟨rfl,
    ValidateRefresh_parse_error sample.lib sample.svc.jwtService "rsa"
      "unexpected signing method: RS256" rfl⟩

/-! ## Issuance -/

/-- C10, the code at a failing input: the insert of the new refresh row fails
and the goroutine that creates the access token assigns its nil error to the
shared `err` after `createTokens` has assigned the error of `Add` and before
`createTokens` checks it (place 8).  The check reads nil: `createTokens` returns the
token pair and a nil error, although the statement failed and the ledger holds
no row for the refresh token handed back.  With both goroutines finished before
the first check, the same failure is returned as `could-not-authorize-user`. -/
theorem createTokens_add_failure_lost :
    sample.addDown .insertRefreshToken = some "down" ∧
      (sample.lateErr 8).accessErrAt = 8 ∧
      (createTokens sample.lib sample.svc { sample.env with sched := sample.lateErr 8 }
        sample.addDown sample.user1 sample.db).err = none ∧
      (createTokens sample.lib sample.svc { sample.env with sched := sample.lateErr 8 }
        sample.addDown sample.user1 sample.db).panicked = none ∧
      (createTokens sample.lib sample.svc { sample.env with sched := sample.lateErr 8 }
        sample.addDown sample.user1 sample.db).val =
        { Access := { Value := "acc", UserId := 1 },
          Refresh := { Value := "new", UserId := 1 } } ∧
      (createTokens sample.lib sample.svc { sample.env with sched := sample.lateErr 8 }
        sample.addDown sample.user1 sample.db).db.refresh_tokens = [sample.row 7 1 "old"] ∧
      (createTokens sample.lib sample.svc { sample.env with sched := sample.lateErr 8 }
        sample.addDown sample.user1 sample.db).db.trace =
        [Query.countRefreshTokens, Query.insertRefreshToken] ∧
      (createTokens sample.lib sample.svc sample.env sample.addDown sample.user1
        sample.db).err =
        some (.app (NewAuthorizationError "down" "could-not-authorize-user")) ∧
      (createTokens sample.lib sample.svc sample.env sample.addDown sample.user1
        sample.db).val = LoginResponse.zero := by
  refine ⟨rfl, rfl, ?_, ?_, ?_, ?_, ?_, ?_, ?_⟩ <;> decide

/-- The ledger after a successful issuance, split by owner: the issuing user
holds the kept rows plus the new one, every other user exactly the old rows. -/
theorem createTokens_ledger (L : Lib) (h : AuthService) (env : Env) (f : Faults) (u : User)
    (db : DB) (hs : env.sched.completes)
    (hacc : (CreateAccess L h.jwtService env.accessNow
      (NewAccessClaims u.UUID u.Email u.Name)).2 = none)
    (href : (CreateRefresh L h.jwtService env.refreshNow env.newUUID
      (NewRefreshClaims u.UUID)).2 = none)
    (hcnt : f .countRefreshTokens = none)
    (hdel : (countRows u.UUID db.refresh_tokens : Int) > h.maxUserSessions →
      f .deleteRefreshTokensForUser = none)
    (hadd : f .insertRefreshToken = none) :
    (createTokens L h env f u db).db.refresh_tokens =
      (if (countRows u.UUID db.refresh_tokens : Int) > h.maxUserSessions then
        db.refresh_tokens.filter (fun r => decide (r.UserUUID ≠ u.UUID))
      else db.refresh_tokens) ++
      [{ UUID := env.newUUID, UserUUID := u.UUID,
         Token := (createTokens L h env f u db).val.Refresh.Value,
         CreatedAt := env.addCreatedAt, UpdatedAt := env.addUpdatedAt }] := by
  have hc := CreateRefresh_ok L h.jwtService env.refreshNow env.newUUID
    (NewRefreshClaims u.UUID) href
  rw [createTokens_eq L h env f u db hs hacc href hcnt hdel hadd]
  simp only
  congr 2
  unfold newRow
  rw [hc.1, hc.2]
  rfl

theorem filter_owner_of_others (u : UUID) (rows : List RefreshModel) :
    (rows.filter (fun r => decide (r.UserUUID ≠ u))).filter (fun r => decide (r.UserUUID = u))
      = [] := by
  simp [List.filter_filter]

theorem filter_others_idem (u : UUID) (rows : List RefreshModel) :
    (rows.filter (fun r => decide (r.UserUUID ≠ u))).filter (fun r => decide (r.UserUUID ≠ u))
      = rows.filter (fun r => decide (r.UserUUID ≠ u)) := by
  simp [List.filter_filter]

/-- C2, as stated, fails.  The sample user holds one row, the cap is 0 and every
statement succeeds.  When the refresh signer fails and its error is the one the
first check reads, `createTokens` returns `could-not-authorize-user` before it
sends a statement: the user's one row is the old one.  When both signers succeed
but neither goroutine has run before `Add` reads `refresh`, the user's rows are
wiped and `Add` panics on the nil pointer: the user is left with no row. -/
theorem createTokens_over_cap_refuted :
    (CountForUser noFaults sample.user1.UUID sample.db).val >
        ({ sample.svc with maxUserSessions := 0 } : AuthService).maxUserSessions ∧
      (createTokens sample.refreshFailLib { sample.svc with maxUserSessions := 0 } sample.env
        noFaults sample.user1 sample.db).err =
        some (.app (NewAuthorizationError "signing failed" "could-not-authorize-user")) ∧
      (createTokens sample.refreshFailLib { sample.svc with maxUserSessions := 0 } sample.env
        noFaults sample.user1 sample.db).val = LoginResponse.zero ∧
      (createTokens sample.refreshFailLib { sample.svc with maxUserSessions := 0 } sample.env
        noFaults sample.user1 sample.db).db = sample.db ∧
      sample.db.refresh_tokens.filter (fun r => decide (r.UserUUID = sample.user1.UUID)) =
        [sample.row 7 1 "old"] ∧
      (createTokens sample.lib { sample.svc with maxUserSessions := 0 }
        { sample.env with sched := sample.notStarted } noFaults sample.user1 sample.db).panicked =
        some "runtime error: invalid memory address or nil pointer dereference" ∧
      (createTokens sample.lib { sample.svc with maxUserSessions := 0 }
        { sample.env with sched := sample.notStarted } noFaults sample.user1
        sample.db).db.refresh_tokens = [] := by
  refine ⟨by decide, ?_, ?_, ?_, ?_, ?_, ?_⟩ <;> rfl

/-- C2, amended: when the user holds more than `maxUserSessions` rows as
`createTokens` runs, both tokens are created, every statement succeeds and the
run completes (no `wg.Done()` before `wg.Add(2)`, `refresh` assigned before `Add`
reads it, `access` assigned before the response reads it), `createTokens`
returns without error and the ledger afterwards holds exactly one row of that
user, the new refresh token (its fresh identity, the user, the raw string
handed back), and the rows of every other user are as before. -/
theorem createTokens_over_cap (L : Lib) (h : AuthService) (env : Env) (f : Faults) (u : User)
    (db : DB) (hs : env.sched.completes)
    (hacc : (CreateAccess L h.jwtService env.accessNow
      (NewAccessClaims u.UUID u.Email u.Name)).2 = none)
    (href : (CreateRefresh L h.jwtService env.refreshNow env.newUUID
      (NewRefreshClaims u.UUID)).2 = none)
    (hcnt : f .countRefreshTokens = none)
    (hdel : f .deleteRefreshTokensForUser = none)
    (hadd : f .insertRefreshToken = none)
    (hover : (CountForUser f u.UUID db).val > h.maxUserSessions) :
    (createTokens L h env f u db).err = none ∧
      (createTokens L h env f u db).panicked = none ∧
      (createTokens L h env f u db).db.refresh_tokens.filter
          (fun r => decide (r.UserUUID = u.UUID)) =
        [{ UUID := env.newUUID, UserUUID := u.UUID,
           Token := (createTokens L h env f u db).val.Refresh.Value,
           CreatedAt := env.addCreatedAt, UpdatedAt := env.addUpdatedAt }] ∧
      (createTokens L h env f u db).db.refresh_tokens.filter
          (fun r => decide (r.UserUUID ≠ u.UUID)) =
        db.refresh_tokens.filter (fun r => decide (r.UserUUID ≠ u.UUID)) ∧
      (CountForUser f u.UUID (createTokens L h env f u db).db).val = 1 := by
  have hover2 : (countRows u.UUID db.refresh_tokens : Int) > h.maxUserSessions := by
    simpa [CountForUser, hcnt] using hover
  have hr := createTokens_succeeds L h env f u db hs hacc href hcnt (fun _ => hdel) hadd
  have hp := createTokens_returns L h env f u db hs hacc href hcnt (fun _ => hdel) hadd
  have hl := createTokens_ledger L h env f u db hs hacc href hcnt (fun _ => hdel) hadd
  rw [if_pos hover2] at hl
  have h1 : (createTokens L h env f u db).db.refresh_tokens.filter
      (fun r => decide (r.UserUUID = u.UUID)) =
      [{ UUID := env.newUUID, UserUUID := u.UUID,
         Token := (createTokens L h env f u db).val.Refresh.Value,
         CreatedAt := env.addCreatedAt, UpdatedAt := env.addUpdatedAt }] := by
    rw [hl, List.filter_append, filter_owner_of_others]
    simp
  refine ⟨hr.1, hp, h1, ?_, ?_⟩
  · rw [hl, List.filter_append, filter_others_idem]
    simp
  · simp only [CountForUser, hcnt, countRows]
    rw [h1]
    rfl

/-- With a cap of 0 the sample user, who holds one row, is over the cap. -/
theorem createTokens_over_cap_witness :
    (createTokens sample.lib { sample.svc with maxUserSessions := 0 } sample.env noFaults
        (serviceUserFromModel (sample.userRow 1 "a@b.com")).1 sample.db).err = none ∧
      (createTokens sample.lib { sample.svc with maxUserSessions := 0 } sample.env noFaults
        (serviceUserFromModel (sample.userRow 1 "a@b.com")).1 sample.db).panicked = none ∧
      (createTokens sample.lib { sample.svc with maxUserSessions := 0 } sample.env noFaults
        (serviceUserFromModel (sample.userRow 1 "a@b.com")).1 sample.db).db.refresh_tokens.filter
          (fun r => decide (r.UserUUID = (serviceUserFromModel (sample.userRow 1 "a@b.com")).1.UUID))
        = [{ UUID := sample.env.newUUID,
             UserUUID := (serviceUserFromModel (sample.userRow 1 "a@b.com")).1.UUID,
             Token := (createTokens sample.lib { sample.svc with maxUserSessions := 0 } sample.env
               noFaults (serviceUserFromModel (sample.userRow 1 "a@b.com")).1
               sample.db).val.Refresh.Value,
             CreatedAt := sample.env.addCreatedAt, UpdatedAt := sample.env.addUpdatedAt }] ∧
      (createTokens sample.lib { sample.svc with maxUserSessions := 0 } sample.env noFaults
        (serviceUserFromModel (sample.userRow 1 "a@b.com")).1 sample.db).db.refresh_tokens.filter
          (fun r => decide (r.UserUUID ≠ (serviceUserFromModel (sample.userRow 1 "a@b.com")).1.UUID))
        = sample.db.refresh_tokens.filter
          (fun r => decide (r.UserUUID ≠ (serviceUserFromModel (sample.userRow 1 "a@b.com")).1.UUID)) ∧
      (CountForUser noFaults (serviceUserFromModel (sample.userRow 1 "a@b.com")).1.UUID
        (createTokens sample.lib { sample.svc with maxUserSessions := 0 } sample.env noFaults
          (serviceUserFromModel (sample.userRow 1 "a@b.com")).1 sample.db).db).val = 1 :=
  createTokens_over_cap sample.lib { sample.svc with maxUserSessions := 0 } sample.env noFaults
    (serviceUserFromModel (sample.userRow 1 "a@b.com")).1 sample.db (by decide) rfl rfl rfl rfl
    rfl (by decide)

/-- C3, as stated, fails.  The sample user holds one row, the cap is 2 and every
statement succeeds.  When the refresh signer fails and its error is the one the
first check reads, `createTokens` returns `could-not-authorize-user` before it
sends a statement: no row is added and the count stays 1.  When both signers
succeed but neither goroutine has run before `Add` reads `refresh`, `Add`
panics on the nil pointer and no row is added either. -/
theorem createTokens_within_cap_refuted :
    (CountForUser noFaults sample.user1.UUID sample.db).val ≤ sample.svc.maxUserSessions ∧
      (createTokens sample.refreshFailLib sample.svc sample.env noFaults sample.user1
        sample.db).err =
        some (.app (NewAuthorizationError "signing failed" "could-not-authorize-user")) ∧
      (createTokens sample.refreshFailLib sample.svc sample.env noFaults sample.user1
        sample.db).db = sample.db ∧
      (CountForUser noFaults sample.user1.UUID
        (createTokens sample.refreshFailLib sample.svc sample.env noFaults sample.user1
          sample.db).db).val = 1 ∧
      (createTokens sample.lib sample.svc { sample.env with sched := sample.notStarted }
        noFaults sample.user1 sample.db).panicked =
        some "runtime error: invalid memory address or nil pointer dereference" ∧
      (createTokens sample.lib sample.svc { sample.env with sched := sample.notStarted }
        noFaults sample.user1 sample.db).db.refresh_tokens = sample.db.refresh_tokens := by
  refine ⟨by decide, ?_, ?_, ?_, ?_, ?_⟩ <;> rfl

/-- C3, amended: when the user holds at most `maxUserSessions` rows as
`createTokens` runs, both tokens are created, count and insert succeed and the
run completes (no `wg.Done()` before `wg.Add(2)`, `refresh` assigned before `Add`
reads it, `access` assigned before the response reads it), `createTokens`
returns without error, no row is deleted and exactly one is added: the ledger
is the old one followed by the new row, the statements sent are the count and
the insert, and the count grows by one.  In particular a user holding exactly
`maxUserSessions` rows ends with `maxUserSessions + 1`, and the next issuance
(under the same conditions, with a succeeding wipe) leaves that user one row. -/
theorem createTokens_within_cap (L : Lib) (h : AuthService) (env : Env) (f : Faults) (u : User)
    (db : DB) (hs : env.sched.completes)
    (hacc : (CreateAccess L h.jwtService env.accessNow
      (NewAccessClaims u.UUID u.Email u.Name)).2 = none)
    (href : (CreateRefresh L h.jwtService env.refreshNow env.newUUID
      (NewRefreshClaims u.UUID)).2 = none)
    (hcnt : f .countRefreshTokens = none)
    (hadd : f .insertRefreshToken = none)
    (hle : (CountForUser f u.UUID db).val ≤ h.maxUserSessions) :
    (createTokens L h env f u db).err = none ∧
      (createTokens L h env f u db).panicked = none ∧
      (createTokens L h env f u db).db.refresh_tokens =
        db.refresh_tokens ++
          [{ UUID := env.newUUID, UserUUID := u.UUID,
             Token := (createTokens L h env f u db).val.Refresh.Value,
             CreatedAt := env.addCreatedAt, UpdatedAt := env.addUpdatedAt }] ∧
      (createTokens L h env f u db).db.trace =
        db.trace ++ [Query.countRefreshTokens, Query.insertRefreshToken] ∧
      (CountForUser f u.UUID (createTokens L h env f u db).db).val =
        (CountForUser f u.UUID db).val + 1 ∧
      ((CountForUser f u.UUID db).val = h.maxUserSessions →
        (CountForUser f u.UUID (createTokens L h env f u db).db).val = h.maxUserSessions + 1 ∧
        ∀ next : Env, next.sched.completes →
          (CreateAccess L h.jwtService next.accessNow
            (NewAccessClaims u.UUID u.Email u.Name)).2 = none →
          (CreateRefresh L h.jwtService next.refreshNow next.newUUID
            (NewRefreshClaims u.UUID)).2 = none →
          f .deleteRefreshTokensForUser = none →
          (CountForUser f u.UUID
            (createTokens L h next f u (createTokens L h env f u db).db).db).val = 1) := by
  have hle2 : ¬ (countRows u.UUID db.refresh_tokens : Int) > h.maxUserSessions := by
    simpa [CountForUser, hcnt] using hle
  have hr := createTokens_succeeds L h env f u db hs hacc href hcnt
    (fun hgt => absurd hgt hle2) hadd
  have hp := createTokens_returns L h env f u db hs hacc href hcnt
    (fun hgt => absurd hgt hle2) hadd
  have hl := createTokens_ledger L h env f u db hs hacc href hcnt
    (fun hgt => absurd hgt hle2) hadd
  rw [if_neg hle2] at hl
  have hcount : (CountForUser f u.UUID (createTokens L h env f u db).db).val =
      (CountForUser f u.UUID db).val + 1 := by
    simp only [CountForUser, hcnt, countRows]
    rw [hl, List.filter_append]
    simp
  refine ⟨hr.1, hp, hl, ?_, hcount, ?_⟩
  · rw [hr.2.2, if_neg hle2]
    simp
  · intro heq
    refine ⟨by rw [hcount, heq], ?_⟩
    intro next hs2 hacc2 href2 hdel
    have hover : (countRows u.UUID (createTokens L h env f u db).db.refresh_tokens : Int)
        > h.maxUserSessions := by
      have hc2 := hcount
      simp only [CountForUser, hcnt] at hc2 heq
      rw [hc2, heq]
      omega
    have hl2 := createTokens_ledger L h next f u (createTokens L h env f u db).db hs2 hacc2
      href2 hcnt (fun _ => hdel) hadd
    rw [if_pos hover] at hl2
    simp only [CountForUser, hcnt, countRows]
    rw [hl2, List.filter_append, filter_owner_of_others]
    simp

/-- With a cap of 1 the sample user, who holds one row, is at the cap: the
issuance adds a second row and the one after it leaves a single row. -/
theorem createTokens_within_cap_witness :
    (createTokens sample.lib sample.svc1 sample.env noFaults sample.user1 sample.db).err = none ∧
      (createTokens sample.lib sample.svc1 sample.env noFaults sample.user1
          sample.db).panicked = none ∧
      (createTokens sample.lib sample.svc1 sample.env noFaults sample.user1
          sample.db).db.refresh_tokens =
        sample.db.refresh_tokens ++
          [{ UUID := sample.env.newUUID, UserUUID := sample.user1.UUID,
             Token := (createTokens sample.lib sample.svc1 sample.env noFaults sample.user1
               sample.db).val.Refresh.Value,
             CreatedAt := sample.env.addCreatedAt, UpdatedAt := sample.env.addUpdatedAt }] ∧
      (createTokens sample.lib sample.svc1 sample.env noFaults sample.user1 sample.db).db.trace =
        sample.db.trace ++ [Query.countRefreshTokens, Query.insertRefreshToken] ∧
      (CountForUser noFaults sample.user1.UUID
          (createTokens sample.lib sample.svc1 sample.env noFaults sample.user1 sample.db).db).val =
        (CountForUser noFaults sample.user1.UUID sample.db).val + 1 ∧
      ((CountForUser noFaults sample.user1.UUID sample.db).val = sample.svc1.maxUserSessions →
        (CountForUser noFaults sample.user1.UUID
          (createTokens sample.lib sample.svc1 sample.env noFaults sample.user1 sample.db).db).val
          = sample.svc1.maxUserSessions + 1 ∧
        ∀ next : Env, next.sched.completes →
          (CreateAccess sample.lib sample.svc1.jwtService next.accessNow
            (NewAccessClaims sample.user1.UUID sample.user1.Email sample.user1.Name)).2 = none →
          (CreateRefresh sample.lib sample.svc1.jwtService next.refreshNow next.newUUID
            (NewRefreshClaims sample.user1.UUID)).2 = none →
          noFaults .deleteRefreshTokensForUser = none →
          (CountForUser noFaults sample.user1.UUID
            (createTokens sample.lib sample.svc1 next noFaults sample.user1
              (createTokens sample.lib sample.svc1 sample.env noFaults sample.user1
                sample.db).db).db).val = 1) :=
  createTokens_within_cap sample.lib sample.svc1 sample.env noFaults sample.user1 sample.db
    (by decide) rfl rfl rfl rfl (by decide)

/-! ## Sign-in -/

/-- C4: a sign-in whose user lookup fails (with whatever error) and a sign-in
whose user is found but whose password does not verify return the same error
(same message, slug `invalid-credentials`, same type) and the empty
`LoginResponse`; each sends one statement, the user lookup, so no ledger row is
read, added or deleted. -/
theorem SignIn_failures_indistinguishable (L : Lib) (B : Bcrypt) (h : AuthService)
    (env1 env2 : Env) (f1 f2 : Faults) (r1 r2 : SignInRequest) (db1 db2 : DB)
    (hmiss : (FindByEmail f1 r1.Email db1).err ≠ none)
    (hfound : (FindByEmail f2 r2.Email db2).err = none)
    (hwrong : CheckPasswordHash B r2.Password (FindByEmail f2 r2.Email db2).val.Hash = false) :
    (SignIn L B h env1 f1 r1 db1).err = (SignIn L B h env2 f2 r2 db2).err ∧
      (SignIn L B h env1 f1 r1 db1).err =
        some (.app (NewIncorrectInputError "User not found" "invalid-credentials")) ∧
      (SignIn L B h env1 f1 r1 db1).val = LoginResponse.zero ∧
      (SignIn L B h env2 f2 r2 db2).val = LoginResponse.zero ∧
      (SignIn L B h env1 f1 r1 db1).db.refresh_tokens = db1.refresh_tokens ∧
      (SignIn L B h env2 f2 r2 db2).db.refresh_tokens = db2.refresh_tokens ∧
      (SignIn L B h env1 f1 r1 db1).db.trace = db1.trace ++ [Query.selectUserByEmail] ∧
      (SignIn L B h env2 f2 r2 db2).db.trace = db2.trace ++ [Query.selectUserByEmail] := by
  have e1 : SignIn L B h env1 f1 r1 db1 =
      ⟨LoginResponse.zero,
        some (.app (NewIncorrectInputError "User not found" "invalid-credentials")),
        db1.log .selectUserByEmail, none⟩ := by
    unfold SignIn
    simp only
    split
    · rw [FindByEmail_db]
    · rename_i hnone
      exact absurd hnone hmiss
  have e2 : SignIn L B h env2 f2 r2 db2 =
      ⟨LoginResponse.zero,
        some (.app (NewIncorrectInputError "User not found" "invalid-credentials")),
        db2.log .selectUserByEmail, none⟩ := by
    unfold SignIn
    simp only [hfound, hwrong, FindByEmail_db]
    rfl
  rw [e1, e2]
  exact ⟨rfl, rfl, rfl, rfl, rfl, rfl, rfl, rfl⟩

/-- In the sample database, an unknown email and a wrong password for a known
email are answered alike. -/
theorem SignIn_failures_indistinguishable_witness :
    (SignIn sample.lib sample.bcrypt sample.svc sample.env noFaults
        ⟨"nobody@b.com", "pw"⟩ sample.db).err =
      (SignIn sample.lib sample.bcrypt sample.svc sample.env noFaults
        ⟨"a@b.com", "bad"⟩ sample.db).err ∧
      (SignIn sample.lib sample.bcrypt sample.svc sample.env noFaults
        ⟨"nobody@b.com", "pw"⟩ sample.db).err =
        some (.app (NewIncorrectInputError "User not found" "invalid-credentials")) ∧
      (SignIn sample.lib sample.bcrypt sample.svc sample.env noFaults
        ⟨"nobody@b.com", "pw"⟩ sample.db).val = LoginResponse.zero ∧
      (SignIn sample.lib sample.bcrypt sample.svc sample.env noFaults
        ⟨"a@b.com", "bad"⟩ sample.db).val = LoginResponse.zero ∧
      (SignIn sample.lib sample.bcrypt sample.svc sample.env noFaults
        ⟨"nobody@b.com", "pw"⟩ sample.db).db.refresh_tokens = sample.db.refresh_tokens ∧
      (SignIn sample.lib sample.bcrypt sample.svc sample.env noFaults
        ⟨"a@b.com", "bad"⟩ sample.db).db.refresh_tokens = sample.db.refresh_tokens ∧
      (SignIn sample.lib sample.bcrypt sample.svc sample.env noFaults
        ⟨"nobody@b.com", "pw"⟩ sample.db).db.trace
          = sample.db.trace ++ [Query.selectUserByEmail] ∧
      (SignIn sample.lib sample.bcrypt sample.svc sample.env noFaults
        ⟨"a@b.com", "bad"⟩ sample.db).db.trace
          = sample.db.trace ++ [Query.selectUserByEmail] :=
  SignIn_failures_indistinguishable sample.lib sample.bcrypt sample.svc sample.env sample.env
    noFaults noFaults ⟨"nobody@b.com", "pw"⟩ ⟨"a@b.com", "bad"⟩ sample.db sample.db
    (by decide) (by decide) (by decide)

/-- C5, as stated, fails: for an email no user has, `SignIn` fails, and its
error is not an Authorization error with slug `invalid-credentials`. -/
theorem SignIn_error_not_authorization :
    (FindByEmail noFaults "nobody@b.com" sample.db).err ≠ none ∧
      ¬ ∃ a, (SignIn sample.lib sample.bcrypt sample.svc sample.env noFaults
            ⟨"nobody@b.com", "pw"⟩ sample.db).err = some (.app a) ∧
          a.ErrorType = ErrorTypeAuthorization ∧ a.Slug = "invalid-credentials" := by
  refine ⟨by decide, ?_⟩
  rintro ⟨a, ha, hty, -⟩
  have hval : (SignIn sample.lib sample.bcrypt sample.svc sample.env noFaults
      ⟨"nobody@b.com", "pw"⟩ sample.db).err =
      some (.app (NewIncorrectInputError "User not found" "invalid-credentials")) := by
    decide
  rw [hval] at ha
  injection ha with ha
  injection ha with ha
  subst ha
  revert hty
  decide

/-- C5, amended: when `SignIn` fails because the user lookup fails or the
password does not verify, the error is an `AppError` of type IncorrectInput
(`ErrorTypeIncorrectInput`) with slug `invalid-credentials`. -/
theorem SignIn_failure_incorrect_input (L : Lib) (B : Bcrypt) (h : AuthService) (env : Env)
    (f : Faults) (r : SignInRequest) (db : DB)
    (hfail : (FindByEmail f r.Email db).err ≠ none ∨
      CheckPasswordHash B r.Password (FindByEmail f r.Email db).val.Hash = false) :
    ∃ a, (SignIn L B h env f r db).err = some (.app a) ∧
      a.ErrorType = ErrorTypeIncorrectInput ∧ a.Slug = "invalid-credentials" := by
  unfold SignIn
  simp only
  split
  · exact ⟨_, rfl, rfl, rfl⟩
  · rename_i hnone
    rcases hfail with hne | hpw
    · exact absurd hnone hne
    · simp only [hpw]
      exact ⟨_, rfl, rfl, rfl⟩

/-- A wrong password for the sample user gives the IncorrectInput error. -/
theorem SignIn_failure_incorrect_input_witness :
    ((FindByEmail noFaults "a@b.com" sample.db).err ≠ none ∨
        CheckPasswordHash sample.bcrypt "bad"
          (FindByEmail noFaults "a@b.com" sample.db).val.Hash = false) ∧
      ∃ a, (SignIn sample.lib sample.bcrypt sample.svc sample.env noFaults
            ⟨"a@b.com", "bad"⟩ sample.db).err = some (.app a) ∧
        a.ErrorType = ErrorTypeIncorrectInput ∧ a.Slug = "invalid-credentials" :=
  ⟨Or.inr (by decide),
    SignIn_failure_incorrect_input sample.lib sample.bcrypt sample.svc sample.env noFaults
      ⟨"a@b.com", "bad"⟩ sample.db (Or.inr (by decide))⟩

/-! ## Refresh rotation -/

/-- `Refresh` on a raw string whose decoded triple matches no ledger row. -/
theorem Refresh_no_match (L : Lib) (h : AuthService) (env : Env) (f : Faults)
    (raw : String) (db : DB)
    (hno : matching (ValidateRefresh L h.jwtService raw).1.Claims.UUID
      (ValidateRefresh L h.jwtService raw).1.Claims.UserId raw db.refresh_tokens = []) :
    (∃ a, (Refresh L h env f raw db).err = some (.app a) ∧
        a.ErrorType = ErrorTypeAuthorization ∧ a.Slug = "invalid-token") ∧
      (Refresh L h env f raw db).val = LoginResponse.zero ∧
      (Refresh L h env f raw db).db.refresh_tokens = db.refresh_tokens ∧
      (Refresh L h env f raw db).db.users = db.users ∧
      ((Refresh L h env f raw db).db.trace = db.trace ∨
        (Refresh L h env f raw db).db.trace = db.trace ++ [Query.selectRefreshToken]) := by
  have hval := Exists_no_match f _ _ raw db hno
  unfold Refresh
  simp only
  split
  · exact ⟨⟨_, rfl, rfl, rfl⟩, rfl, rfl, rfl, Or.inl rfl⟩
  · split
    · rw [Exists_db]
      exact ⟨⟨_, rfl, rfl, rfl⟩, rfl, rfl, rfl, Or.inr rfl⟩
    · simp only [hval]
      rw [Exists_db]
      exact ⟨⟨_, rfl, rfl, rfl⟩, rfl, rfl, rfl, Or.inr rfl⟩

/-- No row carries the identity, so no row matches a triple with it. -/
theorem matching_nil_of_no_identity (id owner : UUID) (t : String) (rows : List RefreshModel)
    (h : ∀ r ∈ rows, r.UUID ≠ id) : matching id owner t rows = [] := by
  unfold matching
  rw [List.filter_eq_nil_iff]
  intro r hr
  simp [h r hr]

/-- A successful `Delete` keeps exactly the rows with another identity. -/
theorem Delete_ok (f : Faults) (id : UUID) (db : DB) (hdel : f .deleteRefreshToken = none) :
    (Delete f id db).err = none ∧
      (Delete f id db).db.refresh_tokens =
        db.refresh_tokens.filter (fun r => decide (r.UUID ≠ id)) ∧
      (Delete f id db).db.users = db.users := by
  simp [Delete, hdel, DB.log]

/-- A `Delete` that returns no error was not made to fail. -/
theorem Delete_err_none (f : Faults) (id : UUID) (db : DB) (h : (Delete f id db).err = none) :
    f .deleteRefreshToken = none := by
  cases hf : f .deleteRefreshToken with
  | none => rfl
  | some e => simp [Delete, hf] at h

/-- The user lookup reads the user table only. -/
theorem FindById_congr (f : Faults) (id : UUID) (db1 db2 : DB) (h : db1.users = db2.users) :
    (FindById f id db1).err = (FindById f id db2).err ∧
      (FindById f id db1).val = (FindById f id db2).val := by
  unfold FindById
  simp only [h]
  split
  · split <;> exact ⟨rfl, rfl⟩
  · exact ⟨rfl, rfl⟩

theorem FindById_tables (f : Faults) (id : UUID) (db : DB) :
    (FindById f id db).db.refresh_tokens = db.refresh_tokens ∧
      (FindById f id db).db.users = db.users := by
  rw [FindById_db]
  exact ⟨rfl, rfl⟩

/-- `Refresh` once the row has been found: what is left is the delete, the
user lookup and the issuance. -/
theorem Refresh_found (L : Lib) (h : AuthService) (env : Env) (f : Faults)
    (raw : String) (db : DB)
    (hv : (ValidateRefresh L h.jwtService raw).2 = none)
    (hexe : (adapters.Exists f (ValidateRefresh L h.jwtService raw).1.Claims.UUID
      (ValidateRefresh L h.jwtService raw).1.Claims.UserId raw db).err = none)
    (hexv : (adapters.Exists f (ValidateRefresh L h.jwtService raw).1.Claims.UUID
      (ValidateRefresh L h.jwtService raw).1.Claims.UserId raw db).val = true) :
    Refresh L h env f raw db =
      match (Delete f (ValidateRefresh L h.jwtService raw).1.Claims.UUID
          (db.log .selectRefreshToken)).err with
      | some e =>
        ⟨LoginResponse.zero, some (.app (NewAuthorizationError e.Error "invalid-token")),
          (Delete f (ValidateRefresh L h.jwtService raw).1.Claims.UUID
            (db.log .selectRefreshToken)).db, none⟩
      | none =>
        match (FindById f (ValidateRefresh L h.jwtService raw).1.Claims.UserId
            (Delete f (ValidateRefresh L h.jwtService raw).1.Claims.UUID
              (db.log .selectRefreshToken)).db).err with
        | some e =>
          ⟨LoginResponse.zero, some (.app (NewAuthorizationError e.Error "invalid-token")),
            (FindById f (ValidateRefresh L h.jwtService raw).1.Claims.UserId
              (Delete f (ValidateRefresh L h.jwtService raw).1.Claims.UUID
                (db.log .selectRefreshToken)).db).db, none⟩
        | none =>
          createTokens L h env f
            (FindById f (ValidateRefresh L h.jwtService raw).1.Claims.UserId
              (Delete f (ValidateRefresh L h.jwtService raw).1.Claims.UUID
                (db.log .selectRefreshToken)).db).val
            (FindById f (ValidateRefresh L h.jwtService raw).1.Claims.UserId
              (Delete f (ValidateRefresh L h.jwtService raw).1.Claims.UUID
                (db.log .selectRefreshToken)).db).db := by
  unfold Refresh
  simp only [hv, hexe, hexv, Exists_db]
  rfl

/-- A `Refresh` that returns no error has validated the string, found the row,
deleted it, found the user and issued tokens. -/
theorem Refresh_ok_inv (L : Lib) (h : AuthService) (env : Env) (f : Faults)
    (raw : String) (db : DB) (hok : (Refresh L h env f raw db).err = none) :
    (ValidateRefresh L h.jwtService raw).2 = none ∧
      (adapters.Exists f (ValidateRefresh L h.jwtService raw).1.Claims.UUID
        (ValidateRefresh L h.jwtService raw).1.Claims.UserId raw db).err = none ∧
      (adapters.Exists f (ValidateRefresh L h.jwtService raw).1.Claims.UUID
        (ValidateRefresh L h.jwtService raw).1.Claims.UserId raw db).val = true := by
  unfold Refresh at hok
  simp only at hok
  split at hok
  · simp at hok
  · rename_i hv
    refine ⟨hv, ?_⟩
    split at hok
    · simp at hok
    · rename_i hexe
      refine ⟨hexe, ?_⟩
      split at hok
      · simp at hok
      · rename_i hexv
        simpa using hexv

/-- C7: when the triple `ValidateRefresh` yields for the raw string (token
identity, owning user, raw string) matches no ledger row, `Refresh` fails with
an Authorization error with slug `invalid-token`, returns the empty
`LoginResponse`, and changes neither table; at most the lookup of the row was
sent, so nothing is deleted and nothing inserted. -/
theorem Refresh_unknown_token_rejected (L : Lib) (h : AuthService) (env : Env) (f : Faults)
    (raw : String) (db : DB)
    (hno : matching (ValidateRefresh L h.jwtService raw).1.Claims.UUID
      (ValidateRefresh L h.jwtService raw).1.Claims.UserId raw db.refresh_tokens = []) :
    (∃ a, (Refresh L h env f raw db).err = some (.app a) ∧
        a.ErrorType = ErrorTypeAuthorization ∧ a.Slug = "invalid-token") ∧
      (Refresh L h env f raw db).val = LoginResponse.zero ∧
      (Refresh L h env f raw db).db.refresh_tokens = db.refresh_tokens ∧
      (Refresh L h env f raw db).db.users = db.users ∧
      ((Refresh L h env f raw db).db.trace = db.trace ∨
        (Refresh L h env f raw db).db.trace = db.trace ++ [Query.selectRefreshToken]) :=
  Refresh_no_match L h env f raw db hno

/-- The token `"old"` decodes to identity 7 of user 1; a ledger holding only a
row with identity 9 does not know it. -/
theorem Refresh_unknown_token_rejected_witness :
    matching (ValidateRefresh sample.lib sample.svc.jwtService "old").1.Claims.UUID
        (ValidateRefresh sample.lib sample.svc.jwtService "old").1.Claims.UserId "old"
        [sample.row 9 1 "old"] = [] ∧
      ((∃ a, (Refresh sample.lib sample.svc sample.env noFaults "old"
            ⟨[sample.userRow 1 "a@b.com"], [sample.row 9 1 "old"], []⟩).err = some (.app a) ∧
          a.ErrorType = ErrorTypeAuthorization ∧ a.Slug = "invalid-token") ∧
        (Refresh sample.lib sample.svc sample.env noFaults "old"
            ⟨[sample.userRow 1 "a@b.com"], [sample.row 9 1 "old"], []⟩).val
          = LoginResponse.zero ∧
        (Refresh sample.lib sample.svc sample.env noFaults "old"
            ⟨[sample.userRow 1 "a@b.com"], [sample.row 9 1 "old"], []⟩).db.refresh_tokens
          = [sample.row 9 1 "old"] ∧
        (Refresh sample.lib sample.svc sample.env noFaults "old"
            ⟨[sample.userRow 1 "a@b.com"], [sample.row 9 1 "old"], []⟩).db.users
          = [sample.userRow 1 "a@b.com"] ∧
        ((Refresh sample.lib sample.svc sample.env noFaults "old"
            ⟨[sample.userRow 1 "a@b.com"], [sample.row 9 1 "old"], []⟩).db.trace = [] ∨
          (Refresh sample.lib sample.svc sample.env noFaults "old"
            ⟨[sample.userRow 1 "a@b.com"], [sample.row 9 1 "old"], []⟩).db.trace
            = [] ++ [Query.selectRefreshToken])) :=
  ⟨by decide,
    Refresh_unknown_token_rejected sample.lib sample.svc sample.env noFaults "old"
      ⟨[sample.userRow 1 "a@b.com"], [sample.row 9 1 "old"], []⟩ (by decide)⟩

/-- C6, the code at a failing input: `Refresh("old")` finds and deletes the old
row and finds the user; then the session count fails, and the goroutine that
creates the access token assigns its nil error to the shared `err` after
`createTokens` has assigned the error of `CountForUser` and before
`createTokens` checks it (place 3).  The check reads nil: `Refresh` returns a
token pair and a nil error although a later step failed.  The old row is gone
all the same.  With both goroutines finished before the first check, the same
failure is returned as an error. -/
theorem Refresh_count_failure_lost :
    sample.countDown .countRefreshTokens = some "down" ∧
      (sample.lateErr 3).accessErrAt = 3 ∧
      (Refresh sample.lib sample.svc { sample.env with sched := sample.lateErr 3 }
        sample.countDown "old" sample.db).err = none ∧
      (Refresh sample.lib sample.svc { sample.env with sched := sample.lateErr 3 }
        sample.countDown "old" sample.db).panicked = none ∧
      (Refresh sample.lib sample.svc { sample.env with sched := sample.lateErr 3 }
        sample.countDown "old" sample.db).val =
        { Access := { Value := "acc", UserId := 1 },
          Refresh := { Value := "new", UserId := 1 } } ∧
      (Refresh sample.lib sample.svc { sample.env with sched := sample.lateErr 3 }
        sample.countDown "old" sample.db).db.refresh_tokens = [sample.row 8 1 "new"] ∧
      (Refresh sample.lib sample.svc { sample.env with sched := sample.lateErr 3 }
        sample.countDown "old" sample.db).db.trace =
        [Query.selectRefreshToken, Query.deleteRefreshToken, Query.selectUserById,
          Query.countRefreshTokens, Query.insertRefreshToken] ∧
      (Refresh sample.lib sample.svc sample.env sample.countDown "old" sample.db).err =
        some (.app (NewAuthorizationError "down" "could-not-authorize-user")) ∧
      (Refresh sample.lib sample.svc sample.env sample.countDown "old" sample.db).val =
        LoginResponse.zero := by
  refine ⟨rfl, rfl, ?_, ?_, ?_, ?_, ?_, ?_, ?_⟩ <;> decide

/-- C1: if `Refresh(raw)` succeeds (returns no error; the old row is then
deleted, whatever the order of the goroutines in `createTokens`) and the
identity of the refresh token it created differs from the identity it consumed,
then a `Refresh(raw)` that follows immediately, on the database the first one
left and whatever its environment and faults, fails with an Authorization
error whose slug is `invalid-token` and hands back no token. -/
theorem Refresh_single_use (L : Lib) (h : AuthService) (env next : Env) (f f2 : Faults)
    (raw : String) (db : DB)
    (hok : (Refresh L h env f raw db).err = none)
    (hfresh : (CreateRefresh L h.jwtService env.refreshNow env.newUUID
        (NewRefreshClaims (ValidateRefresh L h.jwtService raw).1.Claims.UserId)).1.Claims.UUID ≠
      (ValidateRefresh L h.jwtService raw).1.Claims.UUID) :
    (∃ a, (Refresh L h next f2 raw (Refresh L h env f raw db).db).err = some (.app a) ∧
        a.ErrorType = ErrorTypeAuthorization ∧ a.Slug = "invalid-token") ∧
      (Refresh L h next f2 raw (Refresh L h env f raw db).db).val = LoginResponse.zero := by
  obtain ⟨hv, hexe, hexv⟩ := Refresh_ok_inv L h env f raw db hok
  have hR := Refresh_found L h env f raw db hv hexe hexv
  have hrows : ∀ r ∈ (Refresh L h env f raw db).db.refresh_tokens,
      r.UUID ≠ (ValidateRefresh L h.jwtService raw).1.Claims.UUID := by
    cases hd : (Delete f (ValidateRefresh L h.jwtService raw).1.Claims.UUID
        (db.log .selectRefreshToken)).err with
    | some e =>
      simp only [hd] at hR
      rw [hR] at hok
      simp at hok
    | none =>
      simp only [hd] at hR
      obtain ⟨-, hdl, -⟩ := Delete_ok f (ValidateRefresh L h.jwtService raw).1.Claims.UUID
        (db.log .selectRefreshToken) (Delete_err_none f _ _ hd)
      cases hu : (FindById f (ValidateRefresh L h.jwtService raw).1.Claims.UserId
          (Delete f (ValidateRefresh L h.jwtService raw).1.Claims.UUID
            (db.log .selectRefreshToken)).db).err with
      | some e =>
        simp only [hu] at hR
        rw [hR] at hok
        simp at hok
      | none =>
        simp only [hu] at hR
        rw [hR] at hok ⊢
        have hid := FindById_UUID f (ValidateRefresh L h.jwtService raw).1.Claims.UserId _ hu
        have hft := FindById_tables f (ValidateRefresh L h.jwtService raw).1.Claims.UserId
          (Delete f (ValidateRefresh L h.jwtService raw).1.Claims.UUID
            (db.log .selectRefreshToken)).db
        intro r hr
        rcases createTokens_rows L h env f _ _ r hr with hb | hn
        · rw [hft.1, hdl] at hb
          simpa using (List.mem_filter.mp hb).2
        · rw [hn, hid]
          exact hfresh
  have hno := matching_nil_of_no_identity (ValidateRefresh L h.jwtService raw).1.Claims.UUID
    (ValidateRefresh L h.jwtService raw).1.Claims.UserId raw _ hrows
  have hres := Refresh_no_match L h next f2 raw (Refresh L h env f raw db).db hno
  exact ⟨hres.1, hres.2.1⟩

/-- In the sample database `"old"` is rotated once; the second attempt, made in
another environment, is refused. -/
theorem Refresh_single_use_witness :
    (∃ a, (Refresh sample.lib sample.svc sample.env2 noFaults "old"
          (Refresh sample.lib sample.svc sample.env noFaults "old" sample.db).db).err
          = some (.app a) ∧
        a.ErrorType = ErrorTypeAuthorization ∧ a.Slug = "invalid-token") ∧
      (Refresh sample.lib sample.svc sample.env2 noFaults "old"
          (Refresh sample.lib sample.svc sample.env noFaults "old" sample.db).db).val
        = LoginResponse.zero :=
  Refresh_single_use sample.lib sample.svc sample.env sample.env2 noFaults noFaults "old"
    sample.db (by decide) (by decide)

/-- C9, as stated for every ledger and user table, fails: the string `"zzz"`
fails verification, so `ValidateRefresh` yields zero claims and no error; the
ledger holds a row with nil identities for that string and the user table a
user with the nil identity.  `Refresh` accepts the string, consumes the row,
and issues a token pair for the nil user identity. -/
theorem Refresh_zero_claims_accepted :
    sample.lib.ParseRefresh "zzz" (validateParsed sample.svc.jwtService) =
        .error "token is malformed" ∧
      ValidateRefresh sample.lib sample.svc.jwtService "zzz" = (RefreshJWT.zero, none) ∧
      (Refresh sample.lib sample.svc sample.env noFaults "zzz" sample.nilDb).err = none ∧
      (Refresh sample.lib sample.svc sample.env noFaults "zzz" sample.nilDb).val =
        { Access := { Value := "acc", UserId := uuidNil },
          Refresh := { Value := "new", UserId := uuidNil } } ∧
      (Refresh sample.lib sample.svc sample.env noFaults "zzz" sample.nilDb).db.refresh_tokens =
        [sample.row 8 0 "new"] := by
  refine ⟨rfl, rfl, ?_, ?_, ?_⟩ <;> decide

/-- With no stored row for the identity, `FindById` returns an error, whether
the query itself succeeds or fails. -/
theorem FindById_absent (f : Faults) (id : UUID) (db : DB)
    (hnone : db.users.filter (fun m => decide (m.UUID = id)) = []) :
    (FindById f id db).err ≠ none := by
  unfold FindById
  simp only
  split
  · split <;> simp
  · rename_i hn
    unfold adapters.get pgxscan.Get at hn
    simp only [hnone] at hn
    cases hf : f .selectUserById with
    | none =>
      simp [hf] at hn
      split at hn <;> simp at hn
    | some e =>
      simp [hf] at hn
      split at hn <;> simp at hn

/-- `Delete` changes no user row and adds no ledger row, whether its statement
succeeds or fails. -/
theorem Delete_frame (f : Faults) (id : UUID) (db : DB) :
    (Delete f id db).db.users = db.users ∧
      ∀ r ∈ (Delete f id db).db.refresh_tokens, r ∈ db.refresh_tokens := by
  unfold Delete
  simp only
  split
  · exact ⟨rfl, fun r hr => hr⟩
  · exact ⟨rfl, fun r hr => (List.mem_filter.mp hr).1⟩

/-- C9, amended: for every raw string on which the parser reports an error (so
`ValidateRefresh` yields zero claims and no error), for every ledger and every
user table in which no user has the nil identity, whatever fails and in
whatever order the goroutines run, `Refresh` returns an Authorization error
with slug `invalid-token` and hands back no token; it changes no user row and
adds no ledger row.  `Refresh` does not check the claims: the refusal comes
from looking the nil identities up in the ledger and in the user table. -/
theorem Refresh_unverified_rejected (L : Lib) (h : AuthService) (env : Env) (f : Faults)
    (raw e : String) (db : DB)
    (hparse : L.ParseRefresh raw (validateParsed h.jwtService) = .error e)
    (hnil : ∀ m ∈ db.users, m.UUID ≠ uuidNil) :
    ValidateRefresh L h.jwtService raw = (RefreshJWT.zero, none) ∧
      (∃ a, (Refresh L h env f raw db).err = some (.app a) ∧
        a.ErrorType = ErrorTypeAuthorization ∧ a.Slug = "invalid-token") ∧
      (Refresh L h env f raw db).val = LoginResponse.zero ∧
      (Refresh L h env f raw db).panicked = none ∧
      (Refresh L h env f raw db).db.users = db.users ∧
      (∀ r ∈ (Refresh L h env f raw db).db.refresh_tokens, r ∈ db.refresh_tokens) := by
  have hv : ValidateRefresh L h.jwtService raw = (RefreshJWT.zero, none) := by
    unfold ValidateRefresh
    rw [hparse]
  refine ⟨hv, ?_⟩
  have hfilter : ∀ d : DB, d.users = db.users →
      d.users.filter (fun m => decide (m.UUID = RefreshJWT.zero.Claims.UserId)) = [] := by
    intro d hd
    rw [hd, List.filter_eq_nil_iff]
    intro m hm
    simpa using hnil m hm
  have hdf := Delete_frame f RefreshJWT.zero.Claims.UUID (db.log .selectRefreshToken)
  have hfind := FindById_absent f RefreshJWT.zero.Claims.UserId
    (Delete f RefreshJWT.zero.Claims.UUID (db.log .selectRefreshToken)).db
    (hfilter _ hdf.1)
  unfold Refresh
  simp only [hv, Exists_db]
  split
  · exact ⟨⟨_, rfl, rfl, rfl⟩, rfl, rfl, rfl, fun r hr => hr⟩
  · split
    · exact ⟨⟨_, rfl, rfl, rfl⟩, rfl, rfl, rfl, fun r hr => hr⟩
    · split
      · exact ⟨⟨_, rfl, rfl, rfl⟩, rfl, rfl, hdf.1, hdf.2⟩
      · split
        · rw [FindById_db]
          exact ⟨⟨_, rfl, rfl, rfl⟩, rfl, rfl, hdf.1, hdf.2⟩
        · rename_i hnone
          exact absurd hnone hfind

/-- The string `"zzz"` fails verification; the ledger even holds a row with nil
identities for it, and the only user has identity 1: `Refresh` refuses it. -/
theorem Refresh_unverified_rejected_witness :
    (∀ m ∈ ({ users := [sample.userRow 1 "a@b.com"],
              refresh_tokens := [sample.row 0 0 "zzz"], trace := [] } : DB).users,
        m.UUID ≠ uuidNil) ∧
      (ValidateRefresh sample.lib sample.svc.jwtService "zzz" = (RefreshJWT.zero, none) ∧
        (∃ a, (Refresh sample.lib sample.svc sample.env noFaults "zzz"
            { users := [sample.userRow 1 "a@b.com"],
              refresh_tokens := [sample.row 0 0 "zzz"], trace := [] }).err = some (.app a) ∧
          a.ErrorType = ErrorTypeAuthorization ∧ a.Slug = "invalid-token") ∧
        (Refresh sample.lib sample.svc sample.env noFaults "zzz"
            { users := [sample.userRow 1 "a@b.com"],
              refresh_tokens := [sample.row 0 0 "zzz"], trace := [] }).val
          = LoginResponse.zero ∧
        (Refresh sample.lib sample.svc sample.env noFaults "zzz"
            { users := [sample.userRow 1 "a@b.com"],
              refresh_tokens := [sample.row 0 0 "zzz"], trace := [] }).panicked = none ∧
        (Refresh sample.lib sample.svc sample.env noFaults "zzz"
            { users := [sample.userRow 1 "a@b.com"],
              refresh_tokens := [sample.row 0 0 "zzz"], trace := [] }).db.users
          = [sample.userRow 1 "a@b.com"] ∧
        (∀ r ∈ (Refresh sample.lib sample.svc sample.env noFaults "zzz"
            { users := [sample.userRow 1 "a@b.com"],
              refresh_tokens := [sample.row 0 0 "zzz"], trace := [] }).db.refresh_tokens,
          r ∈ [sample.row 0 0 "zzz"])) :=
  ⟨by decide,
    Refresh_unverified_rejected sample.lib sample.svc sample.env noFaults "zzz"
      "token is malformed"
      { users := [sample.userRow 1 "a@b.com"], refresh_tokens := [sample.row 0 0 "zzz"],
        trace := [] } rfl (by decide)⟩

/-! ## Enumerations and the stored user row -/

/-- `currency.FromString` in closed form. -/
theorem currency_FromString_eq (s : String) :
    currency.FromString s =
      if s ∈ currency.codes then (⟨s⟩, none)
      else (currency.UNKNOWN, some (.plain "Invalid currency value")) := by
  unfold currency.FromString currency.codes
  simp only [currency.Currency.String, currency.RUB, currency.GEL, currency.AMD, currency.USD,
    currency.EUR, currency.RSD]
  split_ifs <;> simp_all

/-- `day.FromString` in closed form. -/
theorem day_FromString_eq (s : String) :
    day.FromString s =
      if s ∈ day.codes then (⟨s⟩, none)
      else (day.UNKNOWN, some (.plain ("Invalid day value " ++ s))) := by
  unfold day.FromString day.codes
  simp only [day.Day.String, day.MON, day.TUE, day.WED, day.THU, day.FRI, day.SAT, day.SUN]
  split_ifs <;> simp_all

/-- C18: `FromString` inverts `String` on the closed sets.  A string that is
one of the six currency codes (seven day codes) is returned as that value with
no error, every other string gives `UNKNOWN` and an error; so each named value
reads back as itself, and `"UNKNOWN"`, the empty string and a lower-case code
are refused. -/
theorem FromString_inverts_String :
    (∀ s, currency.FromString s =
        if s ∈ currency.codes then (⟨s⟩, none)
        else (currency.UNKNOWN, some (.plain "Invalid currency value"))) ∧
      (∀ s, day.FromString s =
        if s ∈ day.codes then (⟨s⟩, none)
        else (day.UNKNOWN, some (.plain ("Invalid day value " ++ s)))) ∧
      (∀ c ∈ [currency.RUB, currency.GEL, currency.AMD, currency.USD, currency.EUR,
          currency.RSD], currency.FromString c.String = (c, none)) ∧
      (∀ d ∈ [day.MON, day.TUE, day.WED, day.THU, day.FRI, day.SAT, day.SUN],
        day.FromString d.String = (d, none)) ∧
      (∀ s ∈ ["UNKNOWN", "", "rub", "Usd"],
        (currency.FromString s).1 = currency.UNKNOWN ∧ (currency.FromString s).2 ≠ none) ∧
      (∀ s ∈ ["UNKNOWN", "", "mon", "Sun"],
        (day.FromString s).1 = day.UNKNOWN ∧ (day.FromString s).2 ≠ none) := by
  refine ⟨currency_FromString_eq, day_FromString_eq, ?_, ?_, ?_, ?_⟩ <;> decide

/-- A key that no entry of the map carries reads as the empty string. -/
theorem mapGet_missing (m : List (String × String)) (key : String)
    (h : ∀ kv ∈ m, kv.1 ≠ key) : mapGet m key = "" := by
  unfold mapGet
  have hnone : m.find? (fun kv => kv.1 == key) = none := by
    rw [List.find?_eq_none]
    intro kv hkv
    simpa using h kv hkv
  rw [hnone]

/-- `serviceUserFromModel` in closed form. -/
theorem serviceUserFromModel_eq (m : UserModel) :
    serviceUserFromModel m =
      if mapGet m.Settings "currency" ∈ currency.codes then
        ({ UUID := m.UUID, Email := m.Email, Name := m.Name, Hash := m.Hash,
           Settings :=
            { Currency := ⟨mapGet m.Settings "currency"⟩,
              ProfilePictureUrl := mapGet m.Settings "profile_picture_url",
              FirstDayOfWeek :=
                if mapGet m.Settings "first_day_of_week" ∈ day.codes then
                  ⟨mapGet m.Settings "first_day_of_week"⟩
                else day.MON },
           CreatedAt := m.CreatedAt, UpdatedAt := m.UpdatedAt }, none)
      else (User.zero, some (.plain "Invalid currency value")) := by
  unfold serviceUserFromModel
  simp only [currency_FromString_eq, day_FromString_eq]
  by_cases hc : mapGet m.Settings "currency" ∈ currency.codes
  · by_cases hd : mapGet m.Settings "first_day_of_week" ∈ day.codes
    · simp [hc, hd, NewUser, NewUserSettings]
    · simp [hc, hd, NewUser, NewUserSettings]
  · simp [hc]

/-- C19: converting a stored row, a `first_day_of_week` that is not one of the
seven codes (or is missing from the map) degrades to `MON` without failing,
while a `currency` that is not one of the six codes (or is missing) makes the
conversion fail with an error; on success identity, email, name, hash, picture
URL and both timestamps are copied from the row unchanged. -/
theorem serviceUserFromModel_asymmetry (m : UserModel) :
    (mapGet m.Settings "currency" ∉ currency.codes →
        serviceUserFromModel m = (User.zero, some (.plain "Invalid currency value"))) ∧
      (mapGet m.Settings "currency" ∈ currency.codes →
        (serviceUserFromModel m).2 = none ∧
        (serviceUserFromModel m).1.UUID = m.UUID ∧
        (serviceUserFromModel m).1.Email = m.Email ∧
        (serviceUserFromModel m).1.Name = m.Name ∧
        (serviceUserFromModel m).1.Hash = m.Hash ∧
        (serviceUserFromModel m).1.Settings.ProfilePictureUrl =
          mapGet m.Settings "profile_picture_url" ∧
        (serviceUserFromModel m).1.CreatedAt = m.CreatedAt ∧
        (serviceUserFromModel m).1.UpdatedAt = m.UpdatedAt ∧
        (serviceUserFromModel m).1.Settings.Currency = ⟨mapGet m.Settings "currency"⟩ ∧
        (mapGet m.Settings "first_day_of_week" ∉ day.codes →
          (serviceUserFromModel m).1.Settings.FirstDayOfWeek = day.MON) ∧
        (mapGet m.Settings "first_day_of_week" ∈ day.codes →
          (serviceUserFromModel m).1.Settings.FirstDayOfWeek =
            ⟨mapGet m.Settings "first_day_of_week"⟩)) ∧
      ((∀ kv ∈ m.Settings, kv.1 ≠ "currency") →
        mapGet m.Settings "currency" ∉ currency.codes) ∧
      ((∀ kv ∈ m.Settings, kv.1 ≠ "first_day_of_week") →
        mapGet m.Settings "first_day_of_week" ∉ day.codes) := by
  refine ⟨?_, ?_, ?_, ?_⟩
  · intro hc
    rw [serviceUserFromModel_eq, if_neg hc]
  · intro hc
    rw [serviceUserFromModel_eq, if_pos hc]
    refine ⟨rfl, rfl, rfl, rfl, rfl, rfl, rfl, rfl, rfl, ?_, ?_⟩
    · intro hd
      simp [hd]
    · intro hd
      simp [hd]
  · intro h
    rw [mapGet_missing _ _ h]
    decide
  · intro h
    rw [mapGet_missing _ _ h]
    decide

/-- A row with currency `USD` and no `first_day_of_week` entry converts, with
`MON` as the day; a row with no `currency` entry does not convert. -/
theorem serviceUserFromModel_asymmetry_witness :
    (serviceUserFromModel { sample.userRow 1 "a@b.com" with
        Settings := [("currency", "USD")] }).2 = none ∧
      (serviceUserFromModel { sample.userRow 1 "a@b.com" with
        Settings := [("currency", "USD")] }).1.Settings.FirstDayOfWeek = day.MON ∧
      serviceUserFromModel { sample.userRow 1 "a@b.com" with
        Settings := [("first_day_of_week", "SUN")] } =
        (User.zero, some (.plain "Invalid currency value")) :=
  have t := serviceUserFromModel_asymmetry
    { sample.userRow 1 "a@b.com" with Settings := [("currency", "USD")] }
  have u := serviceUserFromModel_asymmetry
    { sample.userRow 1 "a@b.com" with Settings := [("first_day_of_week", "SUN")] }
  ⟨(t.2.1 (by decide)).1,
    (t.2.1 (by decide)).2.2.2.2.2.2.2.2.2.1 (t.2.2.2 (by decide)),
    u.1 (u.2.2.1 (by decide))⟩

/-! ## User lookup -/

/-- C20, the code at a failing input: the sample database has no user with
identity 5 and none with email `nobody@b.com`.  `FindById` and `FindByEmail`
return the error of the query helper as it is, message `Not found` and slug
`not-found`, of type NotFound; the slug is not `user-not-found`.  The rewrite
compares the message of the error with `"not-found"`, which is its slug. -/
theorem FindById_not_found_slug :
    (FindById noFaults 5 sample.db).err =
        some (.app { error := "Not found", slug := "not-found", errorType := ErrorNotFound }) ∧
      (FindByEmail noFaults "nobody@b.com" sample.db).err =
        some (.app { error := "Not found", slug := "not-found", errorType := ErrorNotFound }) ∧
      (NewNotFoundError "Not found" "not-found").Error ≠ "not-found" ∧
      (NewNotFoundError "Not found" "not-found").Slug ≠ "user-not-found" := by
  refine ⟨?_, ?_, ?_, ?_⟩ <;> decide

/-! ## Settings update -/

/-- `UpdateSettings` on a request whose currency is not one of the six codes. -/
theorem UpdateSettings_bad_currency (f : Faults) (req : UpdateSettingsRequest) (db : DB)
    (hc : req.Currency ∉ currency.codes) :
    (user.UpdateSettings f req db).err =
        some (.app (NewIncorrectInputError "Invalid currency" "field-currency-invalid")) ∧
      (user.UpdateSettings f req db).val = User.zero ∧
      (user.UpdateSettings f req db).db = db := by
  unfold user.UpdateSettings
  simp only [currency_FromString_eq, if_neg hc]
  exact ⟨trivial, trivial, trivial⟩

/-- `UpdateSettings` on a request whose currency is one of the six codes and
whose day is not one of the seven. -/
theorem UpdateSettings_bad_day (f : Faults) (req : UpdateSettingsRequest) (db : DB)
    (hc : req.Currency ∈ currency.codes) (hd : req.FirstDayOfWeek ∉ day.codes) :
    (user.UpdateSettings f req db).err =
        some (.app (NewIncorrectInputError "Invalid first day of week"
          "field-first-day-of-week-invalid")) ∧
      (user.UpdateSettings f req db).val = User.zero ∧
      (user.UpdateSettings f req db).db = db := by
  unfold user.UpdateSettings
  simp only [currency_FromString_eq, day_FromString_eq, if_pos hc, if_neg hd]
  exact ⟨trivial, trivial, trivial⟩

/-- C13: whenever the currency string or the first-day-of-week string of the
request is not a member of its enum, `UpdateSettings` fails with an
IncorrectInput error and sends no statement at all (the database, trace
included, is as before, so the stored settings are unchanged); the slug is
`field-currency-invalid` when the currency is not recognised, whatever the
day, and `field-first-day-of-week-invalid` otherwise. -/
theorem UpdateSettings_rejects_unknown_enum (f : Faults) (req : UpdateSettingsRequest) (db : DB)
    (hbad : req.Currency ∉ currency.codes ∨ req.FirstDayOfWeek ∉ day.codes) :
    (∃ a, (user.UpdateSettings f req db).err = some (.app a) ∧
        a.ErrorType = ErrorTypeIncorrectInput ∧
        a.Slug = if req.Currency ∉ currency.codes then "field-currency-invalid"
          else "field-first-day-of-week-invalid") ∧
      (user.UpdateSettings f req db).val = User.zero ∧
      (user.UpdateSettings f req db).db = db ∧
      (user.UpdateSettings f req db).db.trace = db.trace ∧
      (user.UpdateSettings f req db).db.users = db.users := by
  by_cases hc : req.Currency ∈ currency.codes
  · have hd : req.FirstDayOfWeek ∉ day.codes := by
      rcases hbad with h | h
      · exact absurd hc h
      · exact h
    obtain ⟨he, hv, hdb⟩ := UpdateSettings_bad_day f req db hc hd
    refine ⟨⟨_, he, rfl, ?_⟩, hv, hdb, by rw [hdb], by rw [hdb]⟩
    simp [hc, NewIncorrectInputError, AppError.Slug]
  · obtain ⟨he, hv, hdb⟩ := UpdateSettings_bad_currency f req db hc
    refine ⟨⟨_, he, rfl, ?_⟩, hv, hdb, by rw [hdb], by rw [hdb]⟩
    simp [hc, NewIncorrectInputError, AppError.Slug]

/-- A request with the currency `XXX` and the day `XYZ` is refused for its
currency, and nothing is sent to the database. -/
theorem UpdateSettings_rejects_unknown_enum_witness :
    (∃ a, (user.UpdateSettings noFaults ⟨1, "XXX", "XYZ", "p"⟩ sample.db).err = some (.app a) ∧
        a.ErrorType = ErrorTypeIncorrectInput ∧
        a.Slug = if "XXX" ∉ currency.codes then "field-currency-invalid"
          else "field-first-day-of-week-invalid") ∧
      (user.UpdateSettings noFaults ⟨1, "XXX", "XYZ", "p"⟩ sample.db).val = User.zero ∧
      (user.UpdateSettings noFaults ⟨1, "XXX", "XYZ", "p"⟩ sample.db).db = sample.db ∧
      (user.UpdateSettings noFaults ⟨1, "XXX", "XYZ", "p"⟩ sample.db).db.trace
        = sample.db.trace ∧
      (user.UpdateSettings noFaults ⟨1, "XXX", "XYZ", "p"⟩ sample.db).db.users
        = sample.db.users :=
  UpdateSettings_rejects_unknown_enum noFaults ⟨1, "XXX", "XYZ", "p"⟩ sample.db
    (Or.inl (by decide))

/-- C14, as stated, fails: a request with the recognised currency `USD` and the
unrecognised day `XYZ` does not succeed, and the stored settings of the user
keep the day `SUN` they had; no default day is written. -/
theorem UpdateSettings_bad_day_not_defaulted :
    "USD" ∈ currency.codes ∧ "XYZ" ∉ day.codes ∧
      (user.UpdateSettings noFaults ⟨1, "USD", "XYZ", "p"⟩ sample.db).err ≠ none ∧
      (user.UpdateSettings noFaults ⟨1, "USD", "XYZ", "p"⟩ sample.db).db.users
        = [sample.userRow 1 "a@b.com"] ∧
      mapGet (sample.userRow 1 "a@b.com").Settings "first_day_of_week" = "SUN" := by
  refine ⟨?_, ?_, ?_, ?_, ?_⟩ <;> decide

/-- C14, amended: for every request with a recognised currency and an
unrecognised first-day-of-week string, `UpdateSettings` fails with an
IncorrectInput error with slug `field-first-day-of-week-invalid`; no default
day is substituted and nothing is written. -/
theorem UpdateSettings_bad_day_rejected (f : Faults) (req : UpdateSettingsRequest) (db : DB)
    (hc : req.Currency ∈ currency.codes) (hd : req.FirstDayOfWeek ∉ day.codes) :
    (∃ a, (user.UpdateSettings f req db).err = some (.app a) ∧
        a.ErrorType = ErrorTypeIncorrectInput ∧
        a.Slug = "field-first-day-of-week-invalid") ∧
      (user.UpdateSettings f req db).val = User.zero ∧
      (user.UpdateSettings f req db).db = db := by
  obtain ⟨he, hv, hdb⟩ := UpdateSettings_bad_day f req db hc hd
  exact ⟨⟨_, he, rfl, rfl⟩, hv, hdb⟩

/-- The request with currency `USD` and day `XYZ` is refused for its day. -/
theorem UpdateSettings_bad_day_rejected_witness :
    (∃ a, (user.UpdateSettings noFaults ⟨1, "USD", "XYZ", "p"⟩ sample.db).err = some (.app a) ∧
        a.ErrorType = ErrorTypeIncorrectInput ∧
        a.Slug = "field-first-day-of-week-invalid") ∧
      (user.UpdateSettings noFaults ⟨1, "USD", "XYZ", "p"⟩ sample.db).val = User.zero ∧
      (user.UpdateSettings noFaults ⟨1, "USD", "XYZ", "p"⟩ sample.db).db = sample.db :=
  UpdateSettings_bad_day_rejected noFaults ⟨1, "USD", "XYZ", "p"⟩ sample.db
    (by decide) (by decide)

/-! ## Sign-up -/

/-- With no stored row for the email and a succeeding query, `FindByEmail`
returns the NotFound error of the query helper. -/
theorem FindByEmail_absent (f : Faults) (email : String) (db : DB)
    (hf : f .selectUserByEmail = none)
    (hnew : db.users.filter (fun m => decide (m.Email = email)) = []) :
    (FindByEmail f email db).err = some (.app (NewNotFoundError "Not found" "not-found")) := by
  unfold FindByEmail adapters.get pgxscan.Get
  simp only [hf, hnew, pgxscan.NotFound]
  rfl

/-- An access token created without error carries the user of the claims. -/
theorem CreateAccess_ok (L : Lib) (h : JWTService) (now : Int) (c : AccessClaims)
    (hok : (CreateAccess L h now c).2 = none) :
    (CreateAccess L h now c).1.Claims.UserId = c.UserId := by
  unfold CreateAccess at *
  simp only at hok ⊢
  split
  · rename_i e he
    rw [he] at hok
    simp at hok
  · rfl

/-- The token pair a successful issuance hands back names the user. -/
theorem createTokens_identity (L : Lib) (h : AuthService) (env : Env) (f : Faults) (u : User)
    (db : DB) (hs : env.sched.completes)
    (hacc : (CreateAccess L h.jwtService env.accessNow
      (NewAccessClaims u.UUID u.Email u.Name)).2 = none)
    (href : (CreateRefresh L h.jwtService env.refreshNow env.newUUID
      (NewRefreshClaims u.UUID)).2 = none)
    (hcnt : f .countRefreshTokens = none)
    (hdel : (countRows u.UUID db.refresh_tokens : Int) > h.maxUserSessions →
      f .deleteRefreshTokensForUser = none)
    (hadd : f .insertRefreshToken = none) :
    (createTokens L h env f u db).val.Access.UserId = u.UUID ∧
      (createTokens L h env f u db).val.Refresh.UserId = u.UUID := by
  have ha := CreateAccess_ok L h.jwtService env.accessNow
    (NewAccessClaims u.UUID u.Email u.Name) hacc
  have hr := CreateRefresh_ok L h.jwtService env.refreshNow env.newUUID
    (NewRefreshClaims u.UUID) href
  rw [createTokens_eq L h env f u db hs hacc href hcnt hdel hadd]
  exact ⟨ha, hr.2⟩

/-- `SignUp` when the probe finds a user. -/
theorem SignUp_found (L : Lib) (B : Bcrypt) (h : AuthService) (env : NewUserEnv) (f : Faults)
    (r : SignUpRequest) (db : DB) (hp : (FindByEmail f r.Email db).err = none) :
    SignUp L B h env f r db =
      ⟨LoginResponse.zero,
        some (.app (NewIncorrectInputError "Email already in use" "field-email-invalid")),
        db.log .selectUserByEmail, none⟩ := by
  unfold SignUp
  simp only [hp, FindByEmail_db]

/-- `SignUp` when the probe fails with an error other than NotFound. -/
theorem SignUp_probe_error (L : Lib) (B : Bcrypt) (h : AuthService) (env : NewUserEnv)
    (f : Faults) (r : SignUpRequest) (db : DB) (e : GoError)
    (hp : (FindByEmail f r.Email db).err = some e) (hnf : IsNotFound e = false) :
    SignUp L B h env f r db = ⟨LoginResponse.zero, some e, db.log .selectUserByEmail, none⟩ := by
  unfold SignUp
  simp only [hp, hnf, FindByEmail_db]
  rfl

/-- C12: `SignUp` fails with an IncorrectInput error with slug
`field-email-invalid` when the email probe finds a user, and returns the
error of the probe unchanged when the probe fails with anything other than
NotFound; in both cases the response is empty, the only statement sent is the
probe, no user is inserted and no refresh row added.  So a sign-up that goes
further (sends another statement, changes a table or succeeds) had a NotFound
probe result. -/
theorem SignUp_probe_gate (L : Lib) (B : Bcrypt) (h : AuthService) (env : NewUserEnv)
    (f : Faults) (r : SignUpRequest) (db : DB) :
    ((FindByEmail f r.Email db).err = none →
        (∃ a, (SignUp L B h env f r db).err = some (.app a) ∧
          a.ErrorType = ErrorTypeIncorrectInput ∧ a.Slug = "field-email-invalid") ∧
        (SignUp L B h env f r db).val = LoginResponse.zero ∧
        (SignUp L B h env f r db).db.users = db.users ∧
        (SignUp L B h env f r db).db.refresh_tokens = db.refresh_tokens ∧
        (SignUp L B h env f r db).db.trace = db.trace ++ [Query.selectUserByEmail]) ∧
      (∀ e, (FindByEmail f r.Email db).err = some e → IsNotFound e = false →
        (SignUp L B h env f r db).err = some e ∧
        (SignUp L B h env f r db).val = LoginResponse.zero ∧
        (SignUp L B h env f r db).db.users = db.users ∧
        (SignUp L B h env f r db).db.refresh_tokens = db.refresh_tokens ∧
        (SignUp L B h env f r db).db.trace = db.trace ++ [Query.selectUserByEmail]) ∧
      (((SignUp L B h env f r db).err = none ∨
          (SignUp L B h env f r db).db.users ≠ db.users ∨
          (SignUp L B h env f r db).db.refresh_tokens ≠ db.refresh_tokens ∨
          (SignUp L B h env f r db).db.trace ≠ db.trace ++ [Query.selectUserByEmail]) →
        ∃ e, (FindByEmail f r.Email db).err = some e ∧ IsNotFound e = true) := by
  refine ⟨?_, ?_, ?_⟩
  · intro hp
    rw [SignUp_found L B h env f r db hp]
    exact ⟨⟨_, rfl, rfl, rfl⟩, rfl, rfl, rfl, rfl⟩
  · intro e hp hnf
    rw [SignUp_probe_error L B h env f r db e hp hnf]
    exact ⟨rfl, rfl, rfl, rfl, rfl⟩
  · intro hgo
    cases hp : (FindByEmail f r.Email db).err with
    | none =>
      exfalso
      rw [SignUp_found L B h env f r db hp] at hgo
      rcases hgo with hg | hg | hg | hg
      · simp at hg
      · exact hg rfl
      · exact hg rfl
      · exact hg rfl
    | some e =>
      refine ⟨e, rfl, ?_⟩
      cases hnf : IsNotFound e with
      | true => rfl
      | false =>
        exfalso
        rw [SignUp_probe_error L B h env f r db e hp hnf] at hgo
        rcases hgo with hg | hg | hg | hg
        · simp at hg
        · exact hg rfl
        · exact hg rfl
        · exact hg rfl

/-- In the sample database the email `a@b.com` is taken, so a sign-up with it
is refused after the probe; and when the probe query is made to fail, its
error comes back as it is. -/
theorem SignUp_probe_gate_witness :
    ((∃ a, (SignUp sample.lib sample.bcrypt sample.svc sample.newUserEnv noFaults
            ⟨"a@b.com", "pw", "A"⟩ sample.db).err = some (.app a) ∧
          a.ErrorType = ErrorTypeIncorrectInput ∧ a.Slug = "field-email-invalid") ∧
        (SignUp sample.lib sample.bcrypt sample.svc sample.newUserEnv noFaults
            ⟨"a@b.com", "pw", "A"⟩ sample.db).val = LoginResponse.zero ∧
        (SignUp sample.lib sample.bcrypt sample.svc sample.newUserEnv noFaults
            ⟨"a@b.com", "pw", "A"⟩ sample.db).db.users = sample.db.users ∧
        (SignUp sample.lib sample.bcrypt sample.svc sample.newUserEnv noFaults
            ⟨"a@b.com", "pw", "A"⟩ sample.db).db.refresh_tokens = sample.db.refresh_tokens ∧
        (SignUp sample.lib sample.bcrypt sample.svc sample.newUserEnv noFaults
            ⟨"a@b.com", "pw", "A"⟩ sample.db).db.trace
          = sample.db.trace ++ [Query.selectUserByEmail]) ∧
      (SignUp sample.lib sample.bcrypt sample.svc sample.newUserEnv
          (fun q => if q = Query.selectUserByEmail then some "down" else none)
          ⟨"a@b.com", "pw", "A"⟩ sample.db).err = some (.plain "down") :=
  ⟨(SignUp_probe_gate sample.lib sample.bcrypt sample.svc sample.newUserEnv noFaults
      ⟨"a@b.com", "pw", "A"⟩ sample.db).1 (by decide),
    ((SignUp_probe_gate sample.lib sample.bcrypt sample.svc sample.newUserEnv
      (fun q => if q = Query.selectUserByEmail then some "down" else none)
      ⟨"a@b.com", "pw", "A"⟩ sample.db).2.1 (.plain "down") (by decide) (by decide)).1⟩

/-- `SignUp` for an email no row carries, when hashing and every statement
up to the commit succeed: the user row is appended inside the transaction and
the issuance runs on the result. -/
theorem SignUp_new (L : Lib) (B : Bcrypt) (h : AuthService) (env : NewUserEnv)
    (r : SignUpRequest) (db : DB)
    (hnew : db.users.filter (fun m => decide (m.Email = r.Email)) = [])
    (hhash : (HashPassword B r.Password).2 = none) :
    SignUp L B h env noFaults r db =
      createTokens L h env.issue noFaults
        (NewUser env.userUUID r.Email r.Name (HashPassword B r.Password).1 DefaultUserSettings
          env.createdAt env.updatedAt)
        { users := db.users ++
            [{ UUID := env.userUUID, Email := r.Email, Name := r.Name,
               Hash := (HashPassword B r.Password).1,
               Settings := UserSettingsToMap DefaultUserSettings,
               CreatedAt := env.createdAt, UpdatedAt := env.updatedAt }],
          refresh_tokens := db.refresh_tokens,
          trace := db.trace ++ [Query.selectUserByEmail, Query.txBegin, Query.insertUser,
            Query.txCommit] } := by
  have hp := FindByEmail_absent noFaults r.Email db rfl hnew
  unfold SignUp
  simp only [hp, hhash, FindByEmail_db]
  simp [IsNotFound, NewNotFoundError, AppError.ErrorType, Transactional, UserAdd, noFaults,
    DB.log, NewUser]

/-- An issuance in which both tokens are created, no statement fails and the
run completes: no error, no panic, user table untouched, both tokens name the
user, and the ledger holds a row of the user with the refresh string handed
back. -/
theorem createTokens_session (L : Lib) (h : AuthService) (env : Env) (f : Faults) (u : User)
    (db : DB) (hs : env.sched.completes)
    (hacc : (CreateAccess L h.jwtService env.accessNow
      (NewAccessClaims u.UUID u.Email u.Name)).2 = none)
    (href : (CreateRefresh L h.jwtService env.refreshNow env.newUUID
      (NewRefreshClaims u.UUID)).2 = none)
    (hcnt : f .countRefreshTokens = none)
    (hdel : f .deleteRefreshTokensForUser = none)
    (hadd : f .insertRefreshToken = none) :
    (createTokens L h env f u db).err = none ∧
      (createTokens L h env f u db).panicked = none ∧
      (createTokens L h env f u db).db.users = db.users ∧
      (createTokens L h env f u db).val.Access.UserId = u.UUID ∧
      (createTokens L h env f u db).val.Refresh.UserId = u.UUID ∧
      (∃ row ∈ (createTokens L h env f u db).db.refresh_tokens,
        row.UserUUID = u.UUID ∧
        row.Token = (createTokens L h env f u db).val.Refresh.Value) := by
  have hr := createTokens_succeeds L h env f u db hs hacc href hcnt (fun _ => hdel) hadd
  have hp := createTokens_returns L h env f u db hs hacc href hcnt (fun _ => hdel) hadd
  have hi := createTokens_identity L h env f u db hs hacc href hcnt (fun _ => hdel) hadd
  have hl := createTokens_ledger L h env f u db hs hacc href hcnt (fun _ => hdel) hadd
  refine ⟨hr.1, hp, createTokens_users L h env f u db, hi.1, hi.2, ?_⟩
  refine ⟨{ UUID := env.newUUID, UserUUID := u.UUID,
            Token := (createTokens L h env f u db).val.Refresh.Value,
            CreatedAt := env.addCreatedAt, UpdatedAt := env.addUpdatedAt }, ?_, rfl, rfl⟩
  rw [hl]
  exact List.mem_append_right _ (List.mem_singleton.mpr rfl)

/-- A sign-up for a new email in which the hash, both tokens and every
statement succeed and the run of `createTokens` completes: one user row is
appended with the email, the name and the default settings, both tokens name
the new user, and the ledger holds a row of that user with the refresh string
handed back. -/
theorem SignUp_completed (L : Lib) (B : Bcrypt) (h : AuthService)
    (env : NewUserEnv) (r : SignUpRequest) (db : DB)
    (hs : env.issue.sched.completes)
    (hnew : db.users.filter (fun m => decide (m.Email = r.Email)) = [])
    (hhash : (HashPassword B r.Password).2 = none)
    (hacc : (CreateAccess L h.jwtService env.issue.accessNow
      (NewAccessClaims env.userUUID r.Email r.Name)).2 = none)
    (href : (CreateRefresh L h.jwtService env.issue.refreshNow env.issue.newUUID
      (NewRefreshClaims env.userUUID)).2 = none) :
    (SignUp L B h env noFaults r db).err = none ∧
      (SignUp L B h env noFaults r db).panicked = none ∧
      (SignUp L B h env noFaults r db).db.users =
        db.users ++
          [{ UUID := env.userUUID, Email := r.Email, Name := r.Name,
             Hash := (HashPassword B r.Password).1,
             Settings := UserSettingsToMap DefaultUserSettings,
             CreatedAt := env.createdAt, UpdatedAt := env.updatedAt }] ∧
      (SignUp L B h env noFaults r db).val.Access.UserId = env.userUUID ∧
      (SignUp L B h env noFaults r db).val.Refresh.UserId = env.userUUID ∧
      (∃ row ∈ (SignUp L B h env noFaults r db).db.refresh_tokens,
        row.UserUUID = env.userUUID ∧
        row.Token = (SignUp L B h env noFaults r db).val.Refresh.Value) := by
  rw [SignUp_new L B h env r db hnew hhash]
  exact createTokens_session L h env.issue noFaults
    (NewUser env.userUUID r.Email r.Name (HashPassword B r.Password).1 DefaultUserSettings
      env.createdAt env.updatedAt) _ hs hacc href rfl rfl rfl

/-- C11, the code at a failing input: a sign-up for the new email `new@b.com`
in which the hash, both signers and every statement succeed.  In the first run
the goroutine that creates the access token reaches `wg.Done()` before
`createTokens` reaches `wg.Add(2)`: the counter goes negative, the goroutine
panics and the process ends after the user row was committed; no token is
handed back and no ledger row written.  In the second run neither goroutine has
run when `Add` reads `refresh`: `Add` panics on the nil pointer, with the same
result.  With both goroutines run between `wg.Add(2)` and the first check the
same request is served. -/
theorem SignUp_panics_after_insert :
    sample.earlyDone.accessDoneAt = 0 ∧
      (SignUp sample.lib sample.bcrypt sample.svc
        { sample.newUserEnv with issue := { sample.env with sched := sample.earlyDone } }
        noFaults ⟨"new@b.com", "pw", "N"⟩ sample.db).panicked =
        some "sync: negative WaitGroup counter" ∧
      (SignUp sample.lib sample.bcrypt sample.svc
        { sample.newUserEnv with issue := { sample.env with sched := sample.earlyDone } }
        noFaults ⟨"new@b.com", "pw", "N"⟩ sample.db).val = LoginResponse.zero ∧
      (SignUp sample.lib sample.bcrypt sample.svc
        { sample.newUserEnv with issue := { sample.env with sched := sample.earlyDone } }
        noFaults ⟨"new@b.com", "pw", "N"⟩ sample.db).db.users.map (fun m => m.Email) =
        ["a@b.com", "new@b.com"] ∧
      (SignUp sample.lib sample.bcrypt sample.svc
        { sample.newUserEnv with issue := { sample.env with sched := sample.earlyDone } }
        noFaults ⟨"new@b.com", "pw", "N"⟩ sample.db).db.refresh_tokens =
        [sample.row 7 1 "old"] ∧
      (SignUp sample.lib sample.bcrypt sample.svc
        { sample.newUserEnv with issue := { sample.env with sched := sample.notStarted } }
        noFaults ⟨"new@b.com", "pw", "N"⟩ sample.db).panicked =
        some "runtime error: invalid memory address or nil pointer dereference" ∧
      (SignUp sample.lib sample.bcrypt sample.svc
        { sample.newUserEnv with issue := { sample.env with sched := sample.notStarted } }
        noFaults ⟨"new@b.com", "pw", "N"⟩ sample.db).db.refresh_tokens =
        [sample.row 7 1 "old"] ∧
      (SignUp sample.lib sample.bcrypt sample.svc sample.newUserEnv noFaults
        ⟨"new@b.com", "pw", "N"⟩ sample.db).val =
        { Access := { Value := "acc", UserId := 2 },
          Refresh := { Value := "new", UserId := 2 } } := by
  refine ⟨rfl, ?_, ?_, ?_, ?_, ?_, ?_, ?_⟩ <;> decide

/-! ## Federated sign-in -/

/-- A settings update whose statement succeeds rewrites the settings of the
rows with the identity and of no other row. -/
theorem UpdateSettings_users (f : Faults) (id : UUID) (st : UserSettings) (db : DB)
    (hf : f .updateUserSettings = none) :
    (adapters.UpdateSettings f id st db).db.users =
      db.users.map (fun m =>
        if m.UUID = id then { m with Settings := UserSettingsToMap st } else m) ∧
      (adapters.UpdateSettings f id st db).db.refresh_tokens = db.refresh_tokens := by
  unfold adapters.UpdateSettings
  simp only [hf]
  rw [FindById_db]
  exact ⟨rfl, rfl⟩

/-- `GoogleSignIn` for an assertion the verifier accepts and whose email a
stored user carries. -/
theorem GoogleSignIn_known (V : idtoken.Validator) (L : Lib) (B : Bcrypt) (h : AuthService)
    (env : NewUserEnv) (f : Faults) (tok : String) (db : DB) (p : idtoken.Payload)
    (hv : V tok h.googleKey = .ok p)
    (hfound : (FindByEmail f (idtoken.sprintfS (p.Claims "email")) db).err = none) :
    GoogleSignIn V L B h env f tok db =
      createTokens L h env.issue f
        (FindByEmail f (idtoken.sprintfS (p.Claims "email")) db).val
        (adapters.UpdateSettings f
          (FindByEmail f (idtoken.sprintfS (p.Claims "email")) db).val.UUID
          { (FindByEmail f (idtoken.sprintfS (p.Claims "email")) db).val.Settings with
            ProfilePictureUrl := idtoken.sprintfS (p.Claims "picture") }
          (db.log .selectUserByEmail)).db := by
  unfold GoogleSignIn
  simp only [hv, hfound, FindByEmail_db]

/-- A settings update inserts and deletes no user row, whether its statement
succeeds or fails. -/
theorem UpdateSettings_users_length (f : Faults) (id : UUID) (st : UserSettings) (db : DB) :
    (adapters.UpdateSettings f id st db).db.users.length = db.users.length := by
  unfold adapters.UpdateSettings
  simp only
  split
  · rfl
  · rw [FindById_db]
    simp [DB.log]

/-- C15, as stated, fails.  The assertion `"g-old"` names the stored user
`a@b.com`.  When the update statement fails, `GoogleSignIn` drops its result:
it returns a token pair and no error, and the stored settings still hold the
old picture `"p"`.  When the refresh signer fails and its error is the one the
first check reads, `GoogleSignIn` returns `could-not-authorize-user` and no
token pair. -/
theorem GoogleSignIn_known_user_refuted :
    (GoogleSignIn sample.validate sample.lib sample.bcrypt sample.svc sample.newUserEnv
        sample.updateDown "g-old" sample.db).err = none ∧
      (GoogleSignIn sample.validate sample.lib sample.bcrypt sample.svc sample.newUserEnv
        sample.updateDown "g-old" sample.db).val =
        { Access := { Value := "acc", UserId := 1 },
          Refresh := { Value := "new", UserId := 1 } } ∧
      (GoogleSignIn sample.validate sample.lib sample.bcrypt sample.svc sample.newUserEnv
        sample.updateDown "g-old" sample.db).db.users = [sample.userRow 1 "a@b.com"] ∧
      mapGet (sample.userRow 1 "a@b.com").Settings "profile_picture_url" = "p" ∧
      (GoogleSignIn sample.validate sample.refreshFailLib sample.bcrypt sample.svc
        sample.newUserEnv noFaults "g-old" sample.db).err =
        some (.app (NewAuthorizationError "signing failed" "could-not-authorize-user")) ∧
      (GoogleSignIn sample.validate sample.refreshFailLib sample.bcrypt sample.svc
        sample.newUserEnv noFaults "g-old" sample.db).val = LoginResponse.zero := by
  refine ⟨?_, ?_, ?_, ?_, ?_, ?_⟩ <;> decide

/-- C15, amended: for an assertion the verifier accepts and whose email a
stored user carries, when both tokens are created, the count, the wipe and the
insert succeed and the run of `createTokens` completes, `GoogleSignIn` returns
without error, inserts no user, and hands back a token pair whose user identity
is the identity of the stored user, whatever became of the update, whose result
it drops; when the update statement succeeds as well, the settings of that user
are rewritten to the settings read with only `ProfilePictureUrl` replaced by
the picture claim (same currency, same first day of the week) and every other
row is as it was. -/
theorem GoogleSignIn_known_user (V : idtoken.Validator) (L : Lib) (B : Bcrypt)
    (h : AuthService) (env : NewUserEnv) (f : Faults) (tok : String) (db : DB)
    (p : idtoken.Payload)
    (hv : V tok h.googleKey = .ok p)
    (hfound : (FindByEmail f (idtoken.sprintfS (p.Claims "email")) db).err = none)
    (hs : env.issue.sched.completes)
    (hacc : (CreateAccess L h.jwtService env.issue.accessNow
      (NewAccessClaims (FindByEmail f (idtoken.sprintfS (p.Claims "email")) db).val.UUID
        (FindByEmail f (idtoken.sprintfS (p.Claims "email")) db).val.Email
        (FindByEmail f (idtoken.sprintfS (p.Claims "email")) db).val.Name)).2 = none)
    (href : (CreateRefresh L h.jwtService env.issue.refreshNow env.issue.newUUID
      (NewRefreshClaims
        (FindByEmail f (idtoken.sprintfS (p.Claims "email")) db).val.UUID)).2 = none)
    (hcnt : f .countRefreshTokens = none)
    (hdel : f .deleteRefreshTokensForUser = none)
    (hadd : f .insertRefreshToken = none) :
    (GoogleSignIn V L B h env f tok db).err = none ∧
      (GoogleSignIn V L B h env f tok db).panicked = none ∧
      (GoogleSignIn V L B h env f tok db).db.users.length = db.users.length ∧
      (GoogleSignIn V L B h env f tok db).val.Access.UserId =
        (FindByEmail f (idtoken.sprintfS (p.Claims "email")) db).val.UUID ∧
      (GoogleSignIn V L B h env f tok db).val.Refresh.UserId =
        (FindByEmail f (idtoken.sprintfS (p.Claims "email")) db).val.UUID ∧
      (f .updateUserSettings = none →
        (GoogleSignIn V L B h env f tok db).db.users =
          db.users.map (fun m =>
            if m.UUID = (FindByEmail f (idtoken.sprintfS (p.Claims "email")) db).val.UUID
            then { m with Settings :=
              [("currency",
                 (FindByEmail f (idtoken.sprintfS (p.Claims "email")) db).val.Settings.Currency.String),
               ("first_day_of_week",
                 (FindByEmail f (idtoken.sprintfS (p.Claims "email")) db).val.Settings.FirstDayOfWeek.String),
               ("profile_picture_url", idtoken.sprintfS (p.Claims "picture"))] }
            else m)) := by
  rw [GoogleSignIn_known V L B h env f tok db p hv hfound]
  have hc := createTokens_session L h env.issue f
    (FindByEmail f (idtoken.sprintfS (p.Claims "email")) db).val
    (adapters.UpdateSettings f
      (FindByEmail f (idtoken.sprintfS (p.Claims "email")) db).val.UUID
      { (FindByEmail f (idtoken.sprintfS (p.Claims "email")) db).val.Settings with
        ProfilePictureUrl := idtoken.sprintfS (p.Claims "picture") }
      (db.log .selectUserByEmail)).db hs hacc href hcnt hdel hadd
  refine ⟨hc.1, hc.2.1, ?_, hc.2.2.2.1, hc.2.2.2.2.1, ?_⟩
  · rw [hc.2.2.1, UpdateSettings_users_length]
    rfl
  · intro hup
    rw [hc.2.2.1, (UpdateSettings_users f _ _ _ hup).1]
    rfl

/-- The assertion `"g-old"` names the stored user `a@b.com` (identity 1):
the picture is replaced, currency `USD` and day `SUN` stay. -/
theorem GoogleSignIn_known_user_witness :
    (GoogleSignIn sample.validate sample.lib sample.bcrypt sample.svc sample.newUserEnv
        noFaults "g-old" sample.db).err = none ∧
      (GoogleSignIn sample.validate sample.lib sample.bcrypt sample.svc sample.newUserEnv
        noFaults "g-old" sample.db).panicked = none ∧
      (GoogleSignIn sample.validate sample.lib sample.bcrypt sample.svc sample.newUserEnv
        noFaults "g-old" sample.db).db.users =
        [{ sample.userRow 1 "a@b.com" with
           Settings := [("currency", "USD"), ("first_day_of_week", "SUN"),
             ("profile_picture_url", "pic-old")] }] ∧
      (GoogleSignIn sample.validate sample.lib sample.bcrypt sample.svc sample.newUserEnv
        noFaults "g-old" sample.db).val.Access.UserId = 1 ∧
      (GoogleSignIn sample.validate sample.lib sample.bcrypt sample.svc sample.newUserEnv
        noFaults "g-old" sample.db).val.Refresh.UserId = 1 :=
  have t := GoogleSignIn_known_user sample.validate sample.lib sample.bcrypt sample.svc
    sample.newUserEnv noFaults "g-old" sample.db
    { Claims := fun k =>
        if k = "email" then .str "a@b.com"
        else if k = "picture" then .str "pic-old"
        else if k = "name" then .str "A" else .nil }
    rfl (by decide) (by decide) rfl rfl rfl rfl rfl
  ⟨t.1, t.2.1, t.2.2.2.2.2 rfl, t.2.2.2.1, t.2.2.2.2.1⟩

/-- C16, the code at a failing input: the assertion `"g-new"` carries the
email `new@b.com`, which no stored user has, and the picture `pic-new`.
`GoogleSignIn` succeeds and inserts user 2 with the default currency and day
and an empty `profile_picture_url`: the settings built with the picture are not
the ones handed to `NewUser`.  The tokens name user 2. -/
theorem GoogleSignIn_new_user_picture_dropped :
    (GoogleSignIn sample.validate sample.lib sample.bcrypt sample.svc sample.newUserEnv
        noFaults "g-new" sample.db).err = none ∧
      (GoogleSignIn sample.validate sample.lib sample.bcrypt sample.svc sample.newUserEnv
        noFaults "g-new" sample.db).db.users =
        sample.db.users ++
          [{ UUID := 2, Email := "new@b.com", Name := "N", Hash := "h",
             Settings := [("currency", "RUB"), ("first_day_of_week", "MON"),
               ("profile_picture_url", "")],
             CreatedAt := 3, UpdatedAt := 4 }] ∧
      (GoogleSignIn sample.validate sample.lib sample.bcrypt sample.svc sample.newUserEnv
        noFaults "g-new" sample.db).val.Access.UserId = 2 ∧
      (GoogleSignIn sample.validate sample.lib sample.bcrypt sample.svc sample.newUserEnv
        noFaults "g-new" sample.db).val.Refresh.UserId = 2 ∧
      (match sample.validate "g-new" sample.svc.googleKey with
        | .ok p => idtoken.sprintfS (p.Claims "picture")
        | .error e => e) = "pic-new" := by
  refine ⟨?_, ?_, ?_, ?_, ?_⟩ <;> decide

/-! ## Token codec: round trip -/

/-- The key function accepts an HMAC token and returns the secret. -/
theorem validateParsed_hmac {C : Type} (h : JWTService) (alg : String) (c : C) (v : Bool) :
    validateParsed h { Method := .HMAC, Alg := alg, Claims := c, Valid := v } = .ok h.secret := by
  simp [validateParsed]

/-- Whatever key the key function returns is the secret. -/
theorem validateParsed_key {C : Type} (h : JWTService) (t : Token C) (key : String)
    (hk : validateParsed h t = .ok key) : key = h.secret := by
  unfold validateParsed at hk
  split at hk
  · cases hk
  · cases hk
    rfl

/-- What a successful `CreateAccess` returns. -/
theorem CreateAccess_signed (L : Lib) (h : JWTService) (now : Int) (c : AccessClaims)
    (hok : (CreateAccess L h now c).2 = none) :
    L.SignedStringAccess { c with ExpiresAt := some (expiresAt now h.accessTTL) } h.secret =
        .ok (CreateAccess L h now c).1.Token ∧
      (CreateAccess L h now c).1.Claims =
        { c with ExpiresAt := some (expiresAt now h.accessTTL) } := by
  unfold CreateAccess at *
  simp only at hok ⊢
  split
  · rename_i e he
    rw [he] at hok
    simp at hok
  · rename_i sign hs
    exact ⟨hs, rfl⟩

/-- What a successful `CreateRefresh` returns. -/
theorem CreateRefresh_signed (L : Lib) (h : JWTService) (now : Int) (fresh : UUID)
    (c : RefreshClaims) (hok : (CreateRefresh L h now fresh c).2 = none) :
    L.SignedStringRefresh
        { UUID := fresh, UserId := c.UserId, ExpiresAt := some (expiresAt now h.refreshTTL) }
        h.secret = .ok (CreateRefresh L h now fresh c).1.Token ∧
      (CreateRefresh L h now fresh c).1.Claims =
        { UUID := fresh, UserId := c.UserId,
          ExpiresAt := some (expiresAt now h.refreshTTL) } := by
  unfold CreateRefresh at *
  simp only at hok ⊢
  split
  · rename_i e he
    rw [he] at hok
    simp at hok
  · rename_i sign hs
    exact ⟨hs, rfl⟩

/-- A string without a valid MAC under the secret is refused by both
validators, each in its own way. -/
theorem Validate_no_mac (L : Lib) (mac : String → String → Prop) (t : Int)
    (hL : Contract L mac t) (h : JWTService) (s : String) (hs : ¬ mac h.secret s) :
    (ValidateAccess L h s).2 ≠ none ∧ ValidateRefresh L h s = (RefreshJWT.zero, none) := by
  constructor
  · unfold ValidateAccess
    cases hp : L.ParseAccess s (validateParsed h) with
    | error e => simp
    | ok tk =>
      exfalso
      obtain ⟨key, hk, hm⟩ := hL.parseAccess_sound s _ tk hp
      rw [validateParsed_key h _ key hk] at hm
      exact hs hm
  · unfold ValidateRefresh
    cases hp : L.ParseRefresh s (validateParsed h) with
    | error e => rfl
    | ok tk =>
      exfalso
      obtain ⟨key, hk, hm⟩ := hL.parseRefresh_sound s _ tk hp
      rw [validateParsed_key h _ key hk] at hm
      exact hs hm

/-- A TTL whose nanosecond count fits in 64 bits stamps an expiry later than
`now` when it is positive. -/
theorem expiresAt_after_now (now ttl : Int) (hpos : 0 < ttl)
    (hfit : ttl * 1000000000 < 2 ^ 63) : now < expiresAt now ttl * 1000000000 := by
  have hw : ∀ x : Int, -(2 ^ 63) ≤ x → x < 2 ^ 63 → wrapInt64 x = x := by
    intro x hlo hhi
    unfold wrapInt64
    rw [Int.emod_eq_of_lt (by omega) (by omega)]
    omega
  have h1 : wrapInt64 ttl = ttl := hw ttl (by omega) (by omega)
  have h2 : wrapInt64 (ttl * 1000000000) = ttl * 1000000000 := hw _ (by omega) hfit
  unfold expiresAt
  rw [h1, h2, Int.fdiv_eq_ediv _ (by norm_num)]
  omega

/-- C17: with a token library that keeps its contract at clock reading `t`,
for every user identity and every TTL, the string `CreateAccess` produces is
accepted by `ValidateAccess` while `t` is before the expiry stamped on it and
yields the same user identity, and the string `CreateRefresh` produces is
accepted by `ValidateRefresh` and yields the same token identity and user
identity; once the expiry has passed `ValidateAccess` returns an error and
`ValidateRefresh` the zero-value result with no error, and the same holds for
every string that carries no valid MAC under the secret (an altered
signature).  A positive TTL whose nanosecond count fits in 64 bits stamps an
expiry after the time of creation. -/
theorem codec_round_trip (L : Lib) (mac : String → String → Prop) (t : Int)
    (hL : Contract L mac t) (h : JWTService) (now : Int) (userId fresh : UUID)
    (email name : String)
    (hacc : (CreateAccess L h now (NewAccessClaims userId email name)).2 = none)
    (href : (CreateRefresh L h now fresh (NewRefreshClaims userId)).2 = none) :
    (t < expiresAt now h.accessTTL * 1000000000 →
        (ValidateAccess L h (CreateAccess L h now (NewAccessClaims userId email name)).1.Token).2
          = none ∧
        (ValidateAccess L h
          (CreateAccess L h now (NewAccessClaims userId email name)).1.Token).1.Claims.UserId
          = userId) ∧
      (t < expiresAt now h.refreshTTL * 1000000000 →
        (ValidateRefresh L h (CreateRefresh L h now fresh (NewRefreshClaims userId)).1.Token).2
          = none ∧
        (ValidateRefresh L h
          (CreateRefresh L h now fresh (NewRefreshClaims userId)).1.Token).1.Claims.UUID
          = fresh ∧
        (ValidateRefresh L h
          (CreateRefresh L h now fresh (NewRefreshClaims userId)).1.Token).1.Claims.UserId
          = userId) ∧
      (expiresAt now h.accessTTL * 1000000000 ≤ t →
        (ValidateAccess L h (CreateAccess L h now (NewAccessClaims userId email name)).1.Token).2
          ≠ none) ∧
      (expiresAt now h.refreshTTL * 1000000000 ≤ t →
        ValidateRefresh L h (CreateRefresh L h now fresh (NewRefreshClaims userId)).1.Token
          = (RefreshJWT.zero, none)) ∧
      (∀ s, ¬ mac h.secret s →
        (ValidateAccess L h s).2 ≠ none ∧ ValidateRefresh L h s = (RefreshJWT.zero, none)) ∧
      (∀ ttl : Int, 0 < ttl → ttl * 1000000000 < 2 ^ 63 →
        now < expiresAt now ttl * 1000000000) := by
  obtain ⟨hsa, hca⟩ := CreateAccess_signed L h now _ hacc
  obtain ⟨hsr, hcr⟩ := CreateRefresh_signed L h now fresh _ href
  refine ⟨?_, ?_, ?_, ?_, fun s hs => Validate_no_mac L mac t hL h s hs,
    fun ttl hpos hfit => expiresAt_after_now now ttl hpos hfit⟩
  · intro hbefore
    have hp := hL.parseAccess_accept _ h.secret _ (validateParsed h) hsa
      (validateParsed_hmac h _ _ _)
      (by
        intro e he
        simp only [Option.some.injEq] at he
        rw [← he]
        exact hbefore)
    unfold ValidateAccess
    rw [hp]
    exact ⟨rfl, rfl⟩
  · intro hbefore
    have hp := hL.parseRefresh_accept _ h.secret _ (validateParsed h) hsr
      (validateParsed_hmac h _ _ _)
      (by
        intro e he
        simp only [Option.some.injEq] at he
        rw [← he]
        exact hbefore)
    unfold ValidateRefresh
    rw [hp]
    exact ⟨rfl, rfl, rfl⟩
  · intro hafter
    obtain ⟨msg, hp⟩ := hL.parseAccess_expired _ h.secret _ (validateParsed h) _ hsa rfl hafter
    unfold ValidateAccess
    rw [hp]
    simp
  · intro hafter
    obtain ⟨msg, hp⟩ := hL.parseRefresh_expired _ h.secret _ (validateParsed h) _ hsr rfl hafter
    unfold ValidateRefresh
    rw [hp]

/-- The sample library keeps the contract at every clock reading. -/
theorem codec_contract (t : Int) : Contract (sample.codec t) sample.codecMac t where
  signAccess_mac := by
    intro c key s hs
    simp only [sample.codec] at hs
    split at hs
    · rename_i hck
      cases hs
      exact ⟨hck.2, Or.inl rfl⟩
    · cases hs
  signRefresh_mac := by
    intro c key s hs
    simp only [sample.codec] at hs
    split at hs
    · rename_i hck
      cases hs
      exact ⟨hck.2, Or.inr rfl⟩
    · cases hs
  parseAccess_accept := by
    intro c key s keyFunc hs hk hexp
    simp only [sample.codec] at hs
    split at hs
    · rename_i hck
      cases hs
      obtain ⟨hc, hkey⟩ := hck
      subst hc
      subst hkey
      have hlt : t < 60 * 1000000000 := hexp 60 rfl
      simp only [sample.codec, hk, hlt]
      rfl
    · cases hs
  parseRefresh_accept := by
    intro c key s keyFunc hs hk hexp
    simp only [sample.codec] at hs
    split at hs
    · rename_i hck
      cases hs
      obtain ⟨hc, hkey⟩ := hck
      subst hc
      subst hkey
      have hlt : t < 600 * 1000000000 := hexp 600 rfl
      simp only [sample.codec, hk, hlt]
      rfl
    · cases hs
  parseAccess_expired := by
    intro c key s keyFunc e hs he hle
    simp only [sample.codec] at hs
    split at hs
    · rename_i hck
      cases hs
      obtain ⟨hc, -⟩ := hck
      subst hc
      have he60 : e = 60 := by
        simp only [sample.accessClaims60, Option.some.injEq] at he
        exact he.symm
      subst he60
      have hnlt : ¬ t < 60 * 1000000000 := not_lt.mpr hle
      cases hkf : keyFunc ⟨.HMAC, "HS256", sample.accessClaims60, false⟩ with
      | error m => exact ⟨m, by simp [sample.codec, hkf]⟩
      | ok k =>
        by_cases hkk : k = "k"
        · refine ⟨"token is expired", ?_⟩
          simp [sample.codec, hkf, hkk]
          omega
        · exact ⟨"signature is invalid", by simp [sample.codec, hkf, hkk]⟩
    · cases hs
  parseRefresh_expired := by
    intro c key s keyFunc e hs he hle
    simp only [sample.codec] at hs
    split at hs
    · rename_i hck
      cases hs
      obtain ⟨hc, -⟩ := hck
      subst hc
      have he600 : e = 600 := by
        simp only [sample.refreshClaims600, Option.some.injEq] at he
        exact he.symm
      subst he600
      have hnlt : ¬ t < 600 * 1000000000 := not_lt.mpr hle
      cases hkf : keyFunc ⟨.HMAC, "HS256", sample.refreshClaims600, false⟩ with
      | error m => exact ⟨m, by simp [sample.codec, hkf]⟩
      | ok k =>
        by_cases hkk : k = "k"
        · refine ⟨"token is expired", ?_⟩
          simp [sample.codec, hkf, hkk]
          omega
        · exact ⟨"signature is invalid", by simp [sample.codec, hkf, hkk]⟩
    · cases hs
  parseAccess_sound := by
    intro s keyFunc tk hp
    simp only [sample.codec] at hp
    split at hp
    · rename_i hsA
      cases hkf : keyFunc ⟨.HMAC, "HS256", sample.accessClaims60, false⟩ with
      | error m => simp [hkf] at hp
      | ok k =>
        simp only [hkf] at hp
        split at hp
        · rename_i hkk
          split at hp
          · cases hp
            exact ⟨k, hkf, hkk, Or.inl hsA⟩
          · cases hp
        · cases hp
    · cases hp
  parseRefresh_sound := by
    intro s keyFunc tk hp
    simp only [sample.codec] at hp
    split at hp
    · rename_i hsR
      cases hkf : keyFunc ⟨.HMAC, "HS256", sample.refreshClaims600, false⟩ with
      | error m => simp [hkf] at hp
      | ok k =>
        simp only [hkf] at hp
        split at hp
        · rename_i hkk
          split at hp
          · cases hp
            exact ⟨k, hkf, hkk, Or.inr hsR⟩
          · cases hp
        · cases hp
    · cases hp

/-- With the sample library, secret `"k"`, TTLs of 60 and 600 seconds and
tokens created at time 0 for user 1: half a minute later both tokens are
accepted and name user 1 (the refresh token with its identity 8); after 700
seconds the access token gives an error and the refresh token the zero-value
result; the string `"forged"` is refused in the same two ways. -/
theorem codec_round_trip_witness :
    ((ValidateAccess (sample.codec 30000000000) sample.svc.jwtService
          (CreateAccess (sample.codec 30000000000) sample.svc.jwtService 0
            (NewAccessClaims 1 "a@b.com" "n")).1.Token).2 = none ∧
        (ValidateAccess (sample.codec 30000000000) sample.svc.jwtService
          (CreateAccess (sample.codec 30000000000) sample.svc.jwtService 0
            (NewAccessClaims 1 "a@b.com" "n")).1.Token).1.Claims.UserId = 1) ∧
      ((ValidateRefresh (sample.codec 30000000000) sample.svc.jwtService
          (CreateRefresh (sample.codec 30000000000) sample.svc.jwtService 0 8
            (NewRefreshClaims 1)).1.Token).2 = none ∧
        (ValidateRefresh (sample.codec 30000000000) sample.svc.jwtService
          (CreateRefresh (sample.codec 30000000000) sample.svc.jwtService 0 8
            (NewRefreshClaims 1)).1.Token).1.Claims.UUID = 8 ∧
        (ValidateRefresh (sample.codec 30000000000) sample.svc.jwtService
          (CreateRefresh (sample.codec 30000000000) sample.svc.jwtService 0 8
            (NewRefreshClaims 1)).1.Token).1.Claims.UserId = 1) ∧
      (ValidateAccess (sample.codec 700000000000) sample.svc.jwtService
          (CreateAccess (sample.codec 700000000000) sample.svc.jwtService 0
            (NewAccessClaims 1 "a@b.com" "n")).1.Token).2 ≠ none ∧
      ValidateRefresh (sample.codec 700000000000) sample.svc.jwtService
          (CreateRefresh (sample.codec 700000000000) sample.svc.jwtService 0 8
            (NewRefreshClaims 1)).1.Token = (RefreshJWT.zero, none) ∧
      ((ValidateAccess (sample.codec 30000000000) sample.svc.jwtService "forged").2 ≠ none ∧
        ValidateRefresh (sample.codec 30000000000) sample.svc.jwtService "forged"
          = (RefreshJWT.zero, none)) :=
  have early := codec_round_trip (sample.codec 30000000000) sample.codecMac 30000000000
    (codec_contract 30000000000) sample.svc.jwtService 0 1 8 "a@b.com" "n" rfl rfl
  have late := codec_round_trip (sample.codec 700000000000) sample.codecMac 700000000000
    (codec_contract 700000000000) sample.svc.jwtService 0 1 8 "a@b.com" "n" rfl rfl
  ⟨early.1 (by decide), early.2.1 (by decide), late.2.2.1 (by decide),
    late.2.2.2.1 (by decide),
    early.2.2.2.2.1 "forged" (by simp [sample.codecMac, sample.svc])⟩

/-! ## Settings round trip through the store -/

/-- The three entries of the map `UserSettingsToMap` builds read back by key. -/
theorem mapGet_UserSettingsToMap (st : UserSettings) :
    mapGet (UserSettingsToMap st) "currency" = st.Currency.String ∧
      mapGet (UserSettingsToMap st) "first_day_of_week" = st.FirstDayOfWeek.String ∧
      mapGet (UserSettingsToMap st) "profile_picture_url" = st.ProfilePictureUrl := by
  refine ⟨?_, ?_, ?_⟩ <;> simp [mapGet, UserSettingsToMap, List.find?]

/-- C24: settings survive the store round trip.  For every `UserSettings` whose
currency is one of the six defined currencies and whose day is one of the seven
defined days, a row whose settings column is `UserSettingsToMap` of it converts
without error to a user with exactly these settings (same currency, first day
of the week and picture URL); settings whose currency is `UNKNOWN` do not read
back, the conversion fails; and a day of `UNKNOWN` reads back as `MON`. -/
theorem settings_round_trip (m : UserModel) (st : UserSettings) :
    (st.Currency ∈ [currency.RUB, currency.GEL, currency.AMD, currency.USD, currency.EUR,
          currency.RSD] →
        st.FirstDayOfWeek ∈ [day.MON, day.TUE, day.WED, day.THU, day.FRI, day.SAT, day.SUN] →
        (serviceUserFromModel { m with Settings := UserSettingsToMap st }).2 = none ∧
        (serviceUserFromModel { m with Settings := UserSettingsToMap st }).1.Settings = st) ∧
      (st.Currency = currency.UNKNOWN →
        (serviceUserFromModel { m with Settings := UserSettingsToMap st }).2 ≠ none) ∧
      (st.Currency ∈ [currency.RUB, currency.GEL, currency.AMD, currency.USD, currency.EUR,
          currency.RSD] →
        st.FirstDayOfWeek = day.UNKNOWN →
        (serviceUserFromModel { m with Settings := UserSettingsToMap st }).2 = none ∧
        (serviceUserFromModel { m with Settings := UserSettingsToMap st }).1.Settings =
          { st with FirstDayOfWeek := day.MON }) := by
  obtain ⟨hc, hd, hp⟩ := mapGet_UserSettingsToMap st
  have hcodes : ∀ c : currency.Currency,
      c ∈ [currency.RUB, currency.GEL, currency.AMD, currency.USD, currency.EUR,
        currency.RSD] → c.String ∈ currency.codes := by
    intro c hmem
    simp only [List.mem_cons, List.mem_singleton, List.not_mem_nil, or_false] at hmem
    rcases hmem with h | h | h | h | h | h <;> subst h <;> decide
  have hdays : ∀ d : day.Day,
      d ∈ [day.MON, day.TUE, day.WED, day.THU, day.FRI, day.SAT, day.SUN] →
        d.String ∈ day.codes := by
    intro d hmem
    simp only [List.mem_cons, List.mem_singleton, List.not_mem_nil, or_false] at hmem
    rcases hmem with h | h | h | h | h | h | h <;> subst h <;> decide
  refine ⟨?_, ?_, ?_⟩
  · intro hcur hday
    rw [serviceUserFromModel_eq]
    simp only [hc, hd, hp, if_pos (hcodes _ hcur), if_pos (hdays _ hday)]
    refine ⟨trivial, ?_⟩
    rfl
  · intro hunk
    rw [serviceUserFromModel_eq]
    have hno : st.Currency.String ∉ currency.codes := by
      rw [hunk]
      decide
    simp only [hc, if_neg hno]
    simp
  · intro hcur hunk
    rw [serviceUserFromModel_eq]
    have hno : st.FirstDayOfWeek.String ∉ day.codes := by
      rw [hunk]
      decide
    simp only [hc, hd, hp, if_pos (hcodes _ hcur), if_neg hno]
    refine ⟨trivial, ?_⟩
    rfl

/-- The settings `USD`, `SUN`, picture `p` read back as they are; with the
currency `UNKNOWN` the row does not convert; with the day `UNKNOWN` the day
read back is `MON`. -/
theorem settings_round_trip_witness :
    ((serviceUserFromModel { sample.userRow 1 "a@b.com" with
          Settings := UserSettingsToMap ⟨currency.USD, "p", day.SUN⟩ }).2 = none ∧
        (serviceUserFromModel { sample.userRow 1 "a@b.com" with
          Settings := UserSettingsToMap ⟨currency.USD, "p", day.SUN⟩ }).1.Settings
          = ⟨currency.USD, "p", day.SUN⟩) ∧
      (serviceUserFromModel { sample.userRow 1 "a@b.com" with
          Settings := UserSettingsToMap ⟨currency.UNKNOWN, "p", day.SUN⟩ }).2 ≠ none ∧
      ((serviceUserFromModel { sample.userRow 1 "a@b.com" with
          Settings := UserSettingsToMap ⟨currency.USD, "p", day.UNKNOWN⟩ }).2 = none ∧
        (serviceUserFromModel { sample.userRow 1 "a@b.com" with
          Settings := UserSettingsToMap ⟨currency.USD, "p", day.UNKNOWN⟩ }).1.Settings
          = ⟨currency.USD, "p", day.MON⟩) :=
  ⟨(settings_round_trip (sample.userRow 1 "a@b.com") ⟨currency.USD, "p", day.SUN⟩).1
      (by decide) (by decide),
    (settings_round_trip (sample.userRow 1 "a@b.com") ⟨currency.UNKNOWN, "p", day.SUN⟩).2.1 rfl,
    (settings_round_trip (sample.userRow 1 "a@b.com") ⟨currency.USD, "p", day.UNKNOWN⟩).2.2
      (by decide) rfl⟩

/-! ## The sign-in handler -/

/-- C21: for every body that is read and decodes as a `LoginRequest`, the
`signIn` handler passes to the auth service one request, carrying exactly the
email and the password of the body, whatever they are (no validation rule is
applied: the email need not be an email, the password may be empty); and for
every token pair the service returns with no error, it answers with status 200
and the JSON object with `access` the value of the access token and `refresh`
the value of the refresh token. -/
theorem signIn_forwards_and_renders (Unmarshal : String → Except String ports.LoginRequest)
    (service : SignInRequest → LoginResponse × Option GoError) (bytes : String)
    (request : ports.LoginRequest) (hjson : Unmarshal bytes = .ok request) :
    (ports.signIn Unmarshal service (.ok bytes)).forwarded =
        [{ Email := request.Email, Password := request.Password }] ∧
      (∀ tokens : LoginResponse,
        service { Email := request.Email, Password := request.Password } = (tokens, none) →
        (ports.signIn Unmarshal service (.ok bytes)).response.status = 200 ∧
        (ports.signIn Unmarshal service (.ok bytes)).response.payload.json =
          [("access", tokens.Access.Value), ("refresh", tokens.Refresh.Value)]) := by
  unfold ports.signIn
  simp only [hjson]
  constructor
  · split <;> rfl
  · intro tokens hsvc
    simp only [hsvc]
    exact ⟨rfl, rfl⟩

/-- The body of the handler test, whose email is the string `email`, is passed
on as it is and the tokens of the service come back with status 200; a body
with an empty password is passed on too. -/
theorem signIn_forwards_and_renders_witness :
    (ports.signIn sample.unmarshal sample.mockSignIn
        (.ok "\x7b\"email\":\"email\",\"password\":\"password\"\x7d")).forwarded =
        [{ Email := "email", Password := "password" }] ∧
      (ports.signIn sample.unmarshal sample.mockSignIn
        (.ok "\x7b\"email\":\"email\",\"password\":\"password\"\x7d")).response.status
        = 200 ∧
      (ports.signIn sample.unmarshal sample.mockSignIn
        (.ok "\x7b\"email\":\"email\",\"password\":\"password\"\x7d")).response.payload.json
        = [("access", "access"), ("refresh", "refresh")] ∧
      (ports.signIn sample.unmarshal sample.mockSignIn
        (.ok "\x7b\"email\":\"email\",\"password\":\"\"\x7d")).forwarded =
        [{ Email := "email", Password := "" }] :=
  have t := signIn_forwards_and_renders sample.unmarshal sample.mockSignIn
    "\x7b\"email\":\"email\",\"password\":\"password\"\x7d"
    { Email := "email", Password := "password" } rfl
  have u := signIn_forwards_and_renders sample.unmarshal sample.mockSignIn
    "\x7b\"email\":\"email\",\"password\":\"\"\x7d"
    { Email := "email", Password := "" } rfl
  ⟨t.1, (t.2 _ rfl).1, (t.2 _ rfl).2, u.1⟩

/-! ## Token creation in `createTokens` -/

/-- C22, the code at two failing inputs.  First, a token library whose
access signer fails and whose refresh signer succeeds, the goroutine of
`CreateRefresh` being the last to assign the shared `err`: `CreateAccess` has
returned an error, yet `createTokens` returns no error and a token pair whose
access token is the empty string with the nil user identity, and the refresh
row is inserted.  Second, the refresh signer fails, the access signer succeeds
and the goroutine of `CreateAccess` assigns `err` last: again no error comes
back, the refresh token handed back is the empty string with the nil user
identity, and a row with nil identities is inserted. -/
theorem createTokens_creation_error_dropped :
    (CreateAccess sample.accessFailLib sample.svc.jwtService sample.env.accessNow
        (NewAccessClaims sample.user1.UUID sample.user1.Email sample.user1.Name)).2 =
        some (.plain "signing failed") ∧
      sample.env.accessLast = false ∧
      (createTokens sample.accessFailLib sample.svc sample.env noFaults sample.user1
        sample.db).err = none ∧
      (createTokens sample.accessFailLib sample.svc sample.env noFaults sample.user1
        sample.db).val =
        { Access := { Value := "", UserId := uuidNil },
          Refresh := { Value := "new", UserId := 1 } } ∧
      (createTokens sample.accessFailLib sample.svc sample.env noFaults sample.user1
        sample.db).db.refresh_tokens = [sample.row 7 1 "old", sample.row 8 1 "new"] ∧
      (CreateRefresh sample.refreshFailLib sample.svc.jwtService sample.env2.refreshNow
        sample.env2.newUUID (NewRefreshClaims sample.user1.UUID)).2 =
        some (.plain "signing failed") ∧
      sample.env2.accessLast = true ∧
      (createTokens sample.refreshFailLib sample.svc sample.env2 noFaults sample.user1
        sample.db).err = none ∧
      (createTokens sample.refreshFailLib sample.svc sample.env2 noFaults sample.user1
        sample.db).val =
        { Access := { Value := "acc", UserId := 1 },
          Refresh := { Value := "", UserId := uuidNil } } ∧
      (createTokens sample.refreshFailLib sample.svc sample.env2 noFaults sample.user1
        sample.db).db.refresh_tokens =
        [sample.row 7 1 "old",
          { UUID := uuidNil, UserUUID := uuidNil, Token := "", CreatedAt := 5,
            UpdatedAt := 5 }] := by
  refine ⟨?_, ?_, ?_, ?_, ?_, ?_, ?_, ?_, ?_, ?_⟩ <;> decide

/-- Two more runs of `createTokens` on the sample user.  Both signers fail and
each goroutine assigns its token in place 1 and its error in place 2, after the
first check has read `err` and before `CountForUser` assigns it: no check reads
either error, `createTokens` returns a pair of empty tokens with a nil error
and inserts a row with nil identities and the empty string.  And with nothing
failing, a goroutine that reaches `wg.Done()` before `wg.Add(2)` ends the
process before any statement is sent. -/
theorem createTokens_unjoined :
    (createTokens
        { sample.accessFailLib with SignedStringRefresh := fun _ _ => .error "signing failed" }
        sample.svc
        { sample.env with
          sched := { accessAt := 1, accessErrLag := 1, accessDoneLag := 0,
                     refreshAt := 1, refreshErrLag := 1, refreshDoneLag := 0 } }
        noFaults sample.user1 sample.db).err = none ∧
      (createTokens
        { sample.accessFailLib with SignedStringRefresh := fun _ _ => .error "signing failed" }
        sample.svc
        { sample.env with
          sched := { accessAt := 1, accessErrLag := 1, accessDoneLag := 0,
                     refreshAt := 1, refreshErrLag := 1, refreshDoneLag := 0 } }
        noFaults sample.user1 sample.db).val = LoginResponse.zero ∧
      (createTokens
        { sample.accessFailLib with SignedStringRefresh := fun _ _ => .error "signing failed" }
        sample.svc
        { sample.env with
          sched := { accessAt := 1, accessErrLag := 1, accessDoneLag := 0,
                     refreshAt := 1, refreshErrLag := 1, refreshDoneLag := 0 } }
        noFaults sample.user1 sample.db).panicked = none ∧
      (createTokens
        { sample.accessFailLib with SignedStringRefresh := fun _ _ => .error "signing failed" }
        sample.svc
        { sample.env with
          sched := { accessAt := 1, accessErrLag := 1, accessDoneLag := 0,
                     refreshAt := 1, refreshErrLag := 1, refreshDoneLag := 0 } }
        noFaults sample.user1 sample.db).db.refresh_tokens =
        [sample.row 7 1 "old", sample.row uuidNil uuidNil ""] ∧
      (createTokens sample.lib sample.svc { sample.env with sched := sample.earlyDone }
        noFaults sample.user1 sample.db).panicked = some "sync: negative WaitGroup counter" ∧
      (createTokens sample.lib sample.svc { sample.env with sched := sample.earlyDone }
        noFaults sample.user1 sample.db).db = sample.db := by
  refine ⟨?_, ?_, ?_, ?_, ?_, ?_⟩ <;> decide

/-! ## The session cap over sequences of issuances -/

theorem countRows_append_row (u : UUID) (rows : List RefreshModel) (r : RefreshModel) :
    countRows u (rows ++ [r]) = countRows u rows + (if r.UserUUID = u then 1 else 0) := by
  unfold countRows
  rw [List.filter_append, List.length_append]
  by_cases h : r.UserUUID = u <;> simp [h]

theorem countRows_filter_le (u : UUID) (rows : List RefreshModel) (p : RefreshModel → Bool) :
    countRows u (rows.filter p) ≤ countRows u rows := by
  unfold countRows
  rw [List.filter_filter, ← List.countP_eq_length_filter, ← List.countP_eq_length_filter]
  apply List.countP_mono_left
  intro r _ hr
  simp only [Bool.and_eq_true] at hr
  exact hr.1

theorem countRows_wiped (u : UUID) (rows : List RefreshModel) :
    countRows u (rows.filter (fun r => decide (r.UserUUID ≠ u))) = 0 := by
  unfold countRows
  rw [filter_owner_of_others]
  rfl

/-- A signer that does not fail makes `CreateAccess` succeed. -/
theorem CreateAccess_of_signer (L : Lib) (h : JWTService) (now : Int) (c : AccessClaims)
    (hsign : ∀ c, ∃ s, L.SignedStringAccess c h.secret = .ok s) :
    (CreateAccess L h now c).2 = none := by
  unfold CreateAccess
  simp only
  obtain ⟨s, hs⟩ := hsign { c with ExpiresAt := some (expiresAt now h.accessTTL) }
  rw [hs]

/-- A signer that does not fail makes `CreateRefresh` succeed. -/
theorem CreateRefresh_of_signer (L : Lib) (h : JWTService) (now : Int) (fresh : UUID)
    (c : RefreshClaims) (hsign : ∀ c, ∃ s, L.SignedStringRefresh c h.secret = .ok s) :
    (CreateRefresh L h now fresh c).2 = none := by
  unfold CreateRefresh
  simp only
  obtain ⟨s, hs⟩ := hsign
    { UUID := fresh, UserId := c.UserId, ExpiresAt := some (expiresAt now h.refreshTTL) }
  rw [hs]

/-- The owner `CreateRefresh` stamps on the token it returns is the user of
the claims, or nil when signing failed. -/
theorem CreateRefresh_owner (L : Lib) (h : JWTService) (now : Int) (fresh : UUID)
    (c : RefreshClaims) :
    (CreateRefresh L h now fresh c).1.Claims.UserId = c.UserId ∨
      (CreateRefresh L h now fresh c).1.Claims.UserId = uuidNil := by
  unfold CreateRefresh
  simp only
  split
  · exact Or.inr rfl
  · exact Or.inl rfl

/-- An issuance that returns a token pair and lost no failure of the count or
of the wipe keeps the identity `v` within `maxUserSessions + 1` rows, when the
cap is not negative and the row of the refresh token is owned by the user the
count was taken for, or by someone other than `v`. -/
theorem cap_createTokens (L : Lib) (h : AuthService) (env : Env) (f : Faults) (u : User)
    (db : DB) (v : UUID) (hcap : 0 ≤ h.maxUserSessions)
    (hown : (CreateRefresh L h.jwtService env.refreshNow env.newUUID
        (NewRefreshClaims u.UUID)).1.Claims.UserId = u.UUID ∨
      (CreateRefresh L h.jwtService env.refreshNow env.newUUID
        (NewRefreshClaims u.UUID)).1.Claims.UserId ≠ v)
    (hinv : (countRows v db.refresh_tokens : Int) ≤ h.maxUserSessions + 1)
    (hq : env.countChecked f)
    (hok : (createTokens L h env f u db).err = none)
    (hp : (createTokens L h env f u db).panicked = none) :
    (countRows v (createTokens L h env f u db).db.refresh_tokens : Int)
      ≤ h.maxUserSessions + 1 := by
  have hbase : (countRows v
      (if (countRows u.UUID db.refresh_tokens : Int) > h.maxUserSessions then
        db.refresh_tokens.filter (fun r => decide (r.UserUUID ≠ u.UUID))
      else db.refresh_tokens) : Int) ≤ countRows v db.refresh_tokens := by
    split
    · exact_mod_cast countRows_filter_le v db.refresh_tokens
        (fun r => decide (r.UserUUID ≠ u.UUID))
    · exact le_refl _
  rcases createTokens_checked L h env f u db hq hok hp with hk | hk
  swap
  · rw [hk]
    omega
  rw [hk, countRows_append_row]
  have hrow : (newRow env.addCreatedAt env.addUpdatedAt
      (CreateRefresh L h.jwtService env.refreshNow env.newUUID
        (NewRefreshClaims u.UUID)).1).UserUUID =
      (CreateRefresh L h.jwtService env.refreshNow env.newUUID
        (NewRefreshClaims u.UUID)).1.Claims.UserId := rfl
  rw [hrow]
  by_cases hv : (CreateRefresh L h.jwtService env.refreshNow env.newUUID
      (NewRefreshClaims u.UUID)).1.Claims.UserId = v
  · have hu : u.UUID = v := by
      rcases hown with h1 | h1
      · rw [← h1, hv]
      · exact absurd hv h1
    subst hu
    rw [if_pos hv]
    by_cases hover : (countRows u.UUID db.refresh_tokens : Int) > h.maxUserSessions
    · rw [if_pos hover, countRows_wiped]
      push_cast
      omega
    · rw [if_neg hover]
      push_cast
      omega
  · rw [if_neg hv]
    push_cast
    omega

/-- Inserting a user inside a transaction never touches the ledger. -/
theorem Transactional_UserAdd_ledger (f : Faults) (u : User) (db : DB) :
    (Transactional f (fun d => UserAdd f u d) db).db.refresh_tokens = db.refresh_tokens := by
  unfold Transactional UserAdd
  cases hb : f .txBegin with
  | some e => simp [DB.log]
  | none =>
    cases hi : f .insertUser with
    | some e => simp [DB.log]
    | none =>
      cases hc : f .txCommit with
      | some e => simp [DB.log]
      | none => simp [DB.log]

theorem UserAdd_ledger (f : Faults) (u : User) (db : DB) :
    (UserAdd f u db).db.refresh_tokens = db.refresh_tokens := by
  unfold UserAdd
  cases hi : f .insertUser with
  | some e => simp [DB.log]
  | none => simp [DB.log]

/-- The settings update never touches the ledger. -/
theorem UpdateSettings_ledger (f : Faults) (id : UUID) (st : UserSettings) (db : DB) :
    (adapters.UpdateSettings f id st db).db.refresh_tokens = db.refresh_tokens := by
  unfold adapters.UpdateSettings
  cases hu : f .updateUserSettings with
  | some e => simp [DB.log]
  | none =>
    simp only
    rw [(FindById_tables _ _ _).1]
    rfl

/-- A sign-in that returns no error is an issuance on the database the lookup
left. -/
theorem SignIn_ok_shape (L : Lib) (B : Bcrypt) (h : AuthService) (env : Env) (f : Faults)
    (r : SignInRequest) (db : DB) (hok : (SignIn L B h env f r db).err = none) :
    SignIn L B h env f r db =
      createTokens L h env f (FindByEmail f r.Email db).val (db.log .selectUserByEmail) := by
  unfold SignIn at hok ⊢
  cases he : (FindByEmail f r.Email db).err with
  | some e =>
    simp only [he] at hok
    simp at hok
  | none =>
    simp only [he] at hok ⊢
    cases hp : CheckPasswordHash B r.Password (FindByEmail f r.Email db).val.Hash with
    | false =>
      simp only [hp] at hok
      simp at hok
    | true =>
      simp only [hp, FindByEmail_db]
      rfl

/-- A sign-up that returns no error is an issuance on a database with the
same ledger. -/
theorem SignUp_ok_shape (L : Lib) (B : Bcrypt) (h : AuthService) (env : NewUserEnv)
    (f : Faults) (r : SignUpRequest) (db : DB) (hok : (SignUp L B h env f r db).err = none) :
    ∃ (u : User) (d : DB), d.refresh_tokens = db.refresh_tokens ∧
      SignUp L B h env f r db = createTokens L h env.issue f u d := by
  cases hp : (FindByEmail f r.Email db).err with
  | none =>
    rw [SignUp_found L B h env f r db hp] at hok
    simp at hok
  | some e =>
    cases hnf : IsNotFound e with
    | false =>
      rw [SignUp_probe_error L B h env f r db e hp hnf] at hok
      simp at hok
    | true =>
      unfold SignUp at hok ⊢
      simp only [hp, hnf] at hok ⊢
      cases hh : (HashPassword B r.Password).2 with
      | some e2 =>
        simp only [hh] at hok
        simp at hok
      | none =>
        simp only [hh] at hok ⊢
        cases ht : (Transactional f (fun d => UserAdd f
            (NewUser env.userUUID r.Email r.Name (HashPassword B r.Password).1
              DefaultUserSettings env.createdAt env.updatedAt) d)
            (FindByEmail f r.Email db).db).err with
        | some e3 =>
          simp only [ht] at hok
          simp at hok
        | none =>
          simp only [ht]
          refine ⟨_, _, ?_, rfl⟩
          rw [Transactional_UserAdd_ledger, FindByEmail_db]
          rfl

/-- A federated sign-in that returns no error is an issuance on a database
with the same ledger. -/
theorem GoogleSignIn_ok_shape (V : idtoken.Validator) (L : Lib) (B : Bcrypt) (h : AuthService)
    (env : NewUserEnv) (f : Faults) (tok : String) (db : DB)
    (hok : (GoogleSignIn V L B h env f tok db).err = none) :
    ∃ (u : User) (d : DB), d.refresh_tokens = db.refresh_tokens ∧
      GoogleSignIn V L B h env f tok db = createTokens L h env.issue f u d := by
  cases hv : V tok h.googleKey with
  | error e =>
    simp only [GoogleSignIn, hv] at hok
    simp at hok
  | ok p =>
    cases hp : (FindByEmail f (idtoken.sprintfS (p.Claims "email")) db).err with
    | none =>
      rw [GoogleSignIn_known V L B h env f tok db p hv hp]
      refine ⟨_, _, ?_, rfl⟩
      rw [UpdateSettings_ledger]
      rfl
    | some e =>
      cases hnf : IsNotFound e with
      | false =>
        simp only [GoogleSignIn, hv, hp, hnf] at hok
        simp at hok
      | true =>
        simp only [GoogleSignIn, hv, hp, hnf] at hok ⊢
        cases hh : (HashPassword B env.password).2 with
        | some e2 =>
          simp only [hh] at hok
          simp at hok
        | none =>
          simp only [hh] at hok ⊢
          cases ha : (UserAdd f
              (NewUser env.userUUID (idtoken.sprintfS (p.Claims "email"))
                (idtoken.sprintfS (p.Claims "name")) (HashPassword B env.password).1
                DefaultUserSettings env.createdAt env.updatedAt)
              (FindByEmail f (idtoken.sprintfS (p.Claims "email")) db).db).err with
          | some e3 =>
            simp only [ha] at hok
            simp at hok
          | none =>
            simp only [ha]
            refine ⟨_, _, ?_, rfl⟩
            rw [UserAdd_ledger, FindByEmail_db]
            rfl

/-- A refresh that returns no error is an issuance on a database whose ledger
is the old one without the rows of the consumed identity. -/
theorem Refresh_ok_shape (L : Lib) (h : AuthService) (env : Env) (f : Faults) (raw : String)
    (db : DB) (hok : (Refresh L h env f raw db).err = none) :
    ∃ (u : User) (d : DB) (p : RefreshModel → Bool),
      d.refresh_tokens = db.refresh_tokens.filter p ∧
      Refresh L h env f raw db = createTokens L h env f u d := by
  obtain ⟨hv, hexe, hexv⟩ := Refresh_ok_inv L h env f raw db hok
  have hR := Refresh_found L h env f raw db hv hexe hexv
  cases hd : (Delete f (ValidateRefresh L h.jwtService raw).1.Claims.UUID
      (db.log .selectRefreshToken)).err with
  | some e =>
    simp only [hd] at hR
    rw [hR] at hok
    simp at hok
  | none =>
    simp only [hd] at hR
    obtain ⟨-, hdl, -⟩ := Delete_ok f (ValidateRefresh L h.jwtService raw).1.Claims.UUID
      (db.log .selectRefreshToken) (Delete_err_none f _ _ hd)
    cases hu : (FindById f (ValidateRefresh L h.jwtService raw).1.Claims.UserId
        (Delete f (ValidateRefresh L h.jwtService raw).1.Claims.UUID
          (db.log .selectRefreshToken)).db).err with
    | some e =>
      simp only [hu] at hR
      rw [hR] at hok
      simp at hok
    | none =>
      simp only [hu] at hR
      refine ⟨_, _,
        fun r => decide (r.UUID ≠ (ValidateRefresh L h.jwtService raw).1.Claims.UUID), ?_, hR⟩
      rw [(FindById_tables _ _ _).1, hdl]
      rfl

/-- In every database reached from an empty ledger by issuances that return a
token pair and lose no failure of the count or of the wipe, an identity holds
at most `maxUserSessions + 1` rows, provided the refresh signer does not fail
or the identity is not nil. -/
theorem Issued_cap (V : idtoken.Validator) (L : Lib) (B : Bcrypt) (h : AuthService)
    (hcap : 0 ≤ h.maxUserSessions) (v : UUID)
    (hv : (∀ c, ∃ s, L.SignedStringRefresh c h.jwtService.secret = .ok s) ∨ v ≠ uuidNil)
    (db : DB) (hdb : Issued V L B h db) :
    (countRows v db.refresh_tokens : Int) ≤ h.maxUserSessions + 1 := by
  have hown : ∀ (env : Env) (u : User),
      (CreateRefresh L h.jwtService env.refreshNow env.newUUID
          (NewRefreshClaims u.UUID)).1.Claims.UserId = u.UUID ∨
        (CreateRefresh L h.jwtService env.refreshNow env.newUUID
          (NewRefreshClaims u.UUID)).1.Claims.UserId ≠ v := by
    intro env u
    rcases hv with hsign | hne
    · exact Or.inl (CreateRefresh_ok L h.jwtService env.refreshNow env.newUUID
        (NewRefreshClaims u.UUID)
        (CreateRefresh_of_signer L h.jwtService env.refreshNow env.newUUID _ hsign)).2
    · rcases CreateRefresh_owner L h.jwtService env.refreshNow env.newUUID
        (NewRefreshClaims u.UUID) with h1 | h1
      · exact Or.inl h1
      · exact Or.inr (by rw [h1]; exact fun hnil => hne hnil.symm)
  induction hdb with
  | start users trace =>
    simp [countRows]
    omega
  | signUp db env f r _ hok hp hq ih =>
    obtain ⟨u, d, hl, heq⟩ := SignUp_ok_shape L B h env f r db hok
    rw [heq] at hok hp ⊢
    exact cap_createTokens L h env.issue f u d v hcap (hown env.issue u) (by rw [hl]; exact ih)
      hq hok hp
  | signIn db env f r _ hok hp hq ih =>
    have heq := SignIn_ok_shape L B h env f r db hok
    rw [heq] at hok hp ⊢
    exact cap_createTokens L h env f _ _ v hcap (hown env _) ih hq hok hp
  | refresh db env f tokenString _ hok hp hq ih =>
    obtain ⟨u, d, p, hl, heq⟩ := Refresh_ok_shape L h env f tokenString db hok
    rw [heq] at hok hp ⊢
    have hle := countRows_filter_le v db.refresh_tokens p
    exact cap_createTokens L h env f u d v hcap (hown env u) (by rw [hl]; omega) hq hok hp
  | google db env f tokenString _ hok hp hq ih =>
    obtain ⟨u, d, hl, heq⟩ := GoogleSignIn_ok_shape V L B h env f tokenString db hok
    rw [heq] at hok hp ⊢
    exact cap_createTokens L h env.issue f u d v hcap (hown env.issue u) (by rw [hl]; exact ih)
      hq hok hp

/-- The email lookup reads the user table only. -/
theorem FindByEmail_congr (f : Faults) (email : String) (db1 db2 : DB)
    (h : db1.users = db2.users) :
    (FindByEmail f email db1).err = (FindByEmail f email db2).err ∧
      (FindByEmail f email db1).val = (FindByEmail f email db2).val := by
  unfold FindByEmail
  simp only [h]
  split
  · split <;> exact ⟨rfl, rfl⟩
  · exact ⟨rfl, rfl⟩

/-- One sign-in of a known user with the right password, below the wipe
threshold, with nothing failing and a run that completes: no error, no panic,
user table untouched, one more row for the user. -/
theorem SignIn_adds_row (L : Lib) (B : Bcrypt) (h : AuthService) (env : Env)
    (r : SignInRequest) (db : DB) (hs : env.sched.completes)
    (hsignA : ∀ c, ∃ s, L.SignedStringAccess c h.jwtService.secret = .ok s)
    (hsignR : ∀ c, ∃ s, L.SignedStringRefresh c h.jwtService.secret = .ok s)
    (hfound : (FindByEmail noFaults r.Email db).err = none)
    (hpw : CheckPasswordHash B r.Password (FindByEmail noFaults r.Email db).val.Hash = true)
    (hle : (countRows (FindByEmail noFaults r.Email db).val.UUID db.refresh_tokens : Int)
      ≤ h.maxUserSessions) :
    (SignIn L B h env noFaults r db).err = none ∧
      (SignIn L B h env noFaults r db).panicked = none ∧
      (SignIn L B h env noFaults r db).db.users = db.users ∧
      countRows (FindByEmail noFaults r.Email db).val.UUID
          (SignIn L B h env noFaults r db).db.refresh_tokens =
        countRows (FindByEmail noFaults r.Email db).val.UUID db.refresh_tokens + 1 := by
  have heq : SignIn L B h env noFaults r db =
      createTokens L h env noFaults (FindByEmail noFaults r.Email db).val
        (db.log .selectUserByEmail) := by
    unfold SignIn
    simp only [hfound, hpw, FindByEmail_db]
    rfl
  have hacc := CreateAccess_of_signer L h.jwtService env.accessNow
    (NewAccessClaims (FindByEmail noFaults r.Email db).val.UUID
      (FindByEmail noFaults r.Email db).val.Email (FindByEmail noFaults r.Email db).val.Name)
    hsignA
  have href := CreateRefresh_of_signer L h.jwtService env.refreshNow env.newUUID
    (NewRefreshClaims (FindByEmail noFaults r.Email db).val.UUID) hsignR
  have hnot : ¬ (countRows (FindByEmail noFaults r.Email db).val.UUID
      (db.log Query.selectUserByEmail).refresh_tokens : Int) > h.maxUserSessions :=
    not_lt.mpr hle
  have hr := createTokens_succeeds L h env noFaults (FindByEmail noFaults r.Email db).val
    (db.log .selectUserByEmail) hs hacc href rfl (fun _ => rfl) rfl
  have hp := createTokens_returns L h env noFaults (FindByEmail noFaults r.Email db).val
    (db.log .selectUserByEmail) hs hacc href rfl (fun _ => rfl) rfl
  have hl := createTokens_ledger L h env noFaults (FindByEmail noFaults r.Email db).val
    (db.log .selectUserByEmail) hs hacc href rfl (fun _ => rfl) rfl
  rw [if_neg hnot] at hl
  rw [heq]
  refine ⟨hr.1, hp, ?_, ?_⟩
  · rw [createTokens_users]
    rfl
  · rw [hl, countRows_append_row]
    simp
    rfl

/-- Consecutive sign-ins of one user that stay below the wipe threshold, with
nothing failing and runs that complete: each returns a token pair and each
adds one row. -/
theorem signInTimes_count (V : idtoken.Validator) (L : Lib) (B : Bcrypt) (h : AuthService)
    (r : SignInRequest) (db0 : DB)
    (hsignA : ∀ c, ∃ s, L.SignedStringAccess c h.jwtService.secret = .ok s)
    (hsignR : ∀ c, ∃ s, L.SignedStringRefresh c h.jwtService.secret = .ok s)
    (hfound : (FindByEmail noFaults r.Email db0).err = none)
    (hpw : CheckPasswordHash B r.Password (FindByEmail noFaults r.Email db0).val.Hash = true)
    (envs : List Env) :
    (∀ e ∈ envs, e.sched.completes) →
    ∀ db : DB, db.users = db0.users → Issued V L B h db →
      (countRows (FindByEmail noFaults r.Email db0).val.UUID db.refresh_tokens : Int)
        + envs.length ≤ h.maxUserSessions + 1 →
      Issued V L B h (signInTimes L B h r envs db) ∧
        countRows (FindByEmail noFaults r.Email db0).val.UUID
            (signInTimes L B h r envs db).refresh_tokens =
          countRows (FindByEmail noFaults r.Email db0).val.UUID db.refresh_tokens
            + envs.length := by
  induction envs with
  | nil =>
    intro _ db _ hiss _
    exact ⟨hiss, rfl⟩
  | cons env rest ih =>
    intro henvs db husers hiss hbound
    obtain ⟨hce, hcv⟩ := FindByEmail_congr noFaults r.Email db db0 husers
    have hfound2 : (FindByEmail noFaults r.Email db).err = none := by rw [hce, hfound]
    have hpw2 : CheckPasswordHash B r.Password (FindByEmail noFaults r.Email db).val.Hash
        = true := by rw [hcv, hpw]
    have hlen : ((env :: rest).length : Int) = rest.length + 1 := by
      simp
    have hle : (countRows (FindByEmail noFaults r.Email db).val.UUID db.refresh_tokens : Int)
        ≤ h.maxUserSessions := by
      rw [hcv]
      omega
    obtain ⟨hok, hp, hu, hcount⟩ := SignIn_adds_row L B h env r db
      (henvs env (List.mem_cons_self _ _)) hsignA hsignR hfound2 hpw2 hle
    rw [hcv] at hcount
    have hnext := ih (fun e he => henvs e (List.mem_cons_of_mem _ he))
      (SignIn L B h env noFaults r db).db (by rw [hu, husers])
      (Issued.signIn db env noFaults r hiss hok hp (Or.inr ⟨rfl, rfl⟩))
      (by
        rw [hcount]
        push_cast
        omega)
    refine ⟨hnext.1, ?_⟩
    show countRows _ (signInTimes L B h r rest (SignIn L B h env noFaults r db).db).refresh_tokens
      = _
    rw [hnext.2, hcount]
    simp
    omega

/-- What holds of the cap when no failure is lost.  With `maxUserSessions ≥ 0`,
in every database reached from an empty ledger by issuances that return a token
pair and lose no failure of the count or of the wipe, every user identity other
than nil holds at most `maxUserSessions + 1` refresh rows, and so does the nil
identity when the refresh signer does not fail; and the bound is reached:
`maxUserSessions + 1` consecutive sign-ins of one user (known email, right
password, nothing failing, each run completing) from an empty ledger are such
a sequence and leave that user exactly `maxUserSessions + 1` rows. -/
theorem cap_when_nothing_lost (V : idtoken.Validator) (L : Lib) (B : Bcrypt)
    (h : AuthService) (hcap : 0 ≤ h.maxUserSessions) :
    (∀ db, Issued V L B h db → ∀ u : UUID,
        ((∀ c, ∃ s, L.SignedStringRefresh c h.jwtService.secret = .ok s) ∨ u ≠ uuidNil) →
        (countRows u db.refresh_tokens : Int) ≤ h.maxUserSessions + 1) ∧
      (∀ (r : SignInRequest) (db0 : DB) (envs : List Env),
        (∀ c, ∃ s, L.SignedStringAccess c h.jwtService.secret = .ok s) →
        (∀ c, ∃ s, L.SignedStringRefresh c h.jwtService.secret = .ok s) →
        db0.refresh_tokens = [] →
        (FindByEmail noFaults r.Email db0).err = none →
        CheckPasswordHash B r.Password (FindByEmail noFaults r.Email db0).val.Hash = true →
        (envs.length : Int) = h.maxUserSessions + 1 →
        (∀ e ∈ envs, e.sched.completes) →
        Issued V L B h (signInTimes L B h r envs db0) ∧
          (countRows (FindByEmail noFaults r.Email db0).val.UUID
            (signInTimes L B h r envs db0).refresh_tokens : Int) = h.maxUserSessions + 1) := by
  constructor
  · intro db hdb u hu
    exact Issued_cap V L B h hcap u hu db hdb
  · intro r db0 envs hsignA hsignR hempty hfound hpw hlen henvs
    have hstart : Issued V L B h db0 := by
      have hs := @Issued.start V L B h db0.users db0.trace
      rw [← hempty] at hs
      exact hs
    have hzero : countRows (FindByEmail noFaults r.Email db0).val.UUID db0.refresh_tokens
        = 0 := by
      rw [hempty]
      rfl
    obtain ⟨hiss, hcount⟩ := signInTimes_count V L B h r db0 hsignA hsignR hfound hpw envs
      henvs db0 rfl hstart (by
        rw [hzero]
        push_cast
        omega)
    refine ⟨hiss, ?_⟩
    rw [hcount, hzero]
    push_cast
    omega

/-- C23, the code at a failing input: the cap is 1 and the ledger is empty.
The sample user signs in three times; each sign-in returns a token pair and a
nil error.  In the third the session count fails, and the goroutine that
creates the access token assigns its nil error to the shared `err` after
`createTokens` has assigned the error of `CountForUser` and before
`createTokens` checks it (place 3): the check reads nil, the count is taken to
be 0, nothing is wiped and a third row is inserted.  The user holds 3 rows,
one more than `maxUserSessions + 1`.  With nothing failing the third sign-in
wipes the two rows and leaves one. -/
theorem cap_exceeded_by_two :
    sample.emptyLedger.refresh_tokens = [] ∧
      sample.svc1.maxUserSessions = 1 ∧
      (SignIn sample.lib sample.bcrypt sample.svc1 sample.env noFaults ⟨"a@b.com", "pw"⟩
        sample.emptyLedger).val =
        { Access := { Value := "acc", UserId := 1 },
          Refresh := { Value := "new", UserId := 1 } } ∧
      (SignIn sample.lib sample.bcrypt sample.svc1 sample.env2 noFaults ⟨"a@b.com", "pw"⟩
        (SignIn sample.lib sample.bcrypt sample.svc1 sample.env noFaults ⟨"a@b.com", "pw"⟩
          sample.emptyLedger).db).val =
        { Access := { Value := "acc", UserId := 1 },
          Refresh := { Value := "new", UserId := 1 } } ∧
      (SignIn sample.lib sample.bcrypt sample.svc1
        { sample.env with newUUID := 10, sched := sample.lateErr 3 } sample.countDown
        ⟨"a@b.com", "pw"⟩
        (SignIn sample.lib sample.bcrypt sample.svc1 sample.env2 noFaults ⟨"a@b.com", "pw"⟩
          (SignIn sample.lib sample.bcrypt sample.svc1 sample.env noFaults ⟨"a@b.com", "pw"⟩
            sample.emptyLedger).db).db).err = none ∧
      (SignIn sample.lib sample.bcrypt sample.svc1
        { sample.env with newUUID := 10, sched := sample.lateErr 3 } sample.countDown
        ⟨"a@b.com", "pw"⟩
        (SignIn sample.lib sample.bcrypt sample.svc1 sample.env2 noFaults ⟨"a@b.com", "pw"⟩
          (SignIn sample.lib sample.bcrypt sample.svc1 sample.env noFaults ⟨"a@b.com", "pw"⟩
            sample.emptyLedger).db).db).val =
        { Access := { Value := "acc", UserId := 1 },
          Refresh := { Value := "new", UserId := 1 } } ∧
      (SignIn sample.lib sample.bcrypt sample.svc1
        { sample.env with newUUID := 10, sched := sample.lateErr 3 } sample.countDown
        ⟨"a@b.com", "pw"⟩
        (SignIn sample.lib sample.bcrypt sample.svc1 sample.env2 noFaults ⟨"a@b.com", "pw"⟩
          (SignIn sample.lib sample.bcrypt sample.svc1 sample.env noFaults ⟨"a@b.com", "pw"⟩
            sample.emptyLedger).db).db).db.refresh_tokens.map (fun m => (m.UUID, m.UserUUID)) =
        [(8, 1), (9, 1), (10, 1)] ∧
      (CountForUser noFaults 1
        (SignIn sample.lib sample.bcrypt sample.svc1
          { sample.env with newUUID := 10, sched := sample.lateErr 3 } sample.countDown
          ⟨"a@b.com", "pw"⟩
          (SignIn sample.lib sample.bcrypt sample.svc1 sample.env2 noFaults ⟨"a@b.com", "pw"⟩
            (SignIn sample.lib sample.bcrypt sample.svc1 sample.env noFaults ⟨"a@b.com", "pw"⟩
              sample.emptyLedger).db).db).db).val = 3 ∧
      (SignIn sample.lib sample.bcrypt sample.svc1 { sample.env with newUUID := 10 } noFaults
        ⟨"a@b.com", "pw"⟩
        (SignIn sample.lib sample.bcrypt sample.svc1 sample.env2 noFaults ⟨"a@b.com", "pw"⟩
          (SignIn sample.lib sample.bcrypt sample.svc1 sample.env noFaults ⟨"a@b.com", "pw"⟩
            sample.emptyLedger).db).db).db.refresh_tokens.map (fun m => (m.UUID, m.UserUUID)) =
        [(10, 1)] := by
  refine ⟨rfl, rfl, ?_, ?_, ?_, ?_, ?_, ?_, ?_⟩ <;> decide

end Users
